import Mathlib

/-!
# GPredict (OSC fork): the module update cycle and the event list

A shallow embedding of `src/gtk-sat-module.c` (the periodic update cycle of a
`GtkSatModule`, its clock, its counters and its satellite registry) and of
`src/gtk-event-list.c` (the AOS/LOS countdown list).

Conventions of the embedding

* C `double` values are rationals (`ℚ`); `guint` counters are naturals with an
  explicit `% 2 ^ 32` where the C code increments them; `gint` values are
  integers.
* The `GHashTable` of satellites is an association list keyed by the `guint`
  catalogue number; the order of its entries carries no meaning.
* Widgets that a module points to (its views) are stored by value.
* Every call that leaves the two source files (logging, the orbit library, the
  OSC transport, other widgets) is recorded, in program order, as an `Effect`.
  Such a call writes to no field of the module and to no satellite of the
  registry: views read the registry, the time controller is refreshed from the
  module.
* Functions and constants that are declared outside the two source files are
  fields of `Env`.
* The cycle lock is the field `busy`. The timer callback never waits for it; a
  holder other than the callback is part of the input of a tick (`Tick.held`).

The file has three parts: the definitions, lemmas on them, and the claims
`C1`, `C2`, ... of the specification, each with a worked instance.
-/

namespace GPredict

/-! ## Data model -/

/-- Log levels of `sat_log_log` that the two source files use. -/
inductive sat_log_level_t
  | SAT_LOG_LEVEL_BUG
  | SAT_LOG_LEVEL_ERROR
  | SAT_LOG_LEVEL_WARN
  | SAT_LOG_LEVEL_MSG
  | SAT_LOG_LEVEL_DEBUG
  deriving DecidableEq

/-- Orbit classification of a satellite. The enumeration is declared in the
orbit library; the source names only the two members below, every other member
is `ORBIT_TYPE_OTHER`. -/
inductive orbit_type_t
  | ORBIT_TYPE_GEO
  | ORBIT_TYPE_DECAYED
  | ORBIT_TYPE_OTHER (tag : Nat)
  deriving DecidableEq

/-- Display state of a module (`module->state`). -/
inductive gtk_sat_mod_state_t
  | GTK_SAT_MOD_STATE_DOCKED
  | GTK_SAT_MOD_STATE_WINDOW
  | GTK_SAT_MOD_STATE_FULLSCREEN
  deriving DecidableEq

/-- The kinds of view that `create_view` knows. -/
inductive gtk_sat_mod_view_t
  | GTK_SAT_MOD_VIEW_LIST
  | GTK_SAT_MOD_VIEW_MAP
  | GTK_SAT_MOD_VIEW_POLAR
  | GTK_SAT_MOD_VIEW_SINGLE
  | GTK_SAT_MOD_VIEW_EVENT
  deriving DecidableEq

/-- Observer location (`qth_t`), as far as the module reads it. -/
structure qth_t where
  lat : ℚ
  lon : ℚ
  alt : Int
  deriving DecidableEq

/-- A tracked satellite (`sat_t`): the fields that the two source files read or
write. The position and velocity vectors and the internal state of the
SGP4/SDP4 propagator stay inside `Env.propagate`. -/
structure sat_t where
  nickname : String
  catnr : Int
  otype : orbit_type_t
  flags : Nat
  jul_epoch : ℚ
  jul_utc : ℚ
  tsince : ℚ
  aos : ℚ
  los : ℚ
  az : ℚ
  el : ℚ
  range : ℚ
  range_rate : ℚ
  ssplat : ℚ
  ssplon : ℚ
  alt : ℚ
  velo : ℚ
  ma : ℚ
  phase : ℚ
  footprint : ℚ
  orbit : Int
  deriving DecidableEq

/-- What lines 974-1024 of `gtk_sat_module_update_sat` compute from the
propagated state and store in the satellite. -/
structure Observation where
  az : ℚ
  el : ℚ
  range : ℚ
  range_rate : ℚ
  ssplat : ℚ
  ssplon : ℚ
  alt : ℚ
  velo : ℚ
  ma : ℚ
  phase : ℚ
  footprint : ℚ
  orbit : Int
  deriving DecidableEq

/-- A call that leaves the two source files, in program order. -/
inductive Effect
  | log (level : sat_log_level_t) (text : String)
  | find_aos (catnr : Int) (daynum : ℚ) (maxdt : ℚ)
  | find_los (catnr : Int) (daynum : ℚ) (maxdt : ℚ)
  | lo_send (address : String) (az el alt velo : ℚ)
  | set_header (tmgCdnum : ℚ)
  | tmg_update_state
  | tmg_update_widgets
  | gtk_rig_ctrl_update (tstamp : ℚ)
  | gtk_rot_ctrl_update (tstamp : ℚ)
  | gtk_sky_glance_new (tstamp : ℚ)
  | child_update (kind : gtk_sat_mod_view_t) (tstamp : ℚ)
  | child_reload (kind : gtk_sat_mod_view_t)
  deriving DecidableEq

/-- The effects that are a search for the next AOS or LOS. -/
def Effect.isEventSearch : Effect → Bool
  | Effect.find_aos _ _ _ => true
  | Effect.find_los _ _ _ => true
  | _ => false

/-- The log entries of a given level. -/
def Effect.hasLevel (l : sat_log_level_t) : Effect → Bool
  | Effect.log l1 _ => l1 == l
  | _ => false

/-- The calls of `find_aos`. -/
def Effect.isFindAos : Effect → Bool
  | Effect.find_aos _ _ _ => true
  | _ => false

/-- The calls of `find_los`. -/
def Effect.isFindLos : Effect → Bool
  | Effect.find_los _ _ _ => true
  | _ => false

/-- The OSC messages handed to `lo_send`. -/
def Effect.isOscSend : Effect → Bool
  | Effect.lo_send _ _ _ _ _ => true
  | _ => false

/-- One row of the list store of a `GtkEventList`
(columns name, catnum, az, el, event type, time). -/
structure EventRow where
  name : String
  catnum : Int
  az : ℚ
  el : ℚ
  evt : Bool
  time : ℚ
  deriving DecidableEq

/-- The event list widget: its time stamp and the rows of its tree model. The
satellite table it points to is the table of the module (`evlist->satellites`),
passed as an argument where it is read. -/
structure GtkEventList where
  tstamp : ℚ
  rows : List EventRow
  deriving DecidableEq

/-- A view of a module. Only the event list is part of the source; of the
other widgets the module writes the time stamp and calls the update
function. -/
inductive GtkWidget
  | sat_list (tstamp : ℚ)
  | sat_map (tstamp : ℚ)
  | polar_view (tstamp : ℚ)
  | single_sat (tstamp : ℚ)
  | event_list (evlist : GtkEventList)
  | unknown
  deriving DecidableEq

/-- The satellite registry (`module->satellites`). -/
abbrev SatTable := List (Nat × sat_t)

/-- The part of the module configuration file (`module->cfgdata`) that is read
after start-up: the list of catalogue numbers, or the error message of
`g_key_file_get_integer_list`. -/
structure GKeyFile where
  sats : Except String (List Int)

/-- The `GtkSatModule` widget. `busy` is the cycle lock (`true`: held);
`rigctrl`, `rotctrl` tell whether the controller pointer is non-NULL; `skg` is
the sky-at-a-glance widget with the time it was created for. -/
structure GtkSatModule where
  name : String
  cfgdata : GKeyFile
  qth : qth_t
  satellites : SatTable
  state : gtk_sat_mod_state_t
  busy : Bool
  timeout : Nat
  throttle : Int
  rtNow : ℚ
  rtPrev : ℚ
  tmgPdnum : ℚ
  tmgCdnum : ℚ
  tmgActive : Bool
  head_count : Nat
  head_timeout : Nat
  event_count : Nat
  event_timeout : Nat
  nviews : Nat
  grid : List Int
  views : List GtkWidget
  rigctrl : Bool
  rotctrl : Bool
  skg : Option ℚ
  lastSkgUpd : ℚ

/-- Everything the two source files take from the rest of the program. -/
structure Env where
  /-- The function `has_aos (sat, qth)` of the prediction library. -/
  has_aos : sat_t → qth_t → Bool
  /-- The function `find_aos (sat, qth, start, maxdt)`. -/
  find_aos : sat_t → qth_t → ℚ → ℚ → ℚ
  /-- The function `find_los (sat, qth, start, maxdt)`. -/
  find_los : sat_t → qth_t → ℚ → ℚ → ℚ
  /-- SGP4 or SDP4 followed by the observer geometry, lines 974-1024. -/
  propagate : sat_t → qth_t → Observation
  /-- Minutes per day, a constant of the orbit library. -/
  xmnpda : ℚ
  /-- The value of `sat_cfg_get_int (SAT_CFG_INT_PRED_LOOK_AHEAD)`. -/
  pred_look_ahead : Int
  /-- The value of `sat_cfg_get_bool (SAT_CFG_BOOL_SEND_OSC)`. -/
  send_osc : Bool
  /-- The function `gtk_sat_data_read_sat (catnum, sat)`: `none` when it reports an error. -/
  gtk_sat_data_read_sat : Int → Option sat_t
  /-- The function `gtk_sat_data_init_sat (sat, qth)`. -/
  gtk_sat_data_init_sat : sat_t → qth_t → sat_t
  /-- The member of `gtk_sat_mod_view_t` that a number of the grid stands for. -/
  view_of_num : Int → Option gtk_sat_mod_view_t
  /-- The traversal `gtk_tree_model_foreach` of the toolkit over a list store,
  for a callback that rewrites or removes (`none`) the row it is given: the
  rows of the store afterwards, and the rows the callback was called on, in the
  order of the calls. -/
  gtk_tree_model_foreach :
    (EventRow → Option EventRow) → List EventRow → List EventRow × List EventRow

/-- What the timer callback reads from outside the module when it fires. -/
structure TickEnv where
  /-- The value of `mod_mgr_mod_is_visible (module)`. -/
  visible : Bool
  /-- Bit `GDK_WINDOW_STATE_ICONIFIED` of `gdk_window_get_state`. -/
  iconified : Bool
  /-- The value of `get_current_daynum ()`. -/
  now : ℚ

/-- The outcome of a function that changes the module. -/
structure Outcome where
  module : GtkSatModule
  ret : Bool
  trace : List Effect

/-! ## The satellite registry -/

/-- Conversion of a `gint` to the `guint` hash key (`*key = sats[i]`). -/
def guint_of_gint (i : Int) : Nat := (i % 2 ^ 32).toNat

/-- The lookup `g_hash_table_lookup`. -/
def g_hash_table_lookup (t : SatTable) (key : Nat) : Option sat_t :=
  (t.find? (fun e => e.1 == key)).map Prod.snd

/-- The insertion `g_hash_table_insert`: an existing entry of the key is replaced. -/
def g_hash_table_insert (t : SatTable) (key : Nat) (sat : sat_t) : SatTable :=
  t.filter (fun e => e.1 != key) ++ [(key, sat)]

/-- The function `g_hash_table_foreach_remove`: the entries for which `f` returns TRUE are
removed. -/
def g_hash_table_foreach_remove (t : SatTable) (f : Nat → sat_t → Bool) : SatTable :=
  t.filter (fun e => !f e.1 e.2)

/-- The callback `empty` of `gtk_sat_module_reload_sats`. -/
def empty (_key : Nat) (_val : sat_t) : Bool := true

/-- The traversal `g_hash_table_foreach` with a callback that rewrites the value it is given
and reports its calls. -/
def g_hash_table_foreach (t : SatTable) (f : Nat → sat_t → sat_t × List Effect) :
    SatTable × List Effect :=
  (t.map (fun e => (e.1, (f e.1 e.2).1)), (t.map (fun e => (f e.1 e.2).2)).flatten)

/-! ## Updating one satellite -/

/-- The function `gtk_sat_module_update_sat (key, val, data)`, the callback of
the two registry traversals of a cycle. Lines 952-970 recompute AOS and LOS,
lines 974-1024 refresh the per-cycle fields, lines 1034-1046 send the OSC
message. -/
def gtk_sat_module_update_sat (env : Env) (module : GtkSatModule) (_key : Nat) (val : sat_t) :
    sat_t × List Effect :=
  let daynum := module.tmgCdnum
  let maxdt : ℚ := env.pred_look_ahead
  let events : Bool :=
    module.event_count == 0 && val.otype != orbit_type_t.ORBIT_TYPE_GEO &&
      val.otype != orbit_type_t.ORBIT_TYPE_DECAYED && env.has_aos val module.qth
  let sat1 : sat_t :=
    if events then { val with aos := env.find_aos val module.qth daynum maxdt } else val
  let sat2 : sat_t :=
    if events then { sat1 with los := env.find_los sat1 module.qth daynum maxdt } else sat1
  let tr_events : List Effect :=
    if events then [Effect.find_aos val.catnr daynum maxdt, Effect.find_los val.catnr daynum maxdt]
    else []
  let sat3 : sat_t :=
    { sat2 with jul_utc := daynum, tsince := (daynum - sat2.jul_epoch) * env.xmnpda }
  let obs := env.propagate sat3 module.qth
  let sat4 : sat_t :=
    { sat3 with
      az := obs.az, el := obs.el, range := obs.range, range_rate := obs.range_rate,
      ssplat := obs.ssplat, ssplon := obs.ssplon, alt := obs.alt, velo := obs.velo,
      ma := obs.ma, phase := obs.phase, footprint := obs.footprint, orbit := obs.orbit }
  let tr_osc : List Effect :=
    if env.send_osc then
      [Effect.lo_send ("/gpredict/sat/" ++ toString sat4.catnr) sat4.az sat4.el sat4.alt sat4.velo]
    else []
  (sat4, tr_events ++ tr_osc)

/-! ## The event list -/

/-- The callback `event_list_update_sats (model, path, iter, data)` on one row:
`none` when the row is removed from the list store. `satellites` is
`evlist->satellites`, `tstamp` is `evlist->tstamp`. -/
def event_list_update_sats (satellites : SatTable) (tstamp : ℚ) (row : EventRow) :
    Option EventRow × List Effect :=
  match g_hash_table_lookup satellites (guint_of_gint row.catnum) with
  | none =>
    (none,
      [Effect.log sat_log_level_t.SAT_LOG_LEVEL_MSG
          ("event_list_update_sats: Failed to get data for #" ++ toString row.catnum ++ "."),
       Effect.log sat_log_level_t.SAT_LOG_LEVEL_BUG
          ("event_list_update_sats: Satellite #" ++ toString row.catnum ++ " removed from list.")])
  | some sat =>
    let now := tstamp
    let number : ℚ :=
      if sat.el > 0 then
        if sat.los > 0 then sat.los - now else -1
      else
        if sat.aos > 0 then sat.aos - now else -1
    (some { row with az := sat.az, el := sat.el, evt := decide (sat.el ≥ 0), time := number }, [])

/-- The function `gtk_event_list_update (widget)`: every row of the tree model
is handed to `event_list_update_sats`. -/
def gtk_event_list_update (env : Env) (satellites : SatTable) (evlist : GtkEventList) :
    GtkEventList × List Effect :=
  let f := event_list_update_sats satellites evlist.tstamp
  let r := env.gtk_tree_model_foreach (fun row => (f row).1) evlist.rows
  ({ evlist with rows := r.1 }, (r.2.map (fun row => (f row).2)).flatten)

/-! ## The update cycle -/

/-- The function `update_child (child, tstamp)`. The update functions of the
four widgets outside the source are recorded as effects; a pointer that is
no view at all is logged. -/
def update_child (env : Env) (satellites : SatTable) (child : GtkWidget) (tstamp : ℚ) :
    GtkWidget × List Effect :=
  match child with
  | GtkWidget.sat_list _ =>
    (GtkWidget.sat_list tstamp,
      [Effect.child_update gtk_sat_mod_view_t.GTK_SAT_MOD_VIEW_LIST tstamp])
  | GtkWidget.sat_map _ =>
    (GtkWidget.sat_map tstamp,
      [Effect.child_update gtk_sat_mod_view_t.GTK_SAT_MOD_VIEW_MAP tstamp])
  | GtkWidget.polar_view _ =>
    (GtkWidget.polar_view tstamp,
      [Effect.child_update gtk_sat_mod_view_t.GTK_SAT_MOD_VIEW_POLAR tstamp])
  | GtkWidget.single_sat _ =>
    (GtkWidget.single_sat tstamp,
      [Effect.child_update gtk_sat_mod_view_t.GTK_SAT_MOD_VIEW_SINGLE tstamp])
  | GtkWidget.event_list evlist =>
    let r := gtk_event_list_update env satellites { evlist with tstamp := tstamp }
    (GtkWidget.event_list r.1, r.2)
  | GtkWidget.unknown =>
    (GtkWidget.unknown,
      [Effect.log sat_log_level_t.SAT_LOG_LEVEL_BUG "gtk-sat-module.c: Unknown child type"])

/-- The loop `for (i = 0; i < mod->nviews; i++)` of the cycle, from index `i`
for `n` more rounds: the child is `g_slist_nth_data (mod->views, i)`, which is
NULL beyond the end of the list. -/
def update_children (env : Env) (satellites : SatTable) (tstamp : ℚ) :
    Nat → Nat → List GtkWidget → List GtkWidget × List Effect
  | _, 0, views => (views, [])
  | i, n + 1, views =>
    let r := update_child env satellites (views.getD i GtkWidget.unknown) tstamp
    let views1 := if i < views.length then views.set i r.1 else views
    let rest := update_children env satellites tstamp (i + 1) n views1
    (rest.1, r.2 ++ rest.2)

/-- The function `update_header (module)`: the label is rewritten from
`tmgCdnum`, and the time controller is told when it is open. -/
def update_header (module : GtkSatModule) : List Effect :=
  Effect.set_header module.tmgCdnum ::
    (if module.tmgActive then [Effect.tmg_update_state] else [])

/-- The function `update_skg (module)`: the sky-at-a-glance widget is replaced
when more than 7.0e-4 days lie between the current time and its last update. -/
def update_skg (module : GtkSatModule) : GtkSatModule × List Effect :=
  if |module.tmgCdnum - module.lastSkgUpd| > 7 / 10000 then
    ({ module with skg := some module.tmgCdnum, lastSkgUpd := module.tmgCdnum },
      [Effect.log sat_log_level_t.SAT_LOG_LEVEL_MSG
          ("update_skg: Updating GtkSkyGlance for " ++ module.name),
       Effect.gtk_sky_glance_new module.tmgCdnum])
  else (module, [])

/-- The test at the head of `gtk_sat_module_timeout_cb`: a docked module is
updated when its tab is visible, any other when its window is not iconified. -/
def needupdate (mod : GtkSatModule) (io : TickEnv) : Bool :=
  match mod.state with
  | gtk_sat_mod_state_t.GTK_SAT_MOD_STATE_DOCKED => io.visible
  | _ => !io.iconified

/-- Lines 791-802 of the cycle: the real time is sampled and, when the throttle
is not 0, the simulated time is advanced; with throttle 0 the simulated time is
left to the manual time control (`tmg_time_set`). -/
def cycle_clock (io : TickEnv) (mod : GtkSatModule) : GtkSatModule :=
  let m1 : GtkSatModule := { mod with rtNow := io.now }
  if m1.throttle ≠ 0 then
    { m1 with tmgCdnum := m1.tmgPdnum + (m1.throttle : ℚ) * (m1.rtNow - m1.rtPrev) }
  else m1

/-- Lines 804-812 of the cycle: the header counter is incremented and, when it
reaches the header period, reset with a refresh of the header. -/
def cycle_header (mod : GtkSatModule) : GtkSatModule × List Effect :=
  let m1 : GtkSatModule := { mod with head_count := (mod.head_count + 1) % 2 ^ 32 }
  if m1.head_count = m1.head_timeout then
    let m2 : GtkSatModule := { m1 with head_count := 0 }
    (m2, update_header m2)
  else (m1, [])

/-- Lines 814-821 of the cycle: the event counter is reset when it has reached
the event period; the two registry traversals of the cycle see this value. -/
def cycle_events (mod : GtkSatModule) : GtkSatModule :=
  if mod.event_count = mod.event_timeout then { mod with event_count := 0 } else mod

/-- Lines 823-826 and again 835-838 of the cycle:
`g_hash_table_foreach (mod->satellites, gtk_sat_module_update_sat, module)`. -/
def cycle_satellites (env : Env) (mod : GtkSatModule) : GtkSatModule × List Effect :=
  let r := g_hash_table_foreach mod.satellites (gtk_sat_module_update_sat env mod)
  ({ mod with satellites := r.1 }, r.2)

/-- Lines 828-832 of the cycle: every view is updated with the simulated time. -/
def cycle_children (env : Env) (mod : GtkSatModule) : GtkSatModule × List Effect :=
  let r := update_children env mod.satellites mod.tmgCdnum 0 mod.nviews mod.views
  ({ mod with views := r.1 }, r.2)

/-- Lines 840-853 of the cycle: the radio and rotator controllers are notified
and the sky-at-a-glance widget is checked, each when present. -/
def cycle_controllers (mod : GtkSatModule) : GtkSatModule × List Effect :=
  let tr_rig : List Effect :=
    if mod.rigctrl then [Effect.gtk_rig_ctrl_update mod.tmgCdnum] else []
  let tr_rot : List Effect :=
    if mod.rotctrl then [Effect.gtk_rot_ctrl_update mod.tmgCdnum] else []
  let skg := if mod.skg.isSome then update_skg mod else (mod, [])
  (skg.1, tr_rig ++ tr_rot ++ skg.2)

/-- Lines 856-870 of the cycle: the event counter is incremented, the time
keeping variables are stored, and an open time controller in real-time or
simulated real-time mode is refreshed. -/
def cycle_commit (mod : GtkSatModule) : GtkSatModule × List Effect :=
  let m1 : GtkSatModule := { mod with event_count := (mod.event_count + 1) % 2 ^ 32 }
  let m2 : GtkSatModule := { m1 with rtPrev := m1.rtNow, tmgPdnum := m1.tmgCdnum }
  (m2, if m2.tmgActive && decide (m2.throttle ≠ 0) then [Effect.tmg_update_widgets] else [])

/-- The warning of a timer callback that finds the cycle lock held. -/
def deadline_warning : Effect :=
  Effect.log sat_log_level_t.SAT_LOG_LEVEL_WARN
    "gtk_sat_module_timeout_cb: Previous cycle missed it\x27s deadline."

/-- The function `gtk_sat_module_timeout_cb (module)`, the timer callback.
`mod.busy` tells whether `g_mutex_trylock` finds the lock held; a cycle runs
with the lock taken and releases it at the end. -/
def gtk_sat_module_timeout_cb (env : Env) (io : TickEnv) (mod : GtkSatModule) : Outcome :=
  if !needupdate mod io then
    { module := mod, ret := true, trace := [] }
  else if mod.busy then
    { module := mod, ret := true, trace := [deadline_warning] }
  else
    let clock := cycle_clock io { mod with busy := true }
    let header := cycle_header clock
    let events := cycle_events header.1
    let pass1 := cycle_satellites env events
    let children := cycle_children env pass1.1
    let pass2 := cycle_satellites env children.1
    let ctrl := cycle_controllers pass2.1
    let commit := cycle_commit ctrl.1
    { module := { commit.1 with busy := false },
      ret := true,
      trace := header.2 ++ pass1.2 ++ children.2 ++ pass2.2 ++ ctrl.2 ++ commit.2 }

/-! ## Loading the registry -/

/-- The loop `for (i = 0; i < length; i++)` of `gtk_sat_module_load_sats` over
the remaining catalogue numbers, with the table and the counter `succ` as they
stand. -/
def load_sats_loop (env : Env) (qth : qth_t) :
    List Int → SatTable → Nat → SatTable × Nat × List Effect
  | [], t, succ => (t, succ, [])
  | c :: rest, t, succ =>
    match env.gtk_sat_data_read_sat c with
    | none =>
      -- the satellite could not be read
      let r := load_sats_loop env qth rest t succ
      (r.1, r.2.1,
        Effect.log sat_log_level_t.SAT_LOG_LEVEL_ERROR
          ("gtk_sat_module_load_sats: Error reading data for #" ++ toString c) :: r.2.2)
    | some sat =>
      let key := guint_of_gint c
      if (g_hash_table_lookup t key).isNone then
        let t1 := g_hash_table_insert t key (env.gtk_sat_data_init_sat sat qth)
        let r := load_sats_loop env qth rest t1 ((succ + 1) % 2 ^ 32)
        (r.1, r.2.1,
          Effect.log sat_log_level_t.SAT_LOG_LEVEL_DEBUG
            ("gtk_sat_module_load_sats: Read data for #" ++ toString c) :: r.2.2)
      else
        let r := load_sats_loop env qth rest t succ
        (r.1, r.2.1,
          Effect.log sat_log_level_t.SAT_LOG_LEVEL_WARN
            ("gtk_sat_module_load_sats: Sat #" ++ toString c ++ " already in list") :: r.2.2)

/-- The summary line that `gtk_sat_module_load_sats` logs at the end. -/
def load_sats_summary (succ length : Nat) : Effect :=
  Effect.log sat_log_level_t.SAT_LOG_LEVEL_MSG
    ("gtk_sat_module_load_sats: Read " ++ toString succ ++ " out of " ++ toString length ++
      " satellites")

/-- The function `gtk_sat_module_load_sats (module)`: the satellites of the
configured list are read into the hash table. -/
def gtk_sat_module_load_sats (env : Env) (module : GtkSatModule) : GtkSatModule × List Effect :=
  match module.cfgdata.sats with
  | Except.error msg =>
    (module,
      [Effect.log sat_log_level_t.SAT_LOG_LEVEL_ERROR
        ("gtk_sat_module_load_sats: Failed to get list of satellites (" ++ msg ++ ")")])
  | Except.ok sats =>
    let r := load_sats_loop env module.qth sats module.satellites 0
    ({ module with satellites := r.1 }, r.2.2 ++ [load_sats_summary r.2.1 sats.length])

/-! ## Construction -/

/-- The callback `event_list_add_satellites (key, value, user_data)`: the row
that is appended for a satellite. -/
def event_list_add_satellites (sat : sat_t) : EventRow :=
  { name := sat.nickname, catnum := sat.catnr, az := sat.az, el := sat.el,
    evt := decide (sat.el ≥ 0), time := 0 }

/-- The function `gtk_event_list_new (cfgdata, sats, qth, columns)`: the model
is filled with one row for each satellite of the table. -/
def gtk_event_list_new (sats : SatTable) : GtkEventList :=
  { tstamp := 0, rows := sats.map (fun e => event_list_add_satellites e.2) }

/-- The function `create_view (module, num)`. An invalid number is logged and
gives a satellite list. -/
def create_view (env : Env) (module : GtkSatModule) (num : Int) : GtkWidget × List Effect :=
  match env.view_of_num num with
  | some gtk_sat_mod_view_t.GTK_SAT_MOD_VIEW_LIST => (GtkWidget.sat_list 0, [])
  | some gtk_sat_mod_view_t.GTK_SAT_MOD_VIEW_MAP => (GtkWidget.sat_map 0, [])
  | some gtk_sat_mod_view_t.GTK_SAT_MOD_VIEW_POLAR => (GtkWidget.polar_view 0, [])
  | some gtk_sat_mod_view_t.GTK_SAT_MOD_VIEW_SINGLE => (GtkWidget.single_sat 0, [])
  | some gtk_sat_mod_view_t.GTK_SAT_MOD_VIEW_EVENT =>
    (GtkWidget.event_list (gtk_event_list_new module.satellites), [])
  | none =>
    (GtkWidget.sat_list 0,
      [Effect.log sat_log_level_t.SAT_LOG_LEVEL_BUG
        ("gtk-sat-module.c: Invalid child type (" ++ toString num ++ "). Using GtkSatList.")])

/-- The loop `for (i = 0; i < module->nviews; i++)` of `create_module_layout`,
from view `i` for `n` more rounds. -/
def create_module_layout_loop (env : Env) (module : GtkSatModule) :
    Nat → Nat → List GtkWidget → List GtkWidget × List Effect
  | _, 0, views => (views, [])
  | i, n + 1, views =>
    let r := create_view env module (module.grid.getD (5 * i) 0)
    let rest := create_module_layout_loop env module (i + 1) n (views ++ [r.1])
    (rest.1, r.2 ++ rest.2)

/-- What `gtk_sat_module_read_cfg_data` has read from the module file when
`gtk_sat_module_new` goes on: name, observer, timer period in milliseconds,
layout, stored display state (when it is to be restored) and the key file. -/
structure ModCfg where
  name : String
  qth : qth_t
  timeout : Nat
  nviews : Nat
  grid : List Int
  state : Option gtk_sat_mod_state_t
  cfgdata : GKeyFile

/-- The function `gtk_sat_module_new (cfgfile)` after the configuration has
been read: `gtk_sat_module_init`, the display state, the four clock samples
`t1 .. t4` (lines 315-318), the registry, the header and event periods
(lines 337-353) and the views. There is no result for a timer period of 0,
where the C code divides by zero. -/
def gtk_sat_module_new (env : Env) (cfg : ModCfg) (t1 t2 t3 t4 : ℚ) :
    Option (GtkSatModule × List Effect) :=
  if cfg.timeout = 0 then none
  else
    let m0 : GtkSatModule :=
      { name := cfg.name, cfgdata := cfg.cfgdata, qth := cfg.qth, satellites := [],
        state := cfg.state.getD gtk_sat_mod_state_t.GTK_SAT_MOD_STATE_DOCKED,
        busy := false, timeout := cfg.timeout, throttle := 1,
        rtNow := t1, rtPrev := t2, tmgPdnum := t3, tmgCdnum := t4, tmgActive := false,
        head_count := 0, head_timeout := 0, event_count := 0, event_timeout := 0,
        nviews := cfg.nviews, grid := cfg.grid, views := [],
        rigctrl := false, rotctrl := false, skg := none, lastSkgUpd := 0 }
    let loaded := gtk_sat_module_load_sats env m0
    let m1 : GtkSatModule :=
      { loaded.1 with
        head_count := 0,
        head_timeout := if loaded.1.timeout > 1000 then 1 else 1000 / loaded.1.timeout,
        event_timeout := if loaded.1.timeout > 60000 then 1 else 60000 / loaded.1.timeout }
    -- force update the first time
    let m2 : GtkSatModule := { m1 with event_count := m1.event_timeout }
    let layout := create_module_layout_loop env m2 0 m2.nviews []
    some ({ m2 with views := layout.1 }, loaded.2 ++ layout.2)

/-! ## Sequences of timer ticks -/

/-- One firing of the timer. `held` tells whether some other holder has the
cycle lock at that moment. -/
structure Tick where
  held : Bool
  io : TickEnv

/-- A firing commits a cycle when the module is to be updated and the lock is
free. -/
def Tick.committed (mod : GtkSatModule) (t : Tick) : Bool :=
  needupdate mod t.io && !t.held

/-- The module after one firing of the timer. -/
def fire (env : Env) (mod : GtkSatModule) (t : Tick) : GtkSatModule :=
  (gtk_sat_module_timeout_cb env t.io { mod with busy := t.held }).module

/-- The module after a sequence of firings. -/
def run (env : Env) (mod : GtkSatModule) (ts : List Tick) : GtkSatModule :=
  ts.foldl (fire env) mod

/-- The number of committed cycles in a sequence of firings. -/
def committedCycles (env : Env) : GtkSatModule → List Tick → Nat
  | _, [] => 0
  | mod, t :: ts =>
    (if t.committed mod then 1 else 0) + committedCycles env (fire env mod t) ts

/-! ## Worked examples

The values of the example scenarios: one observer, one satellite below the
horizon with a pending AOS, a module with a timer period of 3000 ms (an event
period of 20 cycles) and the key list `[25544, 25544, 33591]`. -/

/-- A satellite at elevation -5 with AOS at 100.05 and no LOS. -/
def exampleSat : sat_t :=
  { nickname := "ISS", catnr := 25544, otype := orbit_type_t.ORBIT_TYPE_OTHER 1, flags := 0,
    jul_epoch := 90, jul_utc := 100, tsince := 0, aos := 10005 / 100, los := -1,
    az := 120, el := -5, range := 2000, range_rate := 0, ssplat := 0, ssplon := 0,
    alt := 400, velo := 7, ma := 0, phase := 0, footprint := 4000, orbit := 1 }

/-- The same satellite classified as geostationary. -/
def exampleGeo : sat_t := { exampleSat with otype := orbit_type_t.ORBIT_TYPE_GEO }

/-- An environment in which every satellite can be read and has an AOS, and in
which the tree traversal calls the callback once on every row. -/
def exampleEnv : Env :=
  { has_aos := fun _ _ => true
    find_aos := fun _ _ start _ => start + 1 / 100
    find_los := fun _ _ start _ => start + 2 / 100
    propagate := fun sat _ =>
      { az := sat.az, el := sat.el, range := sat.range, range_rate := sat.range_rate,
        ssplat := sat.ssplat, ssplon := sat.ssplon, alt := sat.alt, velo := sat.velo,
        ma := sat.ma, phase := sat.phase, footprint := sat.footprint, orbit := sat.orbit }
    xmnpda := 1440
    pred_look_ahead := 3
    send_osc := true
    gtk_sat_data_read_sat := fun c => some { exampleSat with catnr := c }
    gtk_sat_data_init_sat := fun sat _ => sat
    view_of_num := fun n =>
      if n = 0 then some gtk_sat_mod_view_t.GTK_SAT_MOD_VIEW_LIST
      else if n = 1 then some gtk_sat_mod_view_t.GTK_SAT_MOD_VIEW_MAP
      else if n = 2 then some gtk_sat_mod_view_t.GTK_SAT_MOD_VIEW_POLAR
      else if n = 3 then some gtk_sat_mod_view_t.GTK_SAT_MOD_VIEW_SINGLE
      else if n = 4 then some gtk_sat_mod_view_t.GTK_SAT_MOD_VIEW_EVENT
      else none
    gtk_tree_model_foreach := fun f rows => (rows.filterMap f, rows) }

/-- A module in the state that construction leaves, with one satellite. -/
def exampleModule : GtkSatModule :=
  { name := "Amateur", cfgdata := { sats := Except.ok [25544, 25544, 33591] },
    qth := { lat := 55, lon := 12, alt := 10 },
    satellites := [(25544, exampleSat)],
    state := gtk_sat_mod_state_t.GTK_SAT_MOD_STATE_DOCKED,
    busy := false, timeout := 3000, throttle := 1,
    rtNow := 100, rtPrev := 100, tmgPdnum := 100, tmgCdnum := 100, tmgActive := false,
    head_count := 0, head_timeout := 1, event_count := 20, event_timeout := 20,
    nviews := 0, grid := [], views := [], rigctrl := false, rotctrl := false,
    skg := none, lastSkgUpd := 0 }

/-- The example module before its registry is loaded. -/
def exampleEmpty : GtkSatModule := { exampleModule with satellites := [] }

/-- The example module with the cycle lock held. -/
def exampleBusy : GtkSatModule := { exampleModule with busy := true }

/-- The example module in manual time mode. -/
def exampleFrozen : GtkSatModule := { exampleModule with throttle := 0 }

/-- The example module between two coarse cycles. -/
def exampleMidway : GtkSatModule := { exampleModule with event_count := 5 }

/-- The configuration of the example module: a timer period of 3000 ms and
one event list view. -/
def exampleCfg : ModCfg :=
  { name := "Amateur", qth := { lat := 55, lon := 12, alt := 10 }, timeout := 3000,
    nviews := 1, grid := [4, 0, 1, 0, 1], state := none,
    cfgdata := { sats := Except.ok [25544, 25544, 33591] } }

/-- The module that `gtk_sat_module_new` constructs from the example
configuration at real time 100. -/
def exampleFresh : GtkSatModule :=
  match gtk_sat_module_new exampleEnv exampleCfg 100 100 100 100 with
  | some r => r.1
  | none => exampleModule

/-- The timer fires at real time 100.001389 with the module visible. -/
def exampleIo : TickEnv := { visible := true, iconified := false, now := 100001389 / 1000000 }

/-- A firing that finds the lock free. -/
def exampleTick : Tick := { held := false, io := exampleIo }

/-- A later firing that finds the lock held. -/
def exampleSkipped : Tick :=
  { held := true, io := { visible := true, iconified := false, now := 100002 / 1000 } }

/-- A still later firing that finds the lock free. -/
def exampleLate : Tick :=
  { held := false, io := { visible := true, iconified := false, now := 100003 / 1000 } }

/-- The row of the example satellite in an event list. -/
def exampleRow : EventRow :=
  { name := "ISS", catnum := 25544, az := 0, el := 0, evt := false, time := 0 }

/-! ## Reloading the registry -/

/-- The function `reload_sats_in_child (widget, module)`: the reload functions
of the single-satellite, polar and map views are recorded as effects, the
satellite list needs nothing, and every other widget, the event list included,
is logged as an unknown child. -/
def reload_sats_in_child (child : GtkWidget) : List Effect :=
  match child with
  | GtkWidget.single_sat _ => [Effect.child_reload gtk_sat_mod_view_t.GTK_SAT_MOD_VIEW_SINGLE]
  | GtkWidget.polar_view _ => [Effect.child_reload gtk_sat_mod_view_t.GTK_SAT_MOD_VIEW_POLAR]
  | GtkWidget.sat_map _ => [Effect.child_reload gtk_sat_mod_view_t.GTK_SAT_MOD_VIEW_MAP]
  | GtkWidget.sat_list _ => []
  | _ => [Effect.log sat_log_level_t.SAT_LOG_LEVEL_BUG "gtk-sat-module.c: Unknown child type"]

/-- The loop `for (i = 0; i < module->nviews; i++)` of
`gtk_sat_module_reload_sats`, from index `i` for `n` more rounds. -/
def reload_children (views : List GtkWidget) : Nat → Nat → List Effect
  | _, 0 => []
  | i, n + 1 =>
    reload_sats_in_child (views.getD i GtkWidget.unknown) ++ reload_children views (i + 1) n

/-- The function `gtk_sat_module_reload_sats (module)`. `g_mutex_lock` waits
for the cycle lock: there is no result while the lock is held. With the lock
the table is emptied in place, the event counter is reset, the satellites are
loaded again and the views are told. -/
def gtk_sat_module_reload_sats (env : Env) (module : GtkSatModule) :
    Option (GtkSatModule × List Effect) :=
  if module.busy then none
  else
    let m1 : GtkSatModule := { module with busy := true }
    let tr_msg : List Effect :=
      [Effect.log sat_log_level_t.SAT_LOG_LEVEL_MSG
        ("gtk_sat_module_reload_sats: Reloading satellites for module " ++ m1.name)]
    -- remove each element from the hash table, but keep the hash table
    let m2 : GtkSatModule :=
      { m1 with satellites := g_hash_table_foreach_remove m1.satellites empty }
    -- reset event counter so that next AOS/LOS gets re-calculated
    let m3 : GtkSatModule := { m2 with event_count := 0 }
    let loaded := gtk_sat_module_load_sats env m3
    let tr_children := reload_children loaded.1.views 0 loaded.1.nviews
    some ({ loaded.1 with busy := false }, tr_msg ++ loaded.2 ++ tr_children)

/-! ## The cells of the event list -/

/-- The function `event_cell_compare_function (model, a, b, user_data)`, the
sort function of the time column: `ta` and `tb` are the time cells of the two
rows. -/
def event_cell_compare_function (a b : EventRow) : Int :=
  let ta := a.time
  let tb := b.time
  if ta < tb then -1
  else if ta > tb then 1
  else 0

/-- The function `evtype_cell_data_function`: the text of the event type
cell. -/
def evtype_cell_data_function (value : Bool) : String :=
  if value = true then "LOS" else "AOS"

/-- The function `time_cell_data_function`: the text of the countdown cell.
The conversion `(guint) (number * 86400)` has no defined result from `2 ^ 32`
on, where there is no text. -/
def time_cell_data_function (number : ℚ) : Option String :=
  if number < 0 then some "Never"
  else
    let s0 : Nat := ⌊number * 86400⌋.toNat
    if s0 < 2 ^ 32 then
      -- extract hours
      let h : Nat := s0 / 3600
      let s1 : Nat := s0 - 3600 * h
      let ch : String := if h > 0 ∧ h < 10 then "0" else ""
      -- extract minutes
      let m : Nat := s1 / 60
      let s : Nat := s1 - 60 * m
      let cm : String := if m < 10 then "0" else ""
      let cs : String := if s < 10 then ":0" else ":"
      if h > 0 then
        some (ch ++ toString h ++ ":" ++ cm ++ toString m ++ cs ++ toString s)
      else
        some (cm ++ toString m ++ cs ++ toString s)
    else none

/-! ## The layout grid of the configuration -/

/-- What the grid part of `gtk_sat_module_read_cfg_data` takes from the
library and from the configuration store. -/
structure GridEnv where
  /-- The fields of `g_strsplit (buffer, ";", 0)`. -/
  g_strsplit : String → List String
  /-- The value of `g_ascii_strtoll (str, NULL, 0)`. -/
  g_ascii_strtoll : String → Int
  /-- The built-in layout, `sat_cfg_get_str_def (SAT_CFG_STR_MODULE_GRID)`. -/
  module_grid_def : String

/-- The conversion `(gint)` of a 64 bit integer. -/
def gint_of_gint64 (v : Int) : Int := (v + 2 ^ 31) % 2 ^ 32 - 2 ^ 31

/-- The layout that `gtk_sat_module_read_cfg_data` stores in the module. -/
structure GridLayout where
  nviews : Nat
  grid : List Int
  deriving DecidableEq

/-- Lines 590-629 of `gtk_sat_module_read_cfg_data`: `buffer` is the configured
grid string. A list of no fields or of a number of fields that is no multiple
of 5 is replaced by the built-in layout, which is not checked again. -/
def gtk_sat_module_read_cfg_data_grid (genv : GridEnv) (buffer : String) :
    GridLayout × List Effect :=
  let buffv := genv.g_strsplit buffer
  let length := buffv.length
  let bogus : Bool := length == 0 || length % 5 != 0
  let tr_error : List Effect :=
    if bogus then
      [Effect.log sat_log_level_t.SAT_LOG_LEVEL_ERROR
        ("gtk_sat_module_read_cfg_data: Module layout is invalid: " ++ buffer ++
          ". Using default.")]
    else []
  let buffer1 : String := if bogus then genv.module_grid_def else buffer
  let buffv1 : List String := if bogus then genv.g_strsplit buffer1 else buffv
  let length1 : Nat := buffv1.length
  let tr_debug : List Effect :=
    [Effect.log sat_log_level_t.SAT_LOG_LEVEL_DEBUG
      ("gtk_sat_module_read_cfg_data: GRID(" ++ toString length1 ++ "): " ++ buffer1)]
  ({ nviews := length1 / 5,
     grid := buffv1.map (fun str => gint_of_gint64 (genv.g_ascii_strtoll str)) },
    tr_error ++ tr_debug)

/-! ## The two registry passes of a cycle -/

/-- The refreshes of the header label. -/
def Effect.isHeaderUpdate : Effect → Bool
  | Effect.set_header _ => true
  | _ => false

/-- The module as the first registry traversal of a committed cycle sees it. -/
def cycle_first_module (io : TickEnv) (mod : GtkSatModule) : GtkSatModule :=
  cycle_events (cycle_header (cycle_clock io { mod with busy := true })).1

/-- The registry of a committed cycle after its first traversal. -/
def cycle_first_pass (env : Env) (io : TickEnv) (mod : GtkSatModule) : SatTable :=
  (cycle_satellites env (cycle_first_module io mod)).1.satellites

/-- The requirements of lines 956-958 other than the event counter: the orbit
is neither geostationary nor decayed and the satellite has an AOS. -/
def eligible (env : Env) (qth : qth_t) (sat : sat_t) : Bool :=
  sat.otype != orbit_type_t.ORBIT_TYPE_GEO && sat.otype != orbit_type_t.ORBIT_TYPE_DECAYED &&
    env.has_aos sat qth

/-- The OSC message of lines 1034-1046 for a satellite. -/
def osc_message (sat : sat_t) : Effect :=
  Effect.lo_send ("/gpredict/sat/" ++ toString sat.catnr) sat.az sat.el sat.alt sat.velo

/-! ## Further worked examples -/

/-- A row whose satellite is not tracked. -/
def exampleStaleRow : EventRow :=
  { name := "OLD", catnum := 99999, az := 10, el := 20, evt := true, time := 5 }

/-- An event list with a tracked and an untracked row at time 100.04. -/
def exampleEvList : GtkEventList :=
  { tstamp := 10004 / 100, rows := [exampleStaleRow, exampleRow] }

/-- The fields of a list of characters separated by `;`, with the characters
of the current field in reverse order in `acc`. -/
def exampleFields : List Char → List Char → List String
  | acc, [] => [String.mk acc.reverse]
  | acc, c :: cs =>
    if c = ';' then String.mk acc.reverse :: exampleFields [] cs
    else exampleFields (c :: acc) cs

/-- The library functions of the grid examples: an empty string has no field,
any other string has the fields separated by `;`, and a field is read as an
unsigned decimal number. -/
def exampleGridEnv : GridEnv :=
  { g_strsplit := fun str => if str = "" then [] else exampleFields [] str.data
    g_ascii_strtoll := fun str =>
      Int.ofNat (str.data.foldl (fun n c => 10 * n + (c.toNat - 48)) 0)
    module_grid_def := "1;0;2;0;1;3;0;1;1;2;2;1;2;1;2" }

/-- The example module with an open sky-at-a-glance window last updated at
time 99. -/
def exampleSkg : GtkSatModule := { exampleModule with skg := some 99, lastSkgUpd := 99 }

/-- The configuration of the example module with a timer period of 300 ms. -/
def exampleCfg300 : ModCfg := { exampleCfg with timeout := 300 }

/-- The module that `gtk_sat_module_new` constructs with a timer period of
300 ms. -/
def exampleFresh300 : GtkSatModule :=
  match gtk_sat_module_new exampleEnv exampleCfg300 100 100 100 100 with
  | some r => r.1
  | none => exampleModule

/-! ## The size of the layout grid -/

/-- The five numbers of view `i` that `create_module_layout` reads from the
grid (lines 409-417): view kind, left, right, top, bottom. There is no result
when one of the indices lies beyond the end of the grid. -/
def grid_view (grid : List Int) (i : Nat) : Option (Int × Int × Int × Int × Int) :=
  match grid.get? (5 * i), grid.get? (5 * i + 1), grid.get? (5 * i + 2), grid.get? (5 * i + 3),
    grid.get? (5 * i + 4) with
  | some kind, some left, some right, some top, some bottom =>
    some (kind, left, right, top, bottom)
  | _, _, _, _, _ => none

/-- The result of `get_grid_size`. -/
structure GridSize where
  rows : Nat
  cols : Nat
  deriving DecidableEq

/-- The loop `for (i = 0; i < module->nviews; i++)` of `get_grid_size`, from
view `i` for `n` more rounds. `MAX` compares the `guint` maximum with the `gint`
entry converted to `guint`. There is no result when an index lies beyond the end
of the grid. -/
def get_grid_size_loop (grid : List Int) : Nat → Nat → Nat → Nat → Option GridSize
  | _, 0, xmax, ymax => some { rows := ymax, cols := xmax }
  | i, n + 1, xmax, ymax =>
    match grid.get? (5 * i + 2), grid.get? (5 * i + 4) with
    | some right, some bottom =>
      get_grid_size_loop grid (i + 1) n (max xmax (guint_of_gint right))
        (max ymax (guint_of_gint bottom))
    | _, _ => none

/-- The function `get_grid_size (module, rows, cols)`. -/
def get_grid_size (nviews : Nat) (grid : List Int) : Option GridSize :=
  get_grid_size_loop grid 0 nviews 0 0

/-! ## Sequences of timer ticks and reloads -/

/-- An operation on a module: a firing of the timer or a call of
`gtk_sat_module_reload_sats`. -/
inductive Op
  | tick (t : Tick)
  | reload

/-- The module after one operation. A reload waits for the cycle lock and
runs when the lock is free. -/
def step (env : Env) (mod : GtkSatModule) : Op → GtkSatModule
  | Op.tick t => fire env mod t
  | Op.reload =>
    match gtk_sat_module_reload_sats env { mod with busy := false } with
    | some r => r.1
    | none => mod

/-- The module after a sequence of operations. -/
def runOps (env : Env) (mod : GtkSatModule) (ops : List Op) : GtkSatModule :=
  ops.foldl (step env) mod

/-! ## Reading a countdown text -/

/-- A number in decimal with a leading zero below 10: a field of at least two
digits. -/
def pad2 (n : Nat) : String :=
  if n < 10 then "0" ++ toString n else toString n

/-- One character of a countdown text: a colon closes a field, which counts
60 times the fields before it, and a digit extends the current field. The
state is the value of the closed fields and the value of the current field. -/
def parse_time_step (st : Nat × Nat) (c : Char) : Nat × Nat :=
  if c = ':' then (60 * st.1 + st.2, 0) else (st.1, 10 * st.2 + (c.toNat - 48))

/-- The seconds that a text `MM:SS` or `HH:MM:SS` stands for:
`60 * MM + SS`, respectively `3600 * HH + 60 * MM + SS`. -/
def parse_time (text : String) : Nat :=
  60 * (text.data.foldl parse_time_step (0, 0)).1 + (text.data.foldl parse_time_step (0, 0)).2

/-- The whole seconds of a countdown in days, `(guint) (number * 86400)`. -/
def countdown_seconds (number : ℚ) : Nat := ⌊number * 86400⌋.toNat

/-! ## Worked examples of reloading and of the event list -/

/-- The freshly constructed example module after the user has changed the key
list to `[25544, 40069]`. -/
def exampleRekeyed : GtkSatModule :=
  { exampleFresh with cfgdata := { sats := Except.ok [25544, 40069] } }

/-- The example satellite at elevation 0 with AOS at 100.05 and LOS at
100.10. -/
def exampleHorizon : sat_t := { exampleSat with el := 0, los := 10010 / 100 }

/-- A grid of three views in a table of two columns and two rows: a view over
the whole first row and two views side by side in the second row. -/
def exampleGrid : List Int := [1, 0, 2, 0, 1, 3, 0, 1, 1, 2, 2, 1, 2, 1, 2]

/-! ## The traversal of a list store in GTK+ 2 -/

/-- The traversal `gtk_tree_model_foreach` of GTK+ 2 over a list store, for a
callback that always returns FALSE and rewrites or removes (`none`) the row it
is given. After every call the walk moves on with `gtk_tree_model_iter_next`
from where the iterator stands. `gtk_list_store_remove` leaves the iterator on
the row after the removed one, so that row is stepped over without a call; after
the removal of the last row the iterator is invalid and the walk ends. The
result is the rows of the store afterwards and the rows the callback was
called on. -/
def gtk2_tree_model_foreach (f : EventRow → Option EventRow) :
    List EventRow → List EventRow × List EventRow
  | [] => ([], [])
  | [row] =>
    match f row with
    | some row1 => ([row1], [row])
    | none => ([], [row])
  | row :: next :: rest =>
    match f row with
    | some row1 =>
      ((gtk2_tree_model_foreach f (next :: rest)).1.cons row1,
        (gtk2_tree_model_foreach f (next :: rest)).2.cons row)
    | none =>
      ((gtk2_tree_model_foreach f rest).1.cons next,
        (gtk2_tree_model_foreach f rest).2.cons row)

/-- The example environment with the tree traversal of GTK+ 2. -/
def exampleGtk2Env : Env :=
  { exampleEnv with gtk_tree_model_foreach := gtk2_tree_model_foreach }

/-- A second row whose satellite is not in the example registry. -/
def exampleStaleRow2 : EventRow :=
  { name := "OLD2", catnum := 88888, az := 30, el := 40, evt := false, time := 7 }

/-! ## Lemmas on the phases of a cycle -/

theorem cycle_clock_fields (io : TickEnv) (m : GtkSatModule) :
    (cycle_clock io m).rtNow = io.now ∧ (cycle_clock io m).rtPrev = m.rtPrev ∧
    (cycle_clock io m).tmgPdnum = m.tmgPdnum ∧
    (cycle_clock io m).tmgCdnum =
      (if m.throttle ≠ 0 then m.tmgPdnum + (m.throttle : ℚ) * (io.now - m.rtPrev)
        else m.tmgCdnum) ∧
    (cycle_clock io m).event_count = m.event_count ∧
    (cycle_clock io m).event_timeout = m.event_timeout ∧
    (cycle_clock io m).throttle = m.throttle ∧ (cycle_clock io m).state = m.state ∧
    (cycle_clock io m).satellites = m.satellites ∧ (cycle_clock io m).qth = m.qth := by
  unfold cycle_clock
  simp only []
  split <;> simp_all

theorem cycle_header_fields (m : GtkSatModule) :
    (cycle_header m).1.rtNow = m.rtNow ∧ (cycle_header m).1.rtPrev = m.rtPrev ∧
    (cycle_header m).1.tmgPdnum = m.tmgPdnum ∧ (cycle_header m).1.tmgCdnum = m.tmgCdnum ∧
    (cycle_header m).1.event_count = m.event_count ∧
    (cycle_header m).1.event_timeout = m.event_timeout ∧
    (cycle_header m).1.throttle = m.throttle ∧ (cycle_header m).1.state = m.state ∧
    (cycle_header m).1.satellites = m.satellites ∧ (cycle_header m).1.qth = m.qth := by
  unfold cycle_header
  simp only []
  split <;> simp

theorem cycle_events_fields (m : GtkSatModule) :
    (cycle_events m).rtNow = m.rtNow ∧ (cycle_events m).rtPrev = m.rtPrev ∧
    (cycle_events m).tmgPdnum = m.tmgPdnum ∧ (cycle_events m).tmgCdnum = m.tmgCdnum ∧
    (cycle_events m).event_count = (if m.event_count = m.event_timeout then 0 else m.event_count) ∧
    (cycle_events m).event_timeout = m.event_timeout ∧
    (cycle_events m).throttle = m.throttle ∧ (cycle_events m).state = m.state ∧
    (cycle_events m).satellites = m.satellites ∧ (cycle_events m).qth = m.qth := by
  unfold cycle_events
  split <;> simp_all

theorem cycle_controllers_fields (m : GtkSatModule) :
    (cycle_controllers m).1.rtNow = m.rtNow ∧ (cycle_controllers m).1.rtPrev = m.rtPrev ∧
    (cycle_controllers m).1.tmgPdnum = m.tmgPdnum ∧
    (cycle_controllers m).1.tmgCdnum = m.tmgCdnum ∧
    (cycle_controllers m).1.event_count = m.event_count ∧
    (cycle_controllers m).1.event_timeout = m.event_timeout ∧
    (cycle_controllers m).1.throttle = m.throttle ∧ (cycle_controllers m).1.state = m.state ∧
    (cycle_controllers m).1.satellites = m.satellites ∧ (cycle_controllers m).1.qth = m.qth := by
  unfold cycle_controllers update_skg
  simp only []
  split
  · split <;> simp
  · simp

theorem timeout_cb_skip (env : Env) (io : TickEnv) (mod : GtkSatModule)
    (h : needupdate mod io = false ∨ mod.busy = true) :
    (gtk_sat_module_timeout_cb env io mod).module = mod := by
  unfold gtk_sat_module_timeout_cb
  rcases h with h | h
  · simp [h]
  · simp only [h]
    split <;> simp

theorem timeout_cb_commit (env : Env) (io : TickEnv) (mod : GtkSatModule)
    (hn : needupdate mod io = true) (hb : mod.busy = false) :
    (gtk_sat_module_timeout_cb env io mod).module.tmgCdnum =
      (if mod.throttle ≠ 0 then mod.tmgPdnum + (mod.throttle : ℚ) * (io.now - mod.rtPrev)
        else mod.tmgCdnum) ∧
    (gtk_sat_module_timeout_cb env io mod).module.tmgPdnum =
      (gtk_sat_module_timeout_cb env io mod).module.tmgCdnum ∧
    (gtk_sat_module_timeout_cb env io mod).module.rtNow = io.now ∧
    (gtk_sat_module_timeout_cb env io mod).module.rtPrev = io.now ∧
    (gtk_sat_module_timeout_cb env io mod).module.event_count =
      ((if mod.event_count = mod.event_timeout then 0 else mod.event_count) + 1) % 2 ^ 32 ∧
    (gtk_sat_module_timeout_cb env io mod).module.event_timeout = mod.event_timeout ∧
    (gtk_sat_module_timeout_cb env io mod).module.throttle = mod.throttle ∧
    (gtk_sat_module_timeout_cb env io mod).module.state = mod.state ∧
    (gtk_sat_module_timeout_cb env io mod).module.busy = false := by
  unfold gtk_sat_module_timeout_cb
  simp only [hn, hb, Bool.not_true, Bool.false_eq_true, if_false]
  simp [cycle_commit, cycle_controllers_fields, cycle_satellites, cycle_children,
    cycle_events_fields, cycle_header_fields, cycle_clock_fields]

theorem update_sat_keeps_events (env : Env) (module : GtkSatModule) (key : Nat) (val : sat_t)
    (h : (module.event_count == 0 && val.otype != orbit_type_t.ORBIT_TYPE_GEO &&
      val.otype != orbit_type_t.ORBIT_TYPE_DECAYED && env.has_aos val module.qth) = false) :
    (gtk_sat_module_update_sat env module key val).1.aos = val.aos ∧
    (gtk_sat_module_update_sat env module key val).1.los = val.los ∧
    (gtk_sat_module_update_sat env module key val).2 =
      (if env.send_osc then
        [Effect.lo_send ("/gpredict/sat/" ++ toString val.catnr)
          (gtk_sat_module_update_sat env module key val).1.az
          (gtk_sat_module_update_sat env module key val).1.el
          (gtk_sat_module_update_sat env module key val).1.alt
          (gtk_sat_module_update_sat env module key val).1.velo]
      else []) := by
  unfold gtk_sat_module_update_sat
  simp only [h]
  simp

theorem update_sat_keeps_identity (env : Env) (module : GtkSatModule) (key : Nat) (val : sat_t) :
    (gtk_sat_module_update_sat env module key val).1.catnr = val.catnr ∧
    (gtk_sat_module_update_sat env module key val).1.otype = val.otype ∧
    (gtk_sat_module_update_sat env module key val).1.nickname = val.nickname := by
  unfold gtk_sat_module_update_sat
  simp only []
  split <;> simp

/-! ## Lemmas on the effects of a cycle -/

theorem event_list_update_sats_trace (satellites : SatTable) (tstamp : ℚ) (row : EventRow) :
    ∀ e ∈ (event_list_update_sats satellites tstamp row).2, e.isEventSearch = false := by
  unfold event_list_update_sats
  split <;> simp [Effect.isEventSearch]

theorem update_child_trace (env : Env) (satellites : SatTable) (child : GtkWidget) (tstamp : ℚ) :
    ∀ e ∈ (update_child env satellites child tstamp).2, e.isEventSearch = false := by
  cases child with
  | event_list evlist =>
    intro e he
    simp only [update_child, gtk_event_list_update, List.mem_flatten, List.mem_map] at he
    obtain ⟨l, ⟨row, _, rfl⟩, hel⟩ := he
    exact event_list_update_sats_trace _ _ _ e hel
  | _ => simp [update_child, Effect.isEventSearch]

theorem update_children_trace (env : Env) (satellites : SatTable) (tstamp : ℚ) (n : Nat) :
    ∀ (i : Nat) (views : List GtkWidget),
      ∀ e ∈ (update_children env satellites tstamp i n views).2, e.isEventSearch = false := by
  induction n with
  | zero => intro i views e he; simp [update_children] at he
  | succ n ih =>
    intro i views e he
    simp only [update_children, List.mem_append] at he
    rcases he with he | he
    · exact update_child_trace _ _ _ _ e he
    · exact ih _ _ e he

theorem cycle_header_trace (m : GtkSatModule) :
    ∀ e ∈ (cycle_header m).2, e.isEventSearch = false := by
  unfold cycle_header update_header
  simp only []
  split
  · split <;> simp [Effect.isEventSearch]
  · simp

theorem cycle_controllers_trace (m : GtkSatModule) :
    ∀ e ∈ (cycle_controllers m).2, e.isEventSearch = false := by
  unfold cycle_controllers update_skg
  intro e he
  simp only [List.mem_append] at he
  rcases he with (he | he) | he
  · split at he <;> simp_all [Effect.isEventSearch]
  · split at he <;> simp_all [Effect.isEventSearch]
  · split at he
    · split at he <;> simp_all [Effect.isEventSearch]
      rcases he with rfl | rfl <;> rfl
    · simp at he

theorem cycle_commit_trace (m : GtkSatModule) :
    ∀ e ∈ (cycle_commit m).2, e.isEventSearch = false := by
  unfold cycle_commit
  intro e he
  simp only [] at he
  split at he <;> simp_all [Effect.isEventSearch]

/-- The registry and the effects of a committed cycle: two traversals of the
registry, by modules `ma` and `mb` that carry the event counter after its reset
and the simulated time of the cycle, between effects that are no event
search. -/
theorem timeout_cb_commit_satellites (env : Env) (io : TickEnv) (mod : GtkSatModule)
    (hn : needupdate mod io = true) (hb : mod.busy = false) :
    ∃ (ma mb : GtkSatModule) (A B C : List Effect),
      ma.event_count = (if mod.event_count = mod.event_timeout then 0 else mod.event_count) ∧
      mb.event_count = (if mod.event_count = mod.event_timeout then 0 else mod.event_count) ∧
      ma.tmgCdnum = (gtk_sat_module_timeout_cb env io mod).module.tmgCdnum ∧
      mb.tmgCdnum = (gtk_sat_module_timeout_cb env io mod).module.tmgCdnum ∧
      ma.qth = mod.qth ∧ mb.qth = mod.qth ∧
      (gtk_sat_module_timeout_cb env io mod).module.satellites =
        (g_hash_table_foreach
          (g_hash_table_foreach mod.satellites (gtk_sat_module_update_sat env ma)).1
          (gtk_sat_module_update_sat env mb)).1 ∧
      (gtk_sat_module_timeout_cb env io mod).trace =
        A ++ (g_hash_table_foreach mod.satellites (gtk_sat_module_update_sat env ma)).2 ++ B ++
          (g_hash_table_foreach
            (g_hash_table_foreach mod.satellites (gtk_sat_module_update_sat env ma)).1
            (gtk_sat_module_update_sat env mb)).2 ++ C ∧
      (∀ e ∈ A, e.isEventSearch = false) ∧ (∀ e ∈ B, e.isEventSearch = false) ∧
      (∀ e ∈ C, e.isEventSearch = false) := by
  refine ⟨cycle_events (cycle_header (cycle_clock io { mod with busy := true })).1,
    (cycle_children env (cycle_satellites env
      (cycle_events (cycle_header (cycle_clock io { mod with busy := true })).1)).1).1,
    (cycle_header (cycle_clock io { mod with busy := true })).2,
    (cycle_children env (cycle_satellites env
      (cycle_events (cycle_header (cycle_clock io { mod with busy := true })).1)).1).2,
    (cycle_controllers (cycle_satellites env (cycle_children env (cycle_satellites env
      (cycle_events (cycle_header (cycle_clock io { mod with busy := true })).1)).1).1).1).2 ++
    (cycle_commit (cycle_controllers (cycle_satellites env (cycle_children env
      (cycle_satellites env
        (cycle_events (cycle_header (cycle_clock io { mod with busy := true })).1)).1).1).1).1).2,
    ?_, ?_, ?_, ?_, ?_, ?_, ?_, ?_, ?_, ?_, ?_⟩
  · simp [cycle_events_fields, cycle_header_fields, cycle_clock_fields]
  · simp [cycle_children, cycle_satellites, cycle_events_fields, cycle_header_fields,
      cycle_clock_fields]
  · rw [(timeout_cb_commit env io mod hn hb).1]
    simp [cycle_events_fields, cycle_header_fields, cycle_clock_fields]
  · rw [(timeout_cb_commit env io mod hn hb).1]
    simp [cycle_children, cycle_satellites, cycle_events_fields, cycle_header_fields,
      cycle_clock_fields]
  · simp [cycle_events_fields, cycle_header_fields, cycle_clock_fields]
  · simp [cycle_children, cycle_satellites, cycle_events_fields, cycle_header_fields,
      cycle_clock_fields]
  · unfold gtk_sat_module_timeout_cb
    simp only [hn, hb, Bool.not_true, Bool.false_eq_true, if_false]
    simp [cycle_commit, cycle_controllers_fields, cycle_satellites, cycle_children,
      cycle_events_fields, cycle_header_fields, cycle_clock_fields]
  · unfold gtk_sat_module_timeout_cb
    simp only [hn, hb, Bool.not_true, Bool.false_eq_true, if_false]
    simp [cycle_satellites, cycle_children,
      cycle_events_fields, cycle_header_fields, cycle_clock_fields]
  · exact cycle_header_trace _
  · intro e he
    exact update_children_trace _ _ _ _ _ _ e he
  · intro e he
    rcases List.mem_append.mp he with he | he
    · exact cycle_controllers_trace _ e he
    · exact cycle_commit_trace _ e he

/-! ## Lemmas on sequences of timer ticks -/

theorem fire_not_committed (env : Env) (mod : GtkSatModule) (t : Tick)
    (h : t.committed mod = false) : fire env mod t = { mod with busy := t.held } := by
  unfold fire
  apply timeout_cb_skip
  unfold Tick.committed at h
  have hnu : needupdate { mod with busy := t.held } t.io = needupdate mod t.io := rfl
  rw [hnu]
  cases hx : needupdate mod t.io <;> cases hy : t.held <;> simp_all

theorem fire_committed (mod : GtkSatModule) (t : Tick)
    (h : t.committed mod = true) :
    needupdate { mod with busy := t.held } t.io = true ∧
      ({ mod with busy := t.held } : GtkSatModule).busy = false := by
  unfold Tick.committed at h
  have hnu : needupdate { mod with busy := t.held } t.io = needupdate mod t.io := rfl
  rw [hnu]
  cases hx : needupdate mod t.io <;> cases hy : t.held <;> simp_all

theorem fire_event_counter (env : Env) (N : Nat) (hN : 1 ≤ N) (hN32 : N < 2 ^ 32)
    (m : GtkSatModule) (c : Nat) (t : Tick)
    (h : m.event_timeout = N ∧ 1 ≤ m.event_count ∧ m.event_count ≤ N ∧
      m.event_count % N = c % N) :
    (fire env m t).event_timeout = N ∧ 1 ≤ (fire env m t).event_count ∧
      (fire env m t).event_count ≤ N ∧
      (fire env m t).event_count % N = (c + (if t.committed m then 1 else 0)) % N := by
  obtain ⟨h1, h2, h3, h4⟩ := h
  cases hc : t.committed m
  · rw [fire_not_committed env m t hc]
    simpa using ⟨h1, h2, h3, h4⟩
  · obtain ⟨hn, hb⟩ := fire_committed m t hc
    obtain ⟨-, -, -, -, hec, het, -, -, -⟩ := timeout_cb_commit env t.io _ hn hb
    unfold fire
    rw [hec, het]
    simp only [if_true]
    have e1 : ({ m with busy := t.held } : GtkSatModule).event_count = m.event_count := rfl
    have e2 : ({ m with busy := t.held } : GtkSatModule).event_timeout = m.event_timeout := rfl
    rw [e1, e2, h1]
    by_cases hw : m.event_count = N
    · rw [if_pos hw]
      have hmod : (0 + 1) % 2 ^ 32 = 1 := by norm_num
      rw [hmod]
      refine ⟨rfl, le_refl 1, hN, ?_⟩
      have hc0 : c % N = 0 := by rw [← h4, hw, Nat.mod_self]
      rw [Nat.add_mod, hc0, Nat.zero_add, Nat.mod_mod]
    · rw [if_neg hw]
      have hlt : m.event_count + 1 < 2 ^ 32 := by omega
      rw [Nat.mod_eq_of_lt hlt]
      refine ⟨rfl, by omega, by omega, ?_⟩
      rw [Nat.add_mod, h4, ← Nat.add_mod]

theorem run_event_counter (env : Env) (N : Nat) (hN : 1 ≤ N) (hN32 : N < 2 ^ 32) :
    ∀ (ts : List Tick) (m : GtkSatModule) (c : Nat),
      (m.event_timeout = N ∧ 1 ≤ m.event_count ∧ m.event_count ≤ N ∧
        m.event_count % N = c % N) →
      ((run env m ts).event_timeout = N ∧ 1 ≤ (run env m ts).event_count ∧
        (run env m ts).event_count ≤ N ∧
        (run env m ts).event_count % N = (c + committedCycles env m ts) % N) := by
  intro ts
  induction ts with
  | nil => intro m c h; simpa [run, committedCycles] using h
  | cons t ts ih =>
    intro m c h
    have hstep := fire_event_counter env N hN hN32 m c t h
    have := ih (fire env m t) _ hstep
    simpa [run, committedCycles, Nat.add_assoc] using this

theorem foreach_keeps_events (t : SatTable) (f : Nat → sat_t → sat_t × List Effect)
    (hf : ∀ k v, (f k v).1.aos = v.aos ∧ (f k v).1.los = v.los) :
    (g_hash_table_foreach t f).1.map (fun e => (e.1, e.2.aos, e.2.los)) =
      t.map (fun e => (e.1, e.2.aos, e.2.los)) := by
  simp only [g_hash_table_foreach, List.map_map]
  apply List.map_congr_left
  intro e _
  simp [(hf e.1 e.2).1, (hf e.1 e.2).2]

theorem foreach_trace_mem (t : SatTable) (f : Nat → sat_t → sat_t × List Effect) (e : Effect) :
    e ∈ (g_hash_table_foreach t f).2 ↔ ∃ kv ∈ t, e ∈ (f kv.1 kv.2).2 := by
  simp only [g_hash_table_foreach, List.mem_flatten, List.mem_map]
  constructor
  · rintro ⟨l, ⟨kv, hkv, rfl⟩, he⟩
    exact ⟨kv, hkv, he⟩
  · rintro ⟨kv, hkv, he⟩
    exact ⟨_, ⟨kv, hkv, rfl⟩, he⟩

theorem update_sat_off_trace (env : Env) (module : GtkSatModule) (key : Nat) (val : sat_t)
    (h : module.event_count ≠ 0) :
    (gtk_sat_module_update_sat env module key val).1.aos = val.aos ∧
    (gtk_sat_module_update_sat env module key val).1.los = val.los ∧
    ∀ e ∈ (gtk_sat_module_update_sat env module key val).2, e.isEventSearch = false := by
  have hoff : (module.event_count == 0 && val.otype != orbit_type_t.ORBIT_TYPE_GEO &&
      val.otype != orbit_type_t.ORBIT_TYPE_DECAYED && env.has_aos val module.qth) = false := by
    simp [h]
  obtain ⟨h1, h2, h3⟩ := update_sat_keeps_events env module key val hoff
  refine ⟨h1, h2, ?_⟩
  rw [h3]
  split <;> simp [Effect.isEventSearch]

theorem update_sat_on_trace (env : Env) (module : GtkSatModule) (key : Nat) (val : sat_t)
    (h0 : module.event_count = 0) (hgeo : val.otype ≠ orbit_type_t.ORBIT_TYPE_GEO)
    (hdec : val.otype ≠ orbit_type_t.ORBIT_TYPE_DECAYED)
    (haos : env.has_aos val module.qth = true) :
    Effect.find_aos val.catnr module.tmgCdnum env.pred_look_ahead ∈
        (gtk_sat_module_update_sat env module key val).2 ∧
    Effect.find_los val.catnr module.tmgCdnum env.pred_look_ahead ∈
        (gtk_sat_module_update_sat env module key val).2 := by
  unfold gtk_sat_module_update_sat
  simp [h0, hgeo, hdec, haos]

theorem fire_clock (env : Env) (m : GtkSatModule) (t : Tick) :
    (fire env m t).throttle = m.throttle ∧
    (t.committed m = true →
      (fire env m t).tmgCdnum =
        (if m.throttle ≠ 0 then m.tmgPdnum + (m.throttle : ℚ) * (t.io.now - m.rtPrev)
          else m.tmgCdnum) ∧
      (fire env m t).tmgPdnum = (fire env m t).tmgCdnum ∧
      (fire env m t).rtPrev = t.io.now) ∧
    (t.committed m = false →
      (fire env m t).tmgCdnum = m.tmgCdnum ∧ (fire env m t).tmgPdnum = m.tmgPdnum ∧
      (fire env m t).rtPrev = m.rtPrev) := by
  cases hc : t.committed m
  · rw [fire_not_committed env m t hc]
    simp
  · obtain ⟨hn, hb⟩ := fire_committed _ t hc
    obtain ⟨h1, h2, -, h4, -, -, h7, -, -⟩ := timeout_cb_commit env t.io _ hn hb
    unfold fire
    refine ⟨h7, fun _ => ⟨h1, h2, h4⟩, fun h => by simp at h⟩

theorem run_without_commit (env : Env) :
    ∀ (ts : List Tick) (m : GtkSatModule), committedCycles env m ts = 0 →
      (run env m ts).tmgCdnum = m.tmgCdnum ∧ (run env m ts).tmgPdnum = m.tmgPdnum ∧
      (run env m ts).rtPrev = m.rtPrev ∧ (run env m ts).throttle = m.throttle := by
  intro ts
  induction ts with
  | nil => intro m _; simp [run]
  | cons t ts ih =>
    intro m h
    simp only [committedCycles] at h
    have hc : t.committed m = false := by
      cases hx : t.committed m
      · rfl
      · rw [hx] at h; simp at h
    have hrest : committedCycles env (fire env m t) ts = 0 := by omega
    obtain ⟨a1, a2, a3, a4⟩ := ih _ hrest
    obtain ⟨b1, -, b3⟩ := fire_clock env m t
    obtain ⟨c1, c2, c3⟩ := b3 hc
    have hrun : run env m (t :: ts) = run env (fire env m t) ts := rfl
    rw [hrun, a1, a2, a3, a4, c1, c2, c3, b1]
    exact ⟨rfl, rfl, rfl, rfl⟩

theorem run_clock_invariant (env : Env) (k : Int) (hk : k ≠ 0) :
    ∀ (ts : List Tick) (m : GtkSatModule), m.throttle = k →
      (run env m ts).throttle = k ∧
      (run env m ts).tmgPdnum - (k : ℚ) * (run env m ts).rtPrev =
        m.tmgPdnum - (k : ℚ) * m.rtPrev := by
  intro ts
  induction ts with
  | nil => intro m h; exact ⟨h, rfl⟩
  | cons t ts ih =>
    intro m h
    obtain ⟨b1, b2, b3⟩ := fire_clock env m t
    have hthr : (fire env m t).throttle = k := by rw [b1, h]
    obtain ⟨a1, a2⟩ := ih _ hthr
    have hrun : run env m (t :: ts) = run env (fire env m t) ts := rfl
    rw [hrun]
    refine ⟨a1, ?_⟩
    rw [a2]
    cases hc : t.committed m
    · obtain ⟨-, c2, c3⟩ := b3 hc
      rw [c2, c3]
    · obtain ⟨c1, c2, c3⟩ := b2 hc
      rw [c2, c1, c3, if_pos (by rw [h]; exact hk), h]
      ring

theorem run_throttle_zero (env : Env) :
    ∀ (ts : List Tick) (m : GtkSatModule), m.throttle = 0 →
      (run env m ts).tmgCdnum = m.tmgCdnum := by
  intro ts
  induction ts with
  | nil => intro m _; rfl
  | cons t ts ih =>
    intro m h
    obtain ⟨b1, b2, b3⟩ := fire_clock env m t
    have hrun : run env m (t :: ts) = run env (fire env m t) ts := rfl
    rw [hrun, ih _ (by rw [b1, h])]
    cases hc : t.committed m
    · exact (b3 hc).1
    · rw [(b2 hc).1, if_neg (by simp [h])]

/-! ## Lemmas on loading the registry -/

theorem lookup_isSome_iff (t : SatTable) (k : Nat) :
    (g_hash_table_lookup t k).isSome ↔ k ∈ t.map Prod.fst := by
  unfold g_hash_table_lookup
  induction t with
  | nil => simp
  | cons e t ih =>
    by_cases h : e.1 = k
    · simp [List.find?_cons, h]
    · have h2 : (e.1 == k) = false := by simpa using h
      simp only [List.find?_cons, h2, List.map_cons, List.mem_cons]
      rw [ih]
      constructor
      · intro hm; exact Or.inr hm
      · rintro (hm | hm)
        · exact absurd hm.symm h
        · exact hm

theorem insert_fresh (t : SatTable) (k : Nat) (v : sat_t) (h : k ∉ t.map Prod.fst) :
    g_hash_table_insert t k v = t ++ [(k, v)] := by
  unfold g_hash_table_insert
  congr 1
  rw [List.filter_eq_self]
  intro e he
  have : e.1 ≠ k := by
    intro hk
    exact h (List.mem_map.mpr ⟨e, he, hk⟩)
  simpa using this

theorem load_sats_loop_spec (env : Env) (qth : qth_t) :
    ∀ (l : List Int) (t : SatTable) (succ : Nat), (t.map Prod.fst).Nodup →
      ((load_sats_loop env qth l t succ).1.map Prod.fst).Nodup ∧
      (∀ kv ∈ t, kv ∈ (load_sats_loop env qth l t succ).1) ∧
      (∀ k, k ∈ (load_sats_loop env qth l t succ).1.map Prod.fst ↔
        k ∈ t.map Prod.fst ∨
          ∃ c ∈ l, guint_of_gint c = k ∧ (env.gtk_sat_data_read_sat c).isSome) ∧
      (∀ kv ∈ (load_sats_loop env qth l t succ).1, kv ∈ t ∨
        ∃ c ∈ l, guint_of_gint c = kv.1 ∧
          ∃ s, env.gtk_sat_data_read_sat c = some s ∧ kv.2 = env.gtk_sat_data_init_sat s qth) ∧
      (load_sats_loop env qth l t succ).1.length +
          (load_sats_loop env qth l t succ).2.2.countP
            (Effect.hasLevel sat_log_level_t.SAT_LOG_LEVEL_WARN) =
        t.length + l.countP (fun c => (env.gtk_sat_data_read_sat c).isSome) ∧
      (load_sats_loop env qth l t succ).2.2.countP
          (Effect.hasLevel sat_log_level_t.SAT_LOG_LEVEL_ERROR) =
        l.countP (fun c => (env.gtk_sat_data_read_sat c).isNone) ∧
      (∀ e ∈ (load_sats_loop env qth l t succ).2.2,
        e.hasLevel sat_log_level_t.SAT_LOG_LEVEL_WARN = true →
        ∃ c ∈ l, e = Effect.log sat_log_level_t.SAT_LOG_LEVEL_WARN
          ("gtk_sat_module_load_sats: Sat #" ++ toString c ++ " already in list")) ∧
      (succ + l.length < 2 ^ 32 →
        (load_sats_loop env qth l t succ).2.1 + t.length =
          succ + (load_sats_loop env qth l t succ).1.length) := by
  intro l
  induction l with
  | nil =>
    intro t succ hnd
    simp [load_sats_loop, hnd]
  | cons c rest ih =>
    intro t succ hnd
    cases hread : env.gtk_sat_data_read_sat c with
    | none =>
      obtain ⟨a1, a2, a3, a4, a5, a6, a7, a8⟩ := ih t succ hnd
      simp only [load_sats_loop, hread]
      refine ⟨a1, a2, ?_, ?_, ?_, ?_, ?_, ?_⟩
      · intro k
        rw [a3 k]
        constructor
        · rintro (h | ⟨c1, hc1, h1, h2⟩)
          · exact Or.inl h
          · exact Or.inr ⟨c1, List.mem_cons_of_mem _ hc1, h1, h2⟩
        · rintro (h | ⟨c1, hc1, h1, h2⟩)
          · exact Or.inl h
          · rcases List.mem_cons.mp hc1 with rfl | hc1
            · rw [hread] at h2; simp at h2
            · exact Or.inr ⟨c1, hc1, h1, h2⟩
      · intro kv hkv
        rcases a4 kv hkv with h | ⟨c1, hc1, h⟩
        · exact Or.inl h
        · exact Or.inr ⟨c1, List.mem_cons_of_mem _ hc1, h⟩
      · rw [List.countP_cons, List.countP_cons]
        simp only [hread, Effect.hasLevel]
        simpa using a5
      · rw [List.countP_cons, List.countP_cons]
        simp only [hread, Effect.hasLevel]
        simpa using a6
      · intro e he hw
        rcases List.mem_cons.mp he with rfl | he
        · simp [Effect.hasLevel] at hw
        · obtain ⟨c1, hc1, h⟩ := a7 e he hw
          exact ⟨c1, List.mem_cons_of_mem _ hc1, h⟩
      · intro hlt
        apply a8
        simp only [List.length_cons] at hlt
        omega
    | some sat =>
      by_cases hfresh : (g_hash_table_lookup t (guint_of_gint c)).isNone = true
      · have hnot : guint_of_gint c ∉ t.map Prod.fst := by
          rw [← lookup_isSome_iff]
          simpa using hfresh
        have hins := insert_fresh t (guint_of_gint c) (env.gtk_sat_data_init_sat sat qth) hnot
        have hnd1 : ((t ++ [(guint_of_gint c, env.gtk_sat_data_init_sat sat qth)]).map
            Prod.fst).Nodup := by
          rw [List.map_append, List.nodup_append]
          refine ⟨hnd, by simp, ?_⟩
          intro a ha hb
          simp only [List.map_cons, List.map_nil, List.mem_singleton] at hb
          exact hnot (hb ▸ ha)
        obtain ⟨a1, a2, a3, a4, a5, a6, a7, a8⟩ := ih _ ((succ + 1) % 2 ^ 32) hnd1
        simp only [load_sats_loop, hread, if_pos hfresh, hins]
        refine ⟨a1, ?_, ?_, ?_, ?_, ?_, ?_, ?_⟩
        · intro kv hkv
          exact a2 kv (List.mem_append_left _ hkv)
        · intro k
          rw [a3 k]
          simp only [List.map_append, List.map_cons, List.map_nil, List.mem_append,
            List.mem_singleton]
          constructor
          · rintro ((h | h) | ⟨c1, hc1, h1, h2⟩)
            · exact Or.inl h
            · exact Or.inr ⟨c, List.mem_cons_self _ _, h.symm, by simp [hread]⟩
            · exact Or.inr ⟨c1, List.mem_cons_of_mem _ hc1, h1, h2⟩
          · rintro (h | ⟨c1, hc1, h1, h2⟩)
            · exact Or.inl (Or.inl h)
            · rcases List.mem_cons.mp hc1 with rfl | hc1
              · exact Or.inl (Or.inr h1.symm)
              · exact Or.inr ⟨c1, hc1, h1, h2⟩
        · intro kv hkv
          rcases a4 kv hkv with h | ⟨c1, hc1, h⟩
          · rcases List.mem_append.mp h with h | h
            · exact Or.inl h
            · simp only [List.mem_singleton] at h
              exact Or.inr ⟨c, List.mem_cons_self _ _, by rw [h], sat, hread, by rw [h]⟩
          · exact Or.inr ⟨c1, List.mem_cons_of_mem _ hc1, h⟩
        · rw [List.countP_cons, List.countP_cons]
          simp only [hread, Effect.hasLevel]
          simp only [List.length_append, List.length_singleton] at a5
          simp at a5 ⊢
          omega
        · rw [List.countP_cons, List.countP_cons]
          simp only [hread, Effect.hasLevel]
          simpa using a6
        · intro e he hw
          rcases List.mem_cons.mp he with rfl | he
          · simp [Effect.hasLevel] at hw
          · obtain ⟨c1, hc1, h⟩ := a7 e he hw
            exact ⟨c1, List.mem_cons_of_mem _ hc1, h⟩
        · intro hlt
          simp only [List.length_cons] at hlt
          have hs : (succ + 1) % 2 ^ 32 = succ + 1 := Nat.mod_eq_of_lt (by omega)
          rw [hs] at a8 ⊢
          have := a8 (by omega)
          simp only [List.length_append, List.length_singleton] at this
          omega
      · have hin : guint_of_gint c ∈ t.map Prod.fst := by
          rw [← lookup_isSome_iff]
          cases hx : g_hash_table_lookup t (guint_of_gint c) <;> simp_all
        obtain ⟨a1, a2, a3, a4, a5, a6, a7, a8⟩ := ih t succ hnd
        simp only [load_sats_loop, hread, if_neg hfresh]
        refine ⟨a1, a2, ?_, ?_, ?_, ?_, ?_, ?_⟩
        · intro k
          rw [a3 k]
          constructor
          · rintro (h | ⟨c1, hc1, h1, h2⟩)
            · exact Or.inl h
            · exact Or.inr ⟨c1, List.mem_cons_of_mem _ hc1, h1, h2⟩
          · rintro (h | ⟨c1, hc1, h1, h2⟩)
            · exact Or.inl h
            · rcases List.mem_cons.mp hc1 with rfl | hc1
              · exact Or.inl (h1 ▸ hin)
              · exact Or.inr ⟨c1, hc1, h1, h2⟩
        · intro kv hkv
          rcases a4 kv hkv with h | ⟨c1, hc1, h⟩
          · exact Or.inl h
          · exact Or.inr ⟨c1, List.mem_cons_of_mem _ hc1, h⟩
        · rw [List.countP_cons, List.countP_cons]
          simp only [hread, Effect.hasLevel]
          simp at a5 ⊢
          omega
        · rw [List.countP_cons, List.countP_cons]
          simp only [hread, Effect.hasLevel]
          simpa using a6
        · intro e he hw
          rcases List.mem_cons.mp he with rfl | he
          · exact ⟨c, List.mem_cons_self _ _, rfl⟩
          · obtain ⟨c1, hc1, h⟩ := a7 e he hw
            exact ⟨c1, List.mem_cons_of_mem _ hc1, h⟩
        · intro hlt
          apply a8
          simp only [List.length_cons] at hlt
          omega

theorem load_sats_ok (env : Env) (module : GtkSatModule) (sats : List Int)
    (hcfg : module.cfgdata.sats = Except.ok sats) :
    (gtk_sat_module_load_sats env module).1.satellites =
        (load_sats_loop env module.qth sats module.satellites 0).1 ∧
      (gtk_sat_module_load_sats env module).2 =
        (load_sats_loop env module.qth sats module.satellites 0).2.2 ++
          [load_sats_summary (load_sats_loop env module.qth sats module.satellites 0).2.1
            sats.length] := by
  unfold gtk_sat_module_load_sats
  rw [hcfg]
  exact ⟨rfl, rfl⟩

theorem foreach_keeps_geo (t : SatTable) (f : Nat → sat_t → sat_t × List Effect)
    (hf : ∀ k v, (f k v).1.otype = v.otype ∧
      (v.otype = orbit_type_t.ORBIT_TYPE_GEO ∨ v.otype = orbit_type_t.ORBIT_TYPE_DECAYED →
        (f k v).1.aos = v.aos ∧ (f k v).1.los = v.los)) :
    ((g_hash_table_foreach t f).1.filter (fun e => decide
        (e.2.otype = orbit_type_t.ORBIT_TYPE_GEO ∨
          e.2.otype = orbit_type_t.ORBIT_TYPE_DECAYED))).map
        (fun e => (e.1, e.2.otype, e.2.aos, e.2.los)) =
      (t.filter (fun e => decide
        (e.2.otype = orbit_type_t.ORBIT_TYPE_GEO ∨
          e.2.otype = orbit_type_t.ORBIT_TYPE_DECAYED))).map
        (fun e => (e.1, e.2.otype, e.2.aos, e.2.los)) := by
  simp only [g_hash_table_foreach]
  induction t with
  | nil => rfl
  | cons e t ih =>
    obtain ⟨h1, h2⟩ := hf e.1 e.2
    by_cases hg : e.2.otype = orbit_type_t.ORBIT_TYPE_GEO ∨
        e.2.otype = orbit_type_t.ORBIT_TYPE_DECAYED
    · obtain ⟨h3, h4⟩ := h2 hg
      simp only [List.map_cons, List.filter_cons, h1, hg, decide_True, if_true, h3, h4, ih]
    · simp only [List.map_cons, List.filter_cons, h1, hg, decide_False, Bool.false_eq_true,
        if_false]
      exact ih

theorem update_sat_geo (env : Env) (module : GtkSatModule) (k : Nat) (v : sat_t) :
    (gtk_sat_module_update_sat env module k v).1.otype = v.otype ∧
      (v.otype = orbit_type_t.ORBIT_TYPE_GEO ∨ v.otype = orbit_type_t.ORBIT_TYPE_DECAYED →
        (gtk_sat_module_update_sat env module k v).1.aos = v.aos ∧
        (gtk_sat_module_update_sat env module k v).1.los = v.los) := by
  refine ⟨(update_sat_keeps_identity env module k v).2.1, ?_⟩
  intro h
  have hoff : (module.event_count == 0 && v.otype != orbit_type_t.ORBIT_TYPE_GEO &&
      v.otype != orbit_type_t.ORBIT_TYPE_DECAYED && env.has_aos v module.qth) = false := by
    rcases h with h | h <;> simp [h]
  exact ⟨(update_sat_keeps_events env module k v hoff).1,
    (update_sat_keeps_events env module k v hoff).2.1⟩

theorem fire_keeps_geo (env : Env) (m : GtkSatModule) (t : Tick) :
    ((fire env m t).satellites.filter (fun e => decide
        (e.2.otype = orbit_type_t.ORBIT_TYPE_GEO ∨
          e.2.otype = orbit_type_t.ORBIT_TYPE_DECAYED))).map
        (fun e => (e.1, e.2.otype, e.2.aos, e.2.los)) =
      (m.satellites.filter (fun e => decide
        (e.2.otype = orbit_type_t.ORBIT_TYPE_GEO ∨
          e.2.otype = orbit_type_t.ORBIT_TYPE_DECAYED))).map
        (fun e => (e.1, e.2.otype, e.2.aos, e.2.los)) := by
  cases hc : t.committed m
  · rw [fire_not_committed env m t hc]
  · obtain ⟨hn, hb⟩ := fire_committed _ t hc
    obtain ⟨ma, mb, A, B, C, -, -, -, -, -, -, hsat, -⟩ :=
      timeout_cb_commit_satellites env t.io _ hn hb
    unfold fire
    rw [hsat, foreach_keeps_geo _ _ (update_sat_geo env mb),
      foreach_keeps_geo _ _ (update_sat_geo env ma)]

theorem guint_of_gint_inj (a b : Int) (ha : -2 ^ 31 ≤ a ∧ a < 2 ^ 31)
    (hb : -2 ^ 31 ≤ b ∧ b < 2 ^ 31) (h : guint_of_gint a = guint_of_gint b) : a = b := by
  unfold guint_of_gint at h
  omega

theorem dedup_length_map_guint (l : List Int) (h : ∀ c ∈ l, -2 ^ 31 ≤ c ∧ c < 2 ^ 31) :
    (l.map guint_of_gint).dedup.length = l.dedup.length := by
  have himg : (l.map guint_of_gint).toFinset = l.toFinset.image guint_of_gint := by
    ext k
    simp
  rw [← List.card_toFinset, ← List.card_toFinset, himg]
  apply Finset.card_image_of_injOn
  intro a ha b hb hab
  simp only [List.coe_toFinset, Set.mem_setOf_eq] at ha hb
  exact guint_of_gint_inj a b (h a ha) (h b hb) hab

/-! ## Lemmas on construction -/

/-- A module that `gtk_sat_module_new` returns has the event counter at the
event period, the header counter at 0 and both periods as lines 337-353
compute them from the timer period. -/
theorem gtk_sat_module_new_counters (env : Env) (cfg : ModCfg) (t1 t2 t3 t4 : ℚ)
    (r : GtkSatModule × List Effect) (h : gtk_sat_module_new env cfg t1 t2 t3 t4 = some r) :
    r.1.event_count = r.1.event_timeout ∧ r.1.head_count = 0 ∧
    r.1.head_timeout = (if cfg.timeout > 1000 then 1 else 1000 / cfg.timeout) ∧
    r.1.event_timeout = (if cfg.timeout > 60000 then 1 else 60000 / cfg.timeout) ∧
    r.1.busy = false ∧ r.1.throttle = 1 := by
  unfold gtk_sat_module_new at h
  split at h
  · simp at h
  · simp only [Option.some.injEq] at h
    subst h
    unfold gtk_sat_module_load_sats
    cases cfg.cfgdata.sats <;> simp

/-! ## Lemmas on reloading, on the cells of the event list and on the grid -/

theorem load_sats_keeps_fields (env : Env) (module : GtkSatModule) :
    (gtk_sat_module_load_sats env module).1.cfgdata = module.cfgdata ∧
    (gtk_sat_module_load_sats env module).1.qth = module.qth ∧
    (gtk_sat_module_load_sats env module).1.busy = module.busy ∧
    (gtk_sat_module_load_sats env module).1.event_count = module.event_count ∧
    (gtk_sat_module_load_sats env module).1.event_timeout = module.event_timeout ∧
    (gtk_sat_module_load_sats env module).1.views = module.views ∧
    (gtk_sat_module_load_sats env module).1.nviews = module.nviews := by
  unfold gtk_sat_module_load_sats
  split <;> simp

theorem load_sats_registry (env : Env) (m1 m2 : GtkSatModule)
    (hcfg : m1.cfgdata = m2.cfgdata) (hqth : m1.qth = m2.qth)
    (hsat : m1.satellites = m2.satellites) :
    (gtk_sat_module_load_sats env m1).1.satellites =
      (gtk_sat_module_load_sats env m2).1.satellites := by
  unfold gtk_sat_module_load_sats
  rw [hcfg, hqth, hsat]
  split <;> simp [hsat]

theorem reload_sats_free (env : Env) (module : GtkSatModule) (hfree : module.busy = false) :
    ∃ r, gtk_sat_module_reload_sats env module = some r ∧
      r.1.satellites =
        (gtk_sat_module_load_sats env { module with satellites := [] }).1.satellites ∧
      r.1.cfgdata = module.cfgdata ∧ r.1.qth = module.qth ∧ r.1.busy = false ∧
      r.1.event_count = 0 ∧ r.1.event_timeout = module.event_timeout := by
  unfold gtk_sat_module_reload_sats
  rw [hfree]
  simp only [Bool.false_eq_true, if_false]
  refine ⟨_, rfl, ?_, ?_, ?_, rfl, ?_, ?_⟩
  · apply load_sats_registry
    · rfl
    · rfl
    · simp [g_hash_table_foreach_remove, empty]
  · simp [load_sats_keeps_fields]
  · simp [load_sats_keeps_fields]
  · simp [load_sats_keeps_fields]
  · simp [load_sats_keeps_fields]

theorem colon_mem_of_cs (x y : String) (s : Nat) :
    ':' ∈ (x ++ (if s < 10 then ":0" else ":") ++ y).data := by
  simp only [String.data_append, List.mem_append]
  left; right
  split <;> decide

theorem time_cell_never_iff (number : ℚ) :
    time_cell_data_function number = some "Never" ↔ number < 0 := by
  constructor
  · intro h
    by_contra hneg
    unfold time_cell_data_function at h
    rw [if_neg hneg] at h
    simp only [] at h
    split at h
    · have hcolon : ':' ∉ ("Never" : String).data := by decide
      split at h
      · simp only [Option.some.injEq] at h
        apply hcolon
        rw [← h]
        exact colon_mem_of_cs _ _ _
      · simp only [Option.some.injEq] at h
        apply hcolon
        rw [← h]
        exact colon_mem_of_cs _ _ _
    · simp at h
  · intro h
    unfold time_cell_data_function
    rw [if_pos h]

/-! ## Lemmas on the two registry passes of a cycle -/

theorem event_list_update_sats_quiet (satellites : SatTable) (tstamp : ℚ) (row : EventRow) :
    ∀ e ∈ (event_list_update_sats satellites tstamp row).2,
      e.isEventSearch = false ∧ e.isOscSend = false := by
  unfold event_list_update_sats
  split <;> simp [Effect.isEventSearch, Effect.isOscSend]

theorem update_child_quiet (env : Env) (satellites : SatTable) (child : GtkWidget) (tstamp : ℚ) :
    ∀ e ∈ (update_child env satellites child tstamp).2,
      e.isEventSearch = false ∧ e.isOscSend = false := by
  cases child with
  | event_list evlist =>
    intro e he
    simp only [update_child, gtk_event_list_update, List.mem_flatten, List.mem_map] at he
    obtain ⟨l, ⟨row, _, rfl⟩, hel⟩ := he
    exact event_list_update_sats_quiet _ _ _ e hel
  | _ => simp [update_child, Effect.isEventSearch, Effect.isOscSend]

theorem update_children_quiet (env : Env) (satellites : SatTable) (tstamp : ℚ) (n : Nat) :
    ∀ (i : Nat) (views : List GtkWidget),
      ∀ e ∈ (update_children env satellites tstamp i n views).2,
        e.isEventSearch = false ∧ e.isOscSend = false := by
  induction n with
  | zero => intro i views e he; simp [update_children] at he
  | succ n ih =>
    intro i views e he
    simp only [update_children, List.mem_append] at he
    rcases he with he | he
    · exact update_child_quiet _ _ _ _ e he
    · exact ih _ _ e he

theorem cycle_header_quiet (m : GtkSatModule) :
    ∀ e ∈ (cycle_header m).2, e.isEventSearch = false ∧ e.isOscSend = false := by
  unfold cycle_header update_header
  simp only []
  split
  · split <;> simp [Effect.isEventSearch, Effect.isOscSend]
  · simp

theorem cycle_controllers_quiet (m : GtkSatModule) :
    ∀ e ∈ (cycle_controllers m).2, e.isEventSearch = false ∧ e.isOscSend = false := by
  unfold cycle_controllers update_skg
  intro e he
  simp only [List.mem_append] at he
  rcases he with (he | he) | he
  · split at he <;> simp_all [Effect.isEventSearch, Effect.isOscSend]
  · split at he <;> simp_all [Effect.isEventSearch, Effect.isOscSend]
  · split at he
    · split at he
      · simp only [List.mem_cons, List.mem_singleton, List.not_mem_nil, or_false] at he
        rcases he with rfl | rfl <;> exact ⟨rfl, rfl⟩
      · simp at he
    · simp at he

theorem cycle_commit_quiet (m : GtkSatModule) :
    ∀ e ∈ (cycle_commit m).2, e.isEventSearch = false ∧ e.isOscSend = false := by
  unfold cycle_commit
  intro e he
  simp only [] at he
  split at he
  · simp only [List.mem_singleton] at he
    rw [he]
    exact ⟨rfl, rfl⟩
  · simp at he

/-- The registry and the effects of a committed cycle in terms of its two
registry passes: the first by `cycle_first_module`, the second by a module `mb`
with the same event counter, observer and simulated time, between effects that
are neither an event search nor an OSC message. -/
theorem timeout_cb_commit_passes (env : Env) (io : TickEnv) (mod : GtkSatModule)
    (hn : needupdate mod io = true) (hb : mod.busy = false) :
    (cycle_first_module io mod).event_count = (cycle_events mod).event_count ∧
    (cycle_first_module io mod).qth = mod.qth ∧
    cycle_first_pass env io mod =
      (g_hash_table_foreach mod.satellites
        (gtk_sat_module_update_sat env (cycle_first_module io mod))).1 ∧
    ∃ (mb : GtkSatModule) (A B C : List Effect),
      mb.event_count = (cycle_events mod).event_count ∧ mb.qth = mod.qth ∧
      (gtk_sat_module_timeout_cb env io mod).module.satellites =
        (g_hash_table_foreach (cycle_first_pass env io mod)
          (gtk_sat_module_update_sat env mb)).1 ∧
      (gtk_sat_module_timeout_cb env io mod).trace =
        A ++ (g_hash_table_foreach mod.satellites
            (gtk_sat_module_update_sat env (cycle_first_module io mod))).2 ++ B ++
          (g_hash_table_foreach (cycle_first_pass env io mod)
            (gtk_sat_module_update_sat env mb)).2 ++ C ∧
      (∀ e ∈ A, e.isEventSearch = false ∧ e.isOscSend = false) ∧
      (∀ e ∈ B, e.isEventSearch = false ∧ e.isOscSend = false) ∧
      (∀ e ∈ C, e.isEventSearch = false ∧ e.isOscSend = false) := by
  have hfm : (cycle_first_module io mod).satellites = mod.satellites := by
    simp [cycle_first_module, cycle_events_fields, cycle_header_fields, cycle_clock_fields]
  refine ⟨?_, ?_, ?_, ?_⟩
  · simp [cycle_first_module, cycle_events_fields, cycle_header_fields, cycle_clock_fields]
  · simp [cycle_first_module, cycle_events_fields, cycle_header_fields, cycle_clock_fields]
  · simp only [cycle_first_pass, cycle_satellites, hfm]
  · refine ⟨(cycle_children env (cycle_satellites env (cycle_first_module io mod)).1).1,
      (cycle_header (cycle_clock io { mod with busy := true })).2,
      (cycle_children env (cycle_satellites env (cycle_first_module io mod)).1).2,
      (cycle_controllers (cycle_satellites env (cycle_children env
        (cycle_satellites env (cycle_first_module io mod)).1).1).1).2 ++
      (cycle_commit (cycle_controllers (cycle_satellites env (cycle_children env
        (cycle_satellites env (cycle_first_module io mod)).1).1).1).1).2,
      ?_, ?_, ?_, ?_, ?_, ?_, ?_⟩
    · simp [cycle_children, cycle_satellites, cycle_first_module, cycle_events_fields,
        cycle_header_fields, cycle_clock_fields]
    · simp [cycle_children, cycle_satellites, cycle_first_module, cycle_events_fields,
        cycle_header_fields, cycle_clock_fields]
    · unfold gtk_sat_module_timeout_cb
      simp only [hn, hb, Bool.not_true, Bool.false_eq_true, if_false]
      simp [cycle_commit, cycle_controllers_fields, cycle_satellites, cycle_children,
        cycle_first_pass, cycle_first_module]
    · unfold gtk_sat_module_timeout_cb
      simp only [hn, hb, Bool.not_true, Bool.false_eq_true, if_false]
      simp [cycle_satellites, cycle_children, cycle_first_pass, cycle_first_module,
        cycle_events_fields, cycle_header_fields, cycle_clock_fields]
    · exact cycle_header_quiet _
    · intro e he
      exact update_children_quiet _ _ _ _ _ _ e he
    · intro e he
      rcases List.mem_append.mp he with he | he
      · exact cycle_controllers_quiet _ e he
      · exact cycle_commit_quiet _ e he

theorem update_sat_find_count (env : Env) (module : GtkSatModule) (key : Nat) (val : sat_t)
    (h0 : module.event_count = 0) :
    (gtk_sat_module_update_sat env module key val).2.countP Effect.isFindAos =
      (if eligible env module.qth val then 1 else 0) ∧
    (gtk_sat_module_update_sat env module key val).2.countP Effect.isFindLos =
      (if eligible env module.qth val then 1 else 0) := by
  unfold gtk_sat_module_update_sat eligible
  simp only [h0, beq_self_eq_true, Bool.true_and]
  cases hel : (val.otype != orbit_type_t.ORBIT_TYPE_GEO &&
      val.otype != orbit_type_t.ORBIT_TYPE_DECAYED && env.has_aos val module.qth) <;>
    cases hosc : env.send_osc <;>
    simp [Effect.isFindAos, Effect.isFindLos]

theorem update_sat_osc (env : Env) (module : GtkSatModule) (key : Nat) (val : sat_t) :
    (gtk_sat_module_update_sat env module key val).2.filter Effect.isOscSend =
      (if env.send_osc then [osc_message (gtk_sat_module_update_sat env module key val).1]
        else []) := by
  unfold gtk_sat_module_update_sat osc_message
  simp only []
  cases hosc : env.send_osc <;> split <;> simp [Effect.isOscSend]

theorem foreach_cons (e : Nat × sat_t) (t : SatTable)
    (f : Nat → sat_t → sat_t × List Effect) :
    (g_hash_table_foreach (e :: t) f).1 = (e.1, (f e.1 e.2).1) :: (g_hash_table_foreach t f).1 ∧
    (g_hash_table_foreach (e :: t) f).2 = (f e.1 e.2).2 ++ (g_hash_table_foreach t f).2 := by
  simp [g_hash_table_foreach]

theorem foreach_find_count (env : Env) (module : GtkSatModule) (h0 : module.event_count = 0)
    (t : SatTable) :
    (g_hash_table_foreach t (gtk_sat_module_update_sat env module)).2.countP Effect.isFindAos =
      t.countP (fun e => eligible env module.qth e.2) ∧
    (g_hash_table_foreach t (gtk_sat_module_update_sat env module)).2.countP Effect.isFindLos =
      t.countP (fun e => eligible env module.qth e.2) := by
  induction t with
  | nil => simp [g_hash_table_foreach]
  | cons e t ih =>
    obtain ⟨h1, h2⟩ := update_sat_find_count env module e.1 e.2 h0
    rw [(foreach_cons e t _).2, List.countP_append, List.countP_append, h1, h2, ih.1, ih.2,
      List.countP_cons]
    constructor <;> split <;> omega

theorem foreach_osc (env : Env) (module : GtkSatModule) (hosc : env.send_osc = true)
    (t : SatTable) :
    (g_hash_table_foreach t (gtk_sat_module_update_sat env module)).2.filter Effect.isOscSend =
      (g_hash_table_foreach t (gtk_sat_module_update_sat env module)).1.map
        (fun e => osc_message e.2) := by
  induction t with
  | nil => simp [g_hash_table_foreach]
  | cons e t ih =>
    rw [(foreach_cons e t _).2, (foreach_cons e t _).1, List.filter_append, ih,
      update_sat_osc, if_pos hosc]
    rfl

theorem foreach_keeps_catnr (env : Env) (module : GtkSatModule) (t : SatTable) :
    (g_hash_table_foreach t (gtk_sat_module_update_sat env module)).1.map
        (fun e => (e.1, e.2.catnr)) = t.map (fun e => (e.1, e.2.catnr)) := by
  simp only [g_hash_table_foreach, List.map_map]
  apply List.map_congr_left
  intro e _
  simp [(update_sat_keeps_identity env module e.1 e.2).1]

theorem quiet_countP (l : List Effect) (p : Effect → Bool) (h : ∀ e ∈ l, p e = false) :
    l.countP p = 0 := by
  rw [List.countP_eq_zero]
  intro e he
  simp [h e he]

theorem quiet_filter (l : List Effect) (p : Effect → Bool) (h : ∀ e ∈ l, p e = false) :
    l.filter p = [] := by
  rw [List.filter_eq_nil_iff]
  intro e he
  simp [h e he]

theorem isFindAos_of_not_search (e : Effect) (h : e.isEventSearch = false) :
    e.isFindAos = false ∧ e.isFindLos = false := by
  cases e <;> simp_all [Effect.isEventSearch, Effect.isFindAos, Effect.isFindLos]

theorem event_row_missing (satellites : SatTable) (tstamp : ℚ) (r : EventRow)
    (hl : g_hash_table_lookup satellites (guint_of_gint r.catnum) = none) :
    (event_list_update_sats satellites tstamp r).1 = none ∧
    (event_list_update_sats satellites tstamp r).2.length = 2 := by
  unfold event_list_update_sats
  rw [hl]
  exact ⟨rfl, rfl⟩

theorem event_row_found (satellites : SatTable) (tstamp : ℚ) (r : EventRow) (sat : sat_t)
    (hl : g_hash_table_lookup satellites (guint_of_gint r.catnum) = some sat) :
    (∃ r1, (event_list_update_sats satellites tstamp r).1 = some r1 ∧
      r1.name = r.name ∧ r1.catnum = r.catnum) ∧
    (event_list_update_sats satellites tstamp r).2 = [] := by
  unfold event_list_update_sats
  rw [hl]
  exact ⟨⟨_, rfl, rfl, rfl⟩, rfl⟩

/-! ## Lemmas on the header counter -/

theorem cycle_clock_head (io : TickEnv) (m : GtkSatModule) :
    (cycle_clock io m).head_count = m.head_count ∧
    (cycle_clock io m).head_timeout = m.head_timeout := by
  unfold cycle_clock
  simp only []
  split <;> simp

theorem cycle_header_head (m : GtkSatModule) :
    (cycle_header m).1.head_timeout = m.head_timeout ∧
    (cycle_header m).1.head_count =
      (if (m.head_count + 1) % 2 ^ 32 = m.head_timeout then 0
        else (m.head_count + 1) % 2 ^ 32) ∧
    (cycle_header m).2.countP Effect.isHeaderUpdate =
      (if (m.head_count + 1) % 2 ^ 32 = m.head_timeout then 1 else 0) := by
  unfold cycle_header update_header
  simp only []
  split
  · refine ⟨rfl, rfl, ?_⟩
    split <;> simp [Effect.isHeaderUpdate]
  · exact ⟨rfl, rfl, rfl⟩

theorem cycle_events_head (m : GtkSatModule) :
    (cycle_events m).head_count = m.head_count ∧
    (cycle_events m).head_timeout = m.head_timeout := by
  unfold cycle_events
  split <;> simp

theorem cycle_controllers_head (m : GtkSatModule) :
    (cycle_controllers m).1.head_count = m.head_count ∧
    (cycle_controllers m).1.head_timeout = m.head_timeout := by
  unfold cycle_controllers update_skg
  simp only []
  split
  · split <;> simp
  · simp

theorem update_sat_no_header (env : Env) (module : GtkSatModule) (key : Nat) (val : sat_t) :
    ∀ e ∈ (gtk_sat_module_update_sat env module key val).2, e.isHeaderUpdate = false := by
  unfold gtk_sat_module_update_sat
  intro e he
  simp only [List.mem_append] at he
  rcases he with he | he
  · split at he
    · simp only [List.mem_cons, List.mem_singleton, List.not_mem_nil, or_false] at he
      rcases he with rfl | rfl <;> rfl
    · simp at he
  · split at he
    · simp only [List.mem_singleton] at he
      rw [he]; rfl
    · simp at he

theorem cycle_satellites_no_header (env : Env) (m : GtkSatModule) :
    ∀ e ∈ (cycle_satellites env m).2, e.isHeaderUpdate = false := by
  intro e he
  simp only [cycle_satellites] at he
  obtain ⟨kv, _, hk⟩ := (foreach_trace_mem _ _ _).mp he
  exact update_sat_no_header env m kv.1 kv.2 e hk

theorem update_child_no_header (env : Env) (satellites : SatTable) (child : GtkWidget)
    (tstamp : ℚ) :
    ∀ e ∈ (update_child env satellites child tstamp).2, e.isHeaderUpdate = false := by
  cases child with
  | event_list evlist =>
    intro e he
    simp only [update_child, gtk_event_list_update, List.mem_flatten, List.mem_map] at he
    obtain ⟨l, ⟨row, _, rfl⟩, hel⟩ := he
    unfold event_list_update_sats at hel
    split at hel
    · simp only [List.mem_cons, List.mem_singleton, List.not_mem_nil, or_false] at hel
      rcases hel with rfl | rfl <;> rfl
    · simp at hel
  | _ => simp [update_child, Effect.isHeaderUpdate]

theorem update_children_no_header (env : Env) (satellites : SatTable) (tstamp : ℚ) (n : Nat) :
    ∀ (i : Nat) (views : List GtkWidget),
      ∀ e ∈ (update_children env satellites tstamp i n views).2, e.isHeaderUpdate = false := by
  induction n with
  | zero => intro i views e he; simp [update_children] at he
  | succ n ih =>
    intro i views e he
    simp only [update_children, List.mem_append] at he
    rcases he with he | he
    · exact update_child_no_header _ _ _ _ e he
    · exact ih _ _ e he

theorem cycle_controllers_no_header (m : GtkSatModule) :
    ∀ e ∈ (cycle_controllers m).2, e.isHeaderUpdate = false := by
  unfold cycle_controllers update_skg
  intro e he
  simp only [List.mem_append] at he
  rcases he with (he | he) | he
  · split at he <;> simp_all [Effect.isHeaderUpdate]
  · split at he <;> simp_all [Effect.isHeaderUpdate]
  · split at he
    · split at he
      · simp only [List.mem_cons, List.mem_singleton, List.not_mem_nil, or_false] at he
        rcases he with rfl | rfl <;> rfl
      · simp at he
    · simp at he

theorem cycle_commit_no_header (m : GtkSatModule) :
    ∀ e ∈ (cycle_commit m).2, e.isHeaderUpdate = false := by
  unfold cycle_commit
  intro e he
  simp only [] at he
  split at he
  · simp only [List.mem_singleton] at he
    rw [he]; rfl
  · simp at he

/-- The header counter and the header refreshes of a committed cycle. -/
theorem timeout_cb_commit_header (env : Env) (io : TickEnv) (mod : GtkSatModule)
    (hn : needupdate mod io = true) (hb : mod.busy = false) :
    (gtk_sat_module_timeout_cb env io mod).module.head_timeout = mod.head_timeout ∧
    (gtk_sat_module_timeout_cb env io mod).module.head_count =
      (if (mod.head_count + 1) % 2 ^ 32 = mod.head_timeout then 0
        else (mod.head_count + 1) % 2 ^ 32) ∧
    (gtk_sat_module_timeout_cb env io mod).trace.countP Effect.isHeaderUpdate =
      (if (mod.head_count + 1) % 2 ^ 32 = mod.head_timeout then 1 else 0) := by
  have hc := cycle_clock_head io { mod with busy := true }
  have hh := cycle_header_head (cycle_clock io { mod with busy := true })
  rw [hc.1, hc.2] at hh
  unfold gtk_sat_module_timeout_cb
  simp only [hn, hb, Bool.not_true, Bool.false_eq_true, if_false]
  refine ⟨?_, ?_, ?_⟩
  · simp [cycle_commit, cycle_controllers_head, cycle_satellites, cycle_children,
      cycle_events_head, hh.1]
  · simp only [cycle_commit, cycle_controllers_head, cycle_satellites, cycle_children,
      cycle_events_head]
    exact hh.2.1
  · simp only [List.countP_append]
    rw [hh.2.2, quiet_countP _ _ (cycle_satellites_no_header env _),
      quiet_countP _ _ (cycle_commit_no_header _),
      quiet_countP _ _ (cycle_controllers_no_header _),
      quiet_countP _ _ (cycle_satellites_no_header env _)]
    have hk : List.countP Effect.isHeaderUpdate
        (cycle_children env (cycle_satellites env (cycle_events
          (cycle_header (cycle_clock io { mod with busy := true })).1)).1).2 = 0 := by
      apply quiet_countP
      intro e he
      exact update_children_no_header _ _ _ _ _ _ e he
    rw [hk]
    simp

theorem fire_head (env : Env) (m : GtkSatModule) (t : Tick) :
    (fire env m t).head_timeout = m.head_timeout ∧
    (t.committed m = true →
      (fire env m t).head_count =
        (if (m.head_count + 1) % 2 ^ 32 = m.head_timeout then 0
          else (m.head_count + 1) % 2 ^ 32) ∧
      (gtk_sat_module_timeout_cb env t.io { m with busy := t.held }).trace.countP
          Effect.isHeaderUpdate =
        (if (m.head_count + 1) % 2 ^ 32 = m.head_timeout then 1 else 0)) ∧
    (t.committed m = false →
      (fire env m t).head_count = m.head_count ∧
      (gtk_sat_module_timeout_cb env t.io { m with busy := t.held }).trace.countP
          Effect.isHeaderUpdate = 0) := by
  cases hc : t.committed m
  · rw [fire_not_committed env m t hc]
    refine ⟨rfl, fun h => by simp at h, fun _ => ⟨rfl, ?_⟩⟩
    unfold Tick.committed at hc
    unfold gtk_sat_module_timeout_cb
    have hnu : needupdate { m with busy := t.held } t.io = needupdate m t.io := rfl
    rw [hnu]
    cases hx : needupdate m t.io
    · simp
    · cases hy : t.held
      · simp [hx, hy] at hc
      · simp [deadline_warning, Effect.isHeaderUpdate]
  · obtain ⟨hn, hb⟩ := fire_committed _ t hc
    obtain ⟨h1, h2, h3⟩ := timeout_cb_commit_header env t.io _ hn hb
    unfold fire
    exact ⟨h1, fun _ => ⟨h2, h3⟩, fun h => by simp at h⟩

theorem run_head_counter (env : Env) (H : Nat) (hH : 1 ≤ H) (hH32 : H < 2 ^ 32) :
    ∀ (ts : List Tick) (m : GtkSatModule) (c : Nat),
      (m.head_timeout = H ∧ m.head_count = c % H) →
      ((run env m ts).head_timeout = H ∧
        (run env m ts).head_count = (c + committedCycles env m ts) % H) := by
  intro ts
  induction ts with
  | nil => intro m c h; simpa [run, committedCycles] using h
  | cons t ts ih =>
    intro m c h
    obtain ⟨h1, h2⟩ := h
    obtain ⟨f1, f2, f3⟩ := fire_head env m t
    have hlt : m.head_count < H := by rw [h2]; exact Nat.mod_lt _ (by omega)
    have hstep : (fire env m t).head_timeout = H ∧
        (fire env m t).head_count = (c + (if t.committed m then 1 else 0)) % H := by
      refine ⟨by rw [f1, h1], ?_⟩
      cases hc : t.committed m
      · rw [(f3 hc).1, h2]
        simp
      · rw [(f2 hc).1, h1]
        have hmod : (m.head_count + 1) % 2 ^ 32 = m.head_count + 1 :=
          Nat.mod_eq_of_lt (by omega)
        rw [hmod]
        simp only [if_true]
        have hsucc : (c + 1) % H = (m.head_count + 1) % H := by
          rw [h2, Nat.mod_add_mod]
        rw [hsucc]
        by_cases hw : m.head_count + 1 = H
        · rw [if_pos hw, hw, Nat.mod_self]
        · rw [if_neg hw, Nat.mod_eq_of_lt (by omega)]
    have := ih (fire env m t) _ hstep
    simpa [run, committedCycles, Nat.add_assoc] using this

theorem load_sats_head (env : Env) (module : GtkSatModule) :
    (gtk_sat_module_load_sats env module).1.head_count = module.head_count ∧
    (gtk_sat_module_load_sats env module).1.head_timeout = module.head_timeout := by
  unfold gtk_sat_module_load_sats
  split <;> simp

theorem reload_sats_head (env : Env) (module : GtkSatModule) (r : GtkSatModule × List Effect)
    (h : gtk_sat_module_reload_sats env module = some r) :
    r.1.head_count = module.head_count ∧ r.1.head_timeout = module.head_timeout := by
  unfold gtk_sat_module_reload_sats at h
  split at h
  · simp at h
  · simp only [Option.some.injEq] at h
    subst h
    simp [load_sats_head]

theorem step_counters (env : Env) (H N : Nat) (hH : 1 ≤ H) (hH32 : H < 2 ^ 32) (hN : 1 ≤ N)
    (hN32 : N < 2 ^ 32) (m : GtkSatModule) (op : Op)
    (h : m.head_timeout = H ∧ m.event_timeout = N ∧ m.head_count < H ∧ m.event_count ≤ N) :
    (step env m op).head_timeout = H ∧ (step env m op).event_timeout = N ∧
      (step env m op).head_count < H ∧ (step env m op).event_count ≤ N := by
  obtain ⟨h1, h2, h3, h4⟩ := h
  cases op with
  | tick t =>
    simp only [step]
    obtain ⟨f1, f2, f3⟩ := fire_head env m t
    cases hc : t.committed m
    · rw [fire_not_committed env m t hc]
      exact ⟨h1, h2, h3, h4⟩
    · obtain ⟨hn, hb⟩ := fire_committed _ t hc
      obtain ⟨-, -, -, -, hec, het, -, -, -⟩ := timeout_cb_commit env t.io _ hn hb
      have e1 : ({ m with busy := t.held } : GtkSatModule).event_count = m.event_count := rfl
      have e2 : ({ m with busy := t.held } : GtkSatModule).event_timeout = m.event_timeout := rfl
      rw [e1, e2] at hec
      rw [e2] at het
      refine ⟨by rw [f1, h1], ?_, ?_, ?_⟩
      · unfold fire; rw [het, h2]
      · rw [(f2 hc).1, h1]
        have hmod : (m.head_count + 1) % 2 ^ 32 = m.head_count + 1 :=
          Nat.mod_eq_of_lt (by omega)
        rw [hmod]
        split <;> omega
      · unfold fire
        rw [hec, h2]
        by_cases hw : m.event_count = N
        · rw [if_pos hw]
          have hmod : (0 + 1) % 2 ^ 32 = 1 := by norm_num
          rw [hmod]; exact hN
        · rw [if_neg hw, Nat.mod_eq_of_lt (by omega)]
          omega
  | reload =>
    obtain ⟨r, hr, -, -, -, -, hec, het⟩ :=
      reload_sats_free env { m with busy := false } rfl
    obtain ⟨g1, g2⟩ := reload_sats_head env _ r hr
    simp only [step, hr]
    refine ⟨?_, ?_, ?_, ?_⟩
    · rw [g2]; exact h1
    · rw [het]; exact h2
    · rw [g1]; exact h3
    · rw [hec]; omega

theorem runOps_counters (env : Env) (H N : Nat) (hH : 1 ≤ H) (hH32 : H < 2 ^ 32) (hN : 1 ≤ N)
    (hN32 : N < 2 ^ 32) :
    ∀ (ops : List Op) (m : GtkSatModule),
      (m.head_timeout = H ∧ m.event_timeout = N ∧ m.head_count < H ∧ m.event_count ≤ N) →
      ((runOps env m ops).head_timeout = H ∧ (runOps env m ops).event_timeout = N ∧
        (runOps env m ops).head_count < H ∧ (runOps env m ops).event_count ≤ N) := by
  intro ops
  induction ops with
  | nil => intro m h; exact h
  | cons op ops ih =>
    intro m h
    exact ih _ (step_counters env H N hH hH32 hN hN32 m op h)

theorem digitChar_value (d : Nat) (hd : d < 10) :
    Nat.digitChar d ≠ ':' ∧ (Nat.digitChar d).toNat - 48 = d := by
  interval_cases d <;> exact ⟨by decide, by decide⟩

theorem parse_time_step_digit (v cur d : Nat) (hd : d < 10) :
    parse_time_step (v, cur) (Nat.digitChar d) = (v, 10 * cur + d) := by
  unfold parse_time_step
  rw [if_neg (digitChar_value d hd).1, (digitChar_value d hd).2]

theorem parse_fold_toDigitsCore (v : Nat) :
    ∀ (fuel n : Nat) (ds : List Char), n < fuel →
      (Nat.toDigitsCore 10 fuel n ds).foldl parse_time_step (v, 0) =
        ds.foldl parse_time_step (v, n) := by
  intro fuel
  induction fuel with
  | zero => intro n ds h; omega
  | succ fuel ih =>
    intro n ds h
    unfold Nat.toDigitsCore
    simp only []
    by_cases h0 : n / 10 = 0
    · rw [if_pos h0, List.foldl_cons, parse_time_step_digit v 0 _ (Nat.mod_lt _ (by omega))]
      have : 10 * 0 + n % 10 = n := by omega
      rw [this]
    · rw [if_neg h0, ih (n / 10) _ (by omega), List.foldl_cons,
        parse_time_step_digit v (n / 10) _ (Nat.mod_lt _ (by omega))]
      have : 10 * (n / 10) + n % 10 = n := by omega
      rw [this]

theorem toString_data (n : Nat) : (toString n).data = Nat.toDigits 10 n := rfl

theorem parse_fold_toString (v n : Nat) (rest : List Char) :
    ((toString n).data ++ rest).foldl parse_time_step (v, 0) =
      rest.foldl parse_time_step (v, n) := by
  rw [List.foldl_append, toString_data]
  unfold Nat.toDigits
  rw [parse_fold_toDigitsCore v (n + 1) n [] (by omega)]
  rfl

theorem parse_fold_pad2 (v n : Nat) (rest : List Char) :
    ((pad2 n).data ++ rest).foldl parse_time_step (v, 0) =
      rest.foldl parse_time_step (v, n) := by
  unfold pad2
  split
  · have h0 : ("0" ++ toString n).data = '0' :: (toString n).data := rfl
    rw [h0, List.cons_append, List.foldl_cons]
    have hz : parse_time_step (v, 0) '0' = (v, 0) := by
      unfold parse_time_step
      rw [if_neg (by decide)]
      rfl
    rw [hz]
    exact parse_fold_toString v n rest
  · exact parse_fold_toString v n rest

theorem parse_fold_colon (v cur : Nat) (rest : List Char) :
    (':' :: rest).foldl parse_time_step (v, cur) =
      rest.foldl parse_time_step (60 * v + cur, 0) := by
  rw [List.foldl_cons]
  rfl

theorem parse_time_two (m s : Nat) : parse_time (pad2 m ++ ":" ++ pad2 s) = 60 * m + s := by
  have hd : (pad2 m ++ ":" ++ pad2 s).data = (pad2 m).data ++ (':' :: ((pad2 s).data ++ [])) := by
    simp [String.data_append]
  unfold parse_time
  rw [hd, parse_fold_pad2, parse_fold_colon, parse_fold_pad2]
  simp

theorem parse_time_three (h m s : Nat) :
    parse_time (pad2 h ++ ":" ++ pad2 m ++ ":" ++ pad2 s) = 3600 * h + 60 * m + s := by
  have hd : (pad2 h ++ ":" ++ pad2 m ++ ":" ++ pad2 s).data =
      (pad2 h).data ++ (':' :: ((pad2 m).data ++ (':' :: ((pad2 s).data ++ [])))) := by
    simp [String.data_append]
  unfold parse_time
  rw [hd, parse_fold_pad2, parse_fold_colon, parse_fold_pad2, parse_fold_colon, parse_fold_pad2]
  simp
  omega

theorem toDigitsCore_length_ge (fuel : Nat) :
    ∀ (n : Nat) (ds : List Char), ds.length ≤ (Nat.toDigitsCore 10 fuel n ds).length := by
  induction fuel with
  | zero => intro n ds; simp [Nat.toDigitsCore]
  | succ fuel ih =>
    intro n ds
    unfold Nat.toDigitsCore
    simp only []
    split
    · simp
    · have := ih (n / 10) (Nat.digitChar (n % 10) :: ds)
      simp only [List.length_cons] at this
      omega

theorem toString_length (n : Nat) :
    1 ≤ (toString n).length ∧ (10 ≤ n → 2 ≤ (toString n).length) := by
  have hlen : (toString n).length = (Nat.toDigits 10 n).length := rfl
  rw [hlen]
  unfold Nat.toDigits Nat.toDigitsCore
  simp only []
  constructor
  · split
    · simp
    · have := toDigitsCore_length_ge n (n / 10) [Nat.digitChar (n % 10)]
      simp only [List.length_cons, List.length_nil] at this
      omega
  · intro h10
    rw [if_neg (by omega)]
    have hn : n = (n - 1) + 1 := by omega
    rw [hn]
    unfold Nat.toDigitsCore
    simp only []
    split
    · simp
    · have := toDigitsCore_length_ge (n - 1) ((n - 1 + 1) / 10 / 10)
        [Nat.digitChar ((n - 1 + 1) / 10 % 10), Nat.digitChar ((n - 1 + 1) % 10)]
      simp only [List.length_cons, List.length_nil] at this
      omega

theorem pad2_length (n : Nat) : 2 ≤ (pad2 n).length := by
  unfold pad2
  split
  · have h0 : ("0" ++ toString n).length = 1 + (toString n).length := by
      rw [String.length_append]; rfl
    rw [h0]
    have := (toString_length n).1
    omega
  · exact (toString_length n).2 (by omega)

/-- The text of a non-negative countdown of fewer than `2 ^ 32` seconds:
minutes and seconds, preceded by the hours when there are any, every field with
at least two digits. -/
theorem time_cell_text (number : ℚ) (h0 : 0 ≤ number) (hS : countdown_seconds number < 2 ^ 32) :
    time_cell_data_function number =
      some (if countdown_seconds number / 3600 = 0 then
          pad2 (countdown_seconds number % 3600 / 60) ++ ":" ++ pad2 (countdown_seconds number % 60)
        else
          pad2 (countdown_seconds number / 3600) ++ ":" ++
            pad2 (countdown_seconds number % 3600 / 60) ++ ":" ++
            pad2 (countdown_seconds number % 60)) := by
  unfold time_cell_data_function
  rw [if_neg (not_lt.mpr h0)]
  simp only []
  have hS' : ⌊number * 86400⌋.toNat < 2 ^ 32 := hS
  rw [if_pos hS']
  have e0 : ⌊number * 86400⌋.toNat = countdown_seconds number := rfl
  rw [e0]
  generalize countdown_seconds number = S
  have e1 : S - 3600 * (S / 3600) = S % 3600 := by omega
  have e2 : S % 3600 - 60 * (S % 3600 / 60) = S % 60 := by omega
  rw [e1, e2]
  by_cases hh : S / 3600 = 0
  · rw [if_neg (by omega), if_pos hh]
    congr 1
    apply String.ext
    unfold pad2
    simp only [String.data_append]
    split <;> split <;> simp
  · rw [if_pos (by omega), if_neg hh]
    congr 1
    apply String.ext
    unfold pad2
    simp only [String.data_append]
    by_cases h10 : S / 3600 < 10
    · have hc : S / 3600 > 0 ∧ S / 3600 < 10 := ⟨by omega, h10⟩
      rw [if_pos hc, if_pos h10]
      split <;> split <;> simp
    · have hc : ¬ (S / 3600 > 0 ∧ S / 3600 < 10) := fun h => h10 h.2
      rw [if_neg hc, if_neg h10]
      split <;> split <;> simp

theorem digitChar_isDigit (d : Nat) (hd : d < 10) : (Nat.digitChar d).isDigit = true := by
  interval_cases d <;> decide

theorem toDigitsCore_digits (fuel : Nat) :
    ∀ (n : Nat) (ds : List Char), (∀ c ∈ ds, c.isDigit = true) →
      ∀ c ∈ Nat.toDigitsCore 10 fuel n ds, c.isDigit = true := by
  induction fuel with
  | zero => intro n ds h; simpa [Nat.toDigitsCore] using h
  | succ fuel ih =>
    intro n ds h
    have hcons : ∀ c ∈ Nat.digitChar (n % 10) :: ds, c.isDigit = true := by
      intro c hc
      rcases List.mem_cons.mp hc with rfl | hc
      · exact digitChar_isDigit _ (Nat.mod_lt _ (by omega))
      · exact h c hc
    unfold Nat.toDigitsCore
    simp only []
    split
    · exact hcons
    · exact ih _ _ hcons

theorem pad2_digits (n : Nat) : ∀ c ∈ (pad2 n).data, c.isDigit = true := by
  have hs : ∀ c ∈ (toString n).data, c.isDigit = true := by
    rw [toString_data]
    exact toDigitsCore_digits _ _ _ (by simp)
  unfold pad2
  split
  · intro c hc
    have h0 : ("0" ++ toString n).data = '0' :: (toString n).data := rfl
    rw [h0] at hc
    rcases List.mem_cons.mp hc with rfl | hc
    · decide
    · exact hs c hc
  · exact hs

theorem countdown_seconds_cast (number : ℚ) (h0 : 0 ≤ number) :
    (countdown_seconds number : Int) = ⌊number * 86400⌋ := by
  unfold countdown_seconds
  exact Int.toNat_of_nonneg (Int.floor_nonneg.mpr (by positivity))

theorem countdown_seconds_lt (number : ℚ) (h0 : 0 ≤ number) (hS : ⌊number * 86400⌋ < 2 ^ 32) :
    countdown_seconds number < 2 ^ 32 := by
  have := countdown_seconds_cast number h0
  omega

theorem time_cell_parse (number : ℚ) (h0 : 0 ≤ number) (hS : countdown_seconds number < 2 ^ 32) :
    ∃ text, time_cell_data_function number = some text ∧
      parse_time text = countdown_seconds number := by
  refine ⟨_, time_cell_text number h0 hS, ?_⟩
  generalize countdown_seconds number = S
  split
  · rw [parse_time_two]; omega
  · rw [parse_time_three]; omega

/-! ## Lemmas on the layout grid -/

theorem grid_view_eq (grid : List Int) (i : Nat) (kind left right top bottom : Int) :
    grid_view grid i = some (kind, left, right, top, bottom) ↔
      grid.get? (5 * i) = some kind ∧ grid.get? (5 * i + 1) = some left ∧
      grid.get? (5 * i + 2) = some right ∧ grid.get? (5 * i + 3) = some top ∧
      grid.get? (5 * i + 4) = some bottom := by
  unfold grid_view
  constructor
  · intro h
    split at h
    · rename_i h0 h1 h2 h3 h4
      simp only [Option.some.injEq, Prod.mk.injEq] at h
      obtain ⟨rfl, rfl, rfl, rfl, rfl⟩ := h
      exact ⟨h0, h1, h2, h3, h4⟩
    · exact absurd h (by simp)
  · rintro ⟨h0, h1, h2, h3, h4⟩
    rw [h0, h1, h2, h3, h4]

theorem grid_view_in_bounds (grid : List Int) (i : Nat) (hi : 5 * i + 4 < grid.length) :
    ∃ v, grid_view grid i = some v := by
  obtain ⟨k, hk⟩ : ∃ k, grid.get? (5 * i) = some k :=
    ⟨_, List.get?_eq_get (by omega)⟩
  obtain ⟨l, hl⟩ : ∃ l, grid.get? (5 * i + 1) = some l :=
    ⟨_, List.get?_eq_get (by omega)⟩
  obtain ⟨r, hr⟩ : ∃ r, grid.get? (5 * i + 2) = some r :=
    ⟨_, List.get?_eq_get (by omega)⟩
  obtain ⟨t, ht⟩ : ∃ t, grid.get? (5 * i + 3) = some t :=
    ⟨_, List.get?_eq_get (by omega)⟩
  obtain ⟨b, hb⟩ : ∃ b, grid.get? (5 * i + 4) = some b :=
    ⟨_, List.get?_eq_get hi⟩
  exact ⟨(k, l, r, t, b), (grid_view_eq grid i k l r t b).mpr ⟨hk, hl, hr, ht, hb⟩⟩

theorem get_grid_size_loop_spec (grid : List Int) :
    ∀ (n i xmax ymax : Nat), 5 * (i + n) ≤ grid.length →
      ∃ size, get_grid_size_loop grid i n xmax ymax = some size ∧
        xmax ≤ size.cols ∧ ymax ≤ size.rows ∧
        (∀ j r b, i ≤ j → j < i + n → grid.get? (5 * j + 2) = some r →
          grid.get? (5 * j + 4) = some b →
          guint_of_gint r ≤ size.cols ∧ guint_of_gint b ≤ size.rows) ∧
        (size.cols = xmax ∨ ∃ j r, i ≤ j ∧ j < i + n ∧ grid.get? (5 * j + 2) = some r ∧
          guint_of_gint r = size.cols) ∧
        (size.rows = ymax ∨ ∃ j b, i ≤ j ∧ j < i + n ∧ grid.get? (5 * j + 4) = some b ∧
          guint_of_gint b = size.rows) := by
  intro n
  induction n with
  | zero =>
    intro i xmax ymax _
    refine ⟨_, rfl, le_refl _, le_refl _, ?_, Or.inl rfl, Or.inl rfl⟩
    intro j r b h1 h2
    omega
  | succ n ih =>
    intro i xmax ymax hlen
    obtain ⟨r0, hr0⟩ : ∃ r, grid.get? (5 * i + 2) = some r :=
      ⟨_, List.get?_eq_get (by omega)⟩
    obtain ⟨b0, hb0⟩ : ∃ b, grid.get? (5 * i + 4) = some b :=
      ⟨_, List.get?_eq_get (by omega)⟩
    obtain ⟨size, hs, hx, hy, hall, hcol, hrow⟩ :=
      ih (i + 1) (max xmax (guint_of_gint r0)) (max ymax (guint_of_gint b0)) (by omega)
    refine ⟨size, ?_, le_trans (le_max_left _ _) hx, le_trans (le_max_left _ _) hy, ?_, ?_, ?_⟩
    · unfold get_grid_size_loop
      rw [hr0, hb0]
      exact hs
    · intro j r b h1 h2 hr hb
      by_cases hj : j = i
      · subst hj
        rw [hr0] at hr
        rw [hb0] at hb
        cases hr
        cases hb
        exact ⟨le_trans (le_max_right _ _) hx, le_trans (le_max_right _ _) hy⟩
      · exact hall j r b (by omega) (by omega) hr hb
    · rcases hcol with hcol | ⟨j, r, h1, h2, h3, h4⟩
      · rcases le_total xmax (guint_of_gint r0) with hle | hle
        · right
          exact ⟨i, r0, le_refl _, by omega, hr0, by rw [hcol, max_eq_right hle]⟩
        · left
          rw [hcol, max_eq_left hle]
      · right
        exact ⟨j, r, by omega, by omega, h3, h4⟩
    · rcases hrow with hrow | ⟨j, b, h1, h2, h3, h4⟩
      · rcases le_total ymax (guint_of_gint b0) with hle | hle
        · right
          exact ⟨i, b0, le_refl _, by omega, hb0, by rw [hrow, max_eq_right hle]⟩
        · left
          rw [hrow, max_eq_left hle]
      · right
        exact ⟨j, b, by omega, by omega, h3, h4⟩

theorem guint_of_gint_nonneg (g : Int) (h0 : 0 ≤ g) (h1 : g < 2 ^ 31) :
    (guint_of_gint g : Int) = g := by
  unfold guint_of_gint
  rw [Int.emod_eq_of_lt h0 (by omega)]
  exact Int.toNat_of_nonneg h0

theorem read_cfg_data_grid_nviews (genv : GridEnv) (buffer : String) :
    (gtk_sat_module_read_cfg_data_grid genv buffer).1.nviews =
      (gtk_sat_module_read_cfg_data_grid genv buffer).1.grid.length / 5 := by
  unfold gtk_sat_module_read_cfg_data_grid
  simp only [List.length_map]

/-! ## The claims -/

/-- Claim C1. A committed tick of `gtk_sat_module_timeout_cb` (module to be
updated, lock free) with throttle `k > 0` leaves the simulated time at exactly
`tmgPdnum + k * (rtNow - rtPrev)`, where `tmgPdnum` and `rtPrev` are the values
before the tick and `rtNow` is the real time sampled by the tick. -/
theorem C1_committed_tick_advances_simulated_time (env : Env) (io : TickEnv)
    (mod : GtkSatModule) (k : Int) (hk : 0 < k) (hthrottle : mod.throttle = k)
    (hn : needupdate mod io = true) (hb : mod.busy = false) :
    (gtk_sat_module_timeout_cb env io mod).module.tmgCdnum =
      mod.tmgPdnum + (k : ℚ) * (io.now - mod.rtPrev) := by
  have h := (timeout_cb_commit env io mod hn hb).1
  have hk0 : mod.throttle ≠ 0 := by omega
  rw [h, if_pos hk0, hthrottle]

/-- Witness of C1: throttle 1, `rtPrev = 100.000000`, `rtNow = 100.001389`
give `tmgCdnum = tmgPdnum + 0.001389`. -/
theorem C1_committed_tick_advances_simulated_time_witness :
    (gtk_sat_module_timeout_cb exampleEnv exampleIo exampleModule).module.tmgCdnum =
      exampleModule.tmgPdnum + 1389 / 1000000 := by
  have h := C1_committed_tick_advances_simulated_time exampleEnv exampleIo exampleModule 1
    (by decide) rfl rfl rfl
  rw [h]
  norm_num [exampleModule, exampleIo]

/-- Claim C2. A tick of `gtk_sat_module_timeout_cb` that fires while the cycle
lock is held (module to be updated) leaves the whole module unchanged, lock
included, emits exactly one effect, the warning of the missed deadline, and
returns TRUE. -/
theorem C2_tick_with_lock_held_changes_nothing (env : Env) (io : TickEnv)
    (mod : GtkSatModule) (hn : needupdate mod io = true) (hb : mod.busy = true) :
    (gtk_sat_module_timeout_cb env io mod).module = mod ∧
    (gtk_sat_module_timeout_cb env io mod).trace =
      [Effect.log sat_log_level_t.SAT_LOG_LEVEL_WARN
        "gtk_sat_module_timeout_cb: Previous cycle missed it\x27s deadline."] ∧
    (gtk_sat_module_timeout_cb env io mod).ret = true := by
  unfold gtk_sat_module_timeout_cb
  simp [hn, hb, deadline_warning]

/-- Witness of C2: the example module with the lock held. -/
theorem C2_tick_with_lock_held_changes_nothing_witness :
    (gtk_sat_module_timeout_cb exampleEnv exampleIo exampleBusy).module = exampleBusy ∧
    (gtk_sat_module_timeout_cb exampleEnv exampleIo exampleBusy).trace =
      [Effect.log sat_log_level_t.SAT_LOG_LEVEL_WARN
        "gtk_sat_module_timeout_cb: Previous cycle missed it\x27s deadline."] ∧
    (gtk_sat_module_timeout_cb exampleEnv exampleIo exampleBusy).ret = true :=
  C2_tick_with_lock_held_changes_nothing exampleEnv exampleIo exampleBusy rfl rfl

/-- Claim C3. Start from a module whose event counter stands at the event
period `N`, `1 ≤ N < 2 ^ 32`, as construction leaves it, and let any sequence
`pre` of timer ticks (committed, skipped or not due) be followed by a committed
tick `t`; `t` is the committed cycle number `committedCycles pre + 1`. The
event counter that the registry traversals of `t` see is 0 exactly when
`committedCycles pre` is a multiple of `N`, that is in the committed cycles
1, N + 1, 2 N + 1, ... . In such a cycle `find_aos` is called for every
satellite of the registry that is neither geostationary nor decayed and has an
AOS; in every other committed cycle no AOS/LOS search is made at all and the
`aos` and `los` of every registry entry stay as they are. -/
theorem C3_event_cadence (env : Env) (m0 : GtkSatModule) (N : Nat) (hN : 1 ≤ N)
    (hN32 : N < 2 ^ 32) (hperiod : m0.event_timeout = N) (hfresh : m0.event_count = N)
    (pre : List Tick) (t : Tick) (ht : t.committed (run env m0 pre) = true) :
    ((cycle_events (run env m0 pre)).event_count = 0 ↔ committedCycles env m0 pre % N = 0) ∧
    (committedCycles env m0 pre % N = 0 →
      ∀ kv ∈ (run env m0 pre).satellites,
        kv.2.otype ≠ orbit_type_t.ORBIT_TYPE_GEO →
        kv.2.otype ≠ orbit_type_t.ORBIT_TYPE_DECAYED →
        env.has_aos kv.2 (run env m0 pre).qth = true →
        Effect.find_aos kv.2.catnr (fire env (run env m0 pre) t).tmgCdnum env.pred_look_ahead ∈
          (gtk_sat_module_timeout_cb env t.io { run env m0 pre with busy := t.held }).trace) ∧
    (committedCycles env m0 pre % N ≠ 0 →
      (∀ e ∈ (gtk_sat_module_timeout_cb env t.io { run env m0 pre with busy := t.held }).trace,
        e.isEventSearch = false) ∧
      (fire env (run env m0 pre) t).satellites.map (fun e => (e.1, e.2.aos, e.2.los)) =
        (run env m0 pre).satellites.map (fun e => (e.1, e.2.aos, e.2.los))) := by
  have hinv := run_event_counter env N hN hN32 pre m0 0
    ⟨hperiod, by omega, by omega, by rw [hfresh, Nat.mod_self, Nat.zero_mod]⟩
  obtain ⟨i1, i2, i3, i4⟩ := hinv
  rw [Nat.zero_add] at i4
  have key : (run env m0 pre).event_count = (run env m0 pre).event_timeout ↔
      committedCycles env m0 pre % N = 0 := by
    rw [i1, ← i4]
    constructor
    · intro h; rw [h, Nat.mod_self]
    · intro h
      have hdvd : N ∣ (run env m0 pre).event_count := Nat.dvd_of_mod_eq_zero h
      exact Nat.le_antisymm i3 (Nat.le_of_dvd (by omega) hdvd)
  obtain ⟨hn, hb⟩ := fire_committed _ t ht
  obtain ⟨ma, mb, A, B, C, hma, hmb, hta, htb, hqa, hqb, hsat, htr, hA, hB, hC⟩ :=
    timeout_cb_commit_satellites env t.io _ hn hb
  have e1 : ({ run env m0 pre with busy := t.held } : GtkSatModule).event_count =
      (run env m0 pre).event_count := rfl
  have e2 : ({ run env m0 pre with busy := t.held } : GtkSatModule).event_timeout =
      (run env m0 pre).event_timeout := rfl
  have e3 : ({ run env m0 pre with busy := t.held } : GtkSatModule).satellites =
      (run env m0 pre).satellites := rfl
  have e4 : ({ run env m0 pre with busy := t.held } : GtkSatModule).qth =
      (run env m0 pre).qth := rfl
  rw [e1, e2] at hma hmb
  rw [e3] at hsat htr
  rw [e4] at hqa
  refine ⟨?_, ?_, ?_⟩
  · rw [(cycle_events_fields _).2.2.2.2.1, ← key]
    constructor
    · intro h
      by_contra hne
      rw [if_neg hne] at h
      omega
    · intro h; rw [if_pos h]
  · intro hc kv hkv hgeo hdec haos
    have hev : ma.event_count = 0 := by rw [hma, if_pos (key.mpr hc)]
    rw [htr]
    have hmem := (update_sat_on_trace env ma kv.1 kv.2 hev hgeo hdec (by rw [hqa]; exact haos)).1
    rw [hta] at hmem
    have : Effect.find_aos kv.2.catnr
        (gtk_sat_module_timeout_cb env t.io { run env m0 pre with busy := t.held }).module.tmgCdnum
        env.pred_look_ahead ∈
        (g_hash_table_foreach (run env m0 pre).satellites (gtk_sat_module_update_sat env ma)).2 :=
      (foreach_trace_mem _ _ _).mpr ⟨kv, hkv, hmem⟩
    simp only [List.mem_append]
    exact Or.inl (Or.inl (Or.inl (Or.inr this)))
  · intro hc
    have hne : ¬ (run env m0 pre).event_count = (run env m0 pre).event_timeout :=
      fun h => hc (key.mp h)
    have hea : ma.event_count ≠ 0 := by rw [hma, if_neg hne]; omega
    have heb : mb.event_count ≠ 0 := by rw [hmb, if_neg hne]; omega
    constructor
    · intro e he
      rw [htr] at he
      simp only [List.mem_append] at he
      rcases he with (((he | he) | he) | he) | he
      · exact hA e he
      · obtain ⟨kv, _, hk⟩ := (foreach_trace_mem _ _ _).mp he
        exact (update_sat_off_trace env ma kv.1 kv.2 hea).2.2 e hk
      · exact hB e he
      · obtain ⟨kv, _, hk⟩ := (foreach_trace_mem _ _ _).mp he
        exact (update_sat_off_trace env mb kv.1 kv.2 heb).2.2 e hk
      · exact hC e he
    · unfold fire
      rw [hsat]
      rw [foreach_keeps_events _ _ (fun k v =>
        ⟨(update_sat_off_trace env mb k v heb).1, (update_sat_off_trace env mb k v heb).2.1⟩)]
      rw [foreach_keeps_events _ _ (fun k v =>
        ⟨(update_sat_off_trace env ma k v hea).1, (update_sat_off_trace env ma k v hea).2.1⟩)]

/-- Witness of C3: the module constructed with a timer period of 3000 ms has
the event period 20; after 20 committed cycles the event counter seen by the
21st committed cycle is 0 again. -/
theorem C3_event_cadence_witness :
    exampleFresh.event_timeout = 20 ∧
    (cycle_events (run exampleEnv exampleFresh (List.replicate 20 exampleTick))).event_count =
      0 :=
  ⟨rfl,
    (C3_event_cadence exampleEnv exampleFresh 20 (by decide) (by decide) rfl rfl
      (List.replicate 20 exampleTick) exampleTick rfl).1.mpr (by decide)⟩

/-- Claim C4. For every key list and every outcome of `gtk_sat_data_read_sat`,
`gtk_sat_module_load_sats` on an empty registry yields a registry whose keys
are, up to order, the distinct hash keys of the list elements whose read
succeeds: no key occurs twice, a key is present exactly when some list element
with that key can be read, every entry holds the initialised satellite read
for one such element, and for list elements in the range of a `gint` the number
of entries is the number of distinct readable list elements. -/
theorem C4_load_one_entry_per_readable_key (env : Env) (module : GtkSatModule)
    (sats : List Int) (hcfg : module.cfgdata.sats = Except.ok sats)
    (hempty : module.satellites = []) :
    ((gtk_sat_module_load_sats env module).1.satellites.map Prod.fst).Perm
      (((sats.filter (fun c => (env.gtk_sat_data_read_sat c).isSome)).map
        guint_of_gint).dedup) ∧
    ((gtk_sat_module_load_sats env module).1.satellites.map Prod.fst).Nodup ∧
    (∀ k, (g_hash_table_lookup (gtk_sat_module_load_sats env module).1.satellites k).isSome ↔
      ∃ c ∈ sats, guint_of_gint c = k ∧ (env.gtk_sat_data_read_sat c).isSome) ∧
    (∀ kv ∈ (gtk_sat_module_load_sats env module).1.satellites,
      ∃ c ∈ sats, guint_of_gint c = kv.1 ∧
        ∃ s, env.gtk_sat_data_read_sat c = some s ∧
          kv.2 = env.gtk_sat_data_init_sat s module.qth) ∧
    ((∀ c ∈ sats, -2 ^ 31 ≤ c ∧ c < 2 ^ 31) →
      (gtk_sat_module_load_sats env module).1.satellites.length =
        (sats.filter (fun c => (env.gtk_sat_data_read_sat c).isSome)).dedup.length) := by
  obtain ⟨hsat, -⟩ := load_sats_ok env module sats hcfg
  obtain ⟨a1, -, a3, a4, -⟩ := load_sats_loop_spec env module.qth sats module.satellites 0
    (by rw [hempty]; simp)
  rw [hsat]
  have hmem : ∀ k, k ∈ (load_sats_loop env module.qth sats module.satellites 0).1.map Prod.fst ↔
      ∃ c ∈ sats, guint_of_gint c = k ∧ (env.gtk_sat_data_read_sat c).isSome := by
    intro k
    rw [a3 k, hempty]
    simp
  have hperm : ((load_sats_loop env module.qth sats module.satellites 0).1.map Prod.fst).Perm
      (((sats.filter (fun c => (env.gtk_sat_data_read_sat c).isSome)).map
        guint_of_gint).dedup) := by
    rw [List.perm_ext_iff_of_nodup a1 (List.nodup_dedup _)]
    intro k
    rw [hmem k, List.mem_dedup, List.mem_map]
    constructor
    · rintro ⟨c, hc, h1, h2⟩
      exact ⟨c, List.mem_filter.mpr ⟨hc, h2⟩, h1⟩
    · rintro ⟨c, hc, h1⟩
      obtain ⟨hc1, hc2⟩ := List.mem_filter.mp hc
      exact ⟨c, hc1, h1, hc2⟩
  refine ⟨hperm, a1, ?_, ?_, ?_⟩
  · intro k
    rw [lookup_isSome_iff, hmem k]
  · intro kv hkv
    rcases a4 kv hkv with h | h
    · rw [hempty] at h; simp at h
    · exact h
  · intro hrange
    have hlen := hperm.length_eq
    rw [List.length_map] at hlen
    rw [hlen]
    apply dedup_length_map_guint
    intro c hc
    exact hrange c (List.mem_filter.mp hc).1

/-- Witness of C4: the key list `[25544, 25544, 33591]` with every read
succeeding yields the two entries 25544 and 33591. -/
theorem C4_load_one_entry_per_readable_key_witness :
    ((gtk_sat_module_load_sats exampleEnv exampleEmpty).1.satellites.map Prod.fst).Perm
      [25544, 33591] := by
  have h := (C4_load_one_entry_per_readable_key exampleEnv exampleEmpty [25544, 25544, 33591]
    rfl rfl).1
  have e : ((([25544, 25544, 33591] : List Int).filter
      (fun c => (exampleEnv.gtk_sat_data_read_sat c).isSome)).map guint_of_gint).dedup =
      [25544, 33591] := by decide
  rw [e] at h
  exact h

/-- Claim C5. Whatever the module state (event counter, simulated time) and
whatever `has_aos` returns, `gtk_sat_module_update_sat` leaves `aos` and `los`
of a geostationary or decayed satellite unchanged and makes no AOS/LOS search
for it; hence after every sequence of timer ticks the geostationary and decayed
entries of the registry carry the `aos` and `los` they had before. -/
theorem C5_geo_and_decayed_keep_aos_los (env : Env) :
    (∀ (module : GtkSatModule) (key : Nat) (val : sat_t),
      (val.otype = orbit_type_t.ORBIT_TYPE_GEO ∨
        val.otype = orbit_type_t.ORBIT_TYPE_DECAYED) →
      (gtk_sat_module_update_sat env module key val).1.aos = val.aos ∧
      (gtk_sat_module_update_sat env module key val).1.los = val.los ∧
      (∀ e ∈ (gtk_sat_module_update_sat env module key val).2, e.isEventSearch = false)) ∧
    (∀ (m : GtkSatModule) (ts : List Tick),
      ((run env m ts).satellites.filter (fun e => decide
          (e.2.otype = orbit_type_t.ORBIT_TYPE_GEO ∨
            e.2.otype = orbit_type_t.ORBIT_TYPE_DECAYED))).map
          (fun e => (e.1, e.2.otype, e.2.aos, e.2.los)) =
        (m.satellites.filter (fun e => decide
          (e.2.otype = orbit_type_t.ORBIT_TYPE_GEO ∨
            e.2.otype = orbit_type_t.ORBIT_TYPE_DECAYED))).map
          (fun e => (e.1, e.2.otype, e.2.aos, e.2.los))) := by
  constructor
  · intro module key val h
    have hoff : (module.event_count == 0 && val.otype != orbit_type_t.ORBIT_TYPE_GEO &&
        val.otype != orbit_type_t.ORBIT_TYPE_DECAYED && env.has_aos val module.qth) = false := by
      rcases h with h | h <;> simp [h]
    obtain ⟨h1, h2, h3⟩ := update_sat_keeps_events env module key val hoff
    refine ⟨h1, h2, ?_⟩
    rw [h3]
    split <;> simp [Effect.isEventSearch]
  · intro m ts
    induction ts generalizing m with
    | nil => rfl
    | cons t ts ih =>
      have hrun : run env m (t :: ts) = run env (fire env m t) ts := rfl
      rw [hrun, ih, fire_keeps_geo]

/-- Witness of C5: a geostationary satellite in a cycle whose event counter is
0 and for which `has_aos` holds keeps its `aos` and `los`. -/
theorem C5_geo_and_decayed_keep_aos_los_witness :
    (cycle_events exampleModule).event_count = 0 ∧
    exampleEnv.has_aos exampleGeo exampleModule.qth = true ∧
    (gtk_sat_module_update_sat exampleEnv (cycle_events exampleModule) 25544 exampleGeo).1.aos =
      exampleGeo.aos ∧
    (gtk_sat_module_update_sat exampleEnv (cycle_events exampleModule) 25544 exampleGeo).1.los =
      exampleGeo.los :=
  ⟨rfl, rfl,
    ((C5_geo_and_decayed_keep_aos_los exampleEnv).1 (cycle_events exampleModule) 25544
      exampleGeo (Or.inl rfl)).1,
    ((C5_geo_and_decayed_keep_aos_los exampleEnv).1 (cycle_events exampleModule) 25544
      exampleGeo (Or.inl rfl)).2.1⟩

/-- Claim C6. With a constant throttle `k > 0`, after any sequence `ts` of
timer ticks of which any are skipped, a committed tick `t` and further ticks
`post` that are all skipped, the simulated time is the initial `tmgPdnum` plus
`k` times the difference between the real time of `t` and the initial `rtPrev`.
In particular a committed tick `t` that follows a committed tick `c` and then
only skipped ticks advances the simulated time by `k` times the real time
elapsed since `c`. -/
theorem C6_simulated_time_over_skipped_ticks (env : Env) (k : Int) (hk : 0 < k) :
    (∀ (m0 : GtkSatModule) (ts : List Tick) (t : Tick) (post : List Tick),
      m0.throttle = k →
      t.committed (run env m0 ts) = true →
      committedCycles env (fire env (run env m0 ts) t) post = 0 →
      (run env (fire env (run env m0 ts) t) post).tmgCdnum =
        m0.tmgPdnum + (k : ℚ) * (t.io.now - m0.rtPrev)) ∧
    (∀ (m : GtkSatModule) (c : Tick) (skipped : List Tick) (t : Tick),
      m.throttle = k →
      c.committed m = true →
      committedCycles env (fire env m c) skipped = 0 →
      t.committed (run env (fire env m c) skipped) = true →
      (fire env (run env (fire env m c) skipped) t).tmgCdnum =
        (fire env m c).tmgCdnum + (k : ℚ) * (t.io.now - c.io.now)) := by
  have hk0 : k ≠ 0 := by omega
  have main : ∀ (m0 : GtkSatModule) (ts : List Tick) (t : Tick), m0.throttle = k →
      t.committed (run env m0 ts) = true →
      (fire env (run env m0 ts) t).tmgCdnum =
        m0.tmgPdnum + (k : ℚ) * (t.io.now - m0.rtPrev) := by
    intro m0 ts t hthr ht
    obtain ⟨i1, i2⟩ := run_clock_invariant env k hk0 ts m0 hthr
    obtain ⟨-, b2, -⟩ := fire_clock env (run env m0 ts) t
    rw [(b2 ht).1, if_pos (by rw [i1]; exact hk0), i1]
    linarith
  constructor
  · intro m0 ts t post hthr ht hpost
    rw [(run_without_commit env post _ hpost).1]
    exact main m0 ts t hthr ht
  · intro m c skipped t hthr hc hskip ht
    obtain ⟨b1, b2, -⟩ := fire_clock env m c
    obtain ⟨-, c2, c3⟩ := b2 hc
    have := main (fire env m c) skipped t (by rw [b1, hthr]) ht
    rw [this, c2, c3]

/-- Witness of C6: a committed tick at 100.001389, a skipped tick at 100.002
and a committed tick at 100.003, with throttle 1 and `rtPrev = tmgPdnum = 100`
at the start, leave the simulated time at 100.003. -/
theorem C6_simulated_time_over_skipped_ticks_witness :
    (run exampleEnv exampleModule [exampleTick, exampleSkipped, exampleLate]).tmgCdnum =
      100003 / 1000 := by
  have h := (C6_simulated_time_over_skipped_ticks exampleEnv 1 (by decide)).1 exampleModule
    [exampleTick, exampleSkipped] exampleLate [] rfl rfl rfl
  have e : run exampleEnv
      (fire exampleEnv (run exampleEnv exampleModule [exampleTick, exampleSkipped]) exampleLate)
      [] = run exampleEnv exampleModule [exampleTick, exampleSkipped, exampleLate] := rfl
  rw [e] at h
  rw [h]
  norm_num [exampleModule, exampleLate]

/-- Claim C7. With throttle 0 a committed tick of `gtk_sat_module_timeout_cb`
leaves the simulated time `tmgCdnum` unchanged, whatever the real times, and so
does every sequence of timer ticks: no tick moves the simulated time. -/
theorem C7_throttle_zero_keeps_simulated_time (env : Env) (mod : GtkSatModule)
    (h0 : mod.throttle = 0) :
    (∀ io : TickEnv, needupdate mod io = true → mod.busy = false →
      (gtk_sat_module_timeout_cb env io mod).module.tmgCdnum = mod.tmgCdnum) ∧
    (∀ ts : List Tick, (run env mod ts).tmgCdnum = mod.tmgCdnum) := by
  constructor
  · intro io hn hb
    rw [(timeout_cb_commit env io mod hn hb).1]
    simp [h0]
  · intro ts
    exact run_throttle_zero env ts mod h0

/-- Witness of C7: the example module in manual time mode keeps the simulated
time 100 over a committed tick at real time 100.001389. -/
theorem C7_throttle_zero_keeps_simulated_time_witness :
    (gtk_sat_module_timeout_cb exampleEnv exampleIo exampleFrozen).module.tmgCdnum = 100 := by
  have h := (C7_throttle_zero_keeps_simulated_time exampleEnv exampleFrozen rfl).1
    exampleIo rfl rfl
  rw [h]
  rfl

/-- Claim C8. For every key list of fewer than `2 ^ 32` elements loaded into
an empty registry, the last log entry of `gtk_sat_module_load_sats` is the
summary `Read succ out of length satellites` with `succ` the number of entries
of the registry and `length` the length of the list; there is one warning
`already in list` for every readable list element that did not become an entry
and one error for every list element that could not be read, so that entries,
duplicates and read failures add up to the length of the list. -/
theorem C8_load_summary_accounts_for_every_key (env : Env) (module : GtkSatModule)
    (sats : List Int) (hcfg : module.cfgdata.sats = Except.ok sats)
    (hempty : module.satellites = []) (hlen : sats.length < 2 ^ 32) :
    (gtk_sat_module_load_sats env module).2.getLast? =
      some (Effect.log sat_log_level_t.SAT_LOG_LEVEL_MSG
        ("gtk_sat_module_load_sats: Read " ++
          toString (gtk_sat_module_load_sats env module).1.satellites.length ++
          " out of " ++ toString sats.length ++ " satellites")) ∧
    (gtk_sat_module_load_sats env module).1.satellites.length +
        (gtk_sat_module_load_sats env module).2.countP
          (Effect.hasLevel sat_log_level_t.SAT_LOG_LEVEL_WARN) =
      sats.countP (fun c => (env.gtk_sat_data_read_sat c).isSome) ∧
    (gtk_sat_module_load_sats env module).2.countP
        (Effect.hasLevel sat_log_level_t.SAT_LOG_LEVEL_ERROR) =
      sats.countP (fun c => (env.gtk_sat_data_read_sat c).isNone) ∧
    (∀ e ∈ (gtk_sat_module_load_sats env module).2,
      e.hasLevel sat_log_level_t.SAT_LOG_LEVEL_WARN = true →
      ∃ c ∈ sats, e = Effect.log sat_log_level_t.SAT_LOG_LEVEL_WARN
        ("gtk_sat_module_load_sats: Sat #" ++ toString c ++ " already in list")) ∧
    (gtk_sat_module_load_sats env module).1.satellites.length +
        (gtk_sat_module_load_sats env module).2.countP
          (Effect.hasLevel sat_log_level_t.SAT_LOG_LEVEL_WARN) +
        (gtk_sat_module_load_sats env module).2.countP
          (Effect.hasLevel sat_log_level_t.SAT_LOG_LEVEL_ERROR) =
      sats.length := by
  obtain ⟨hsat, htr⟩ := load_sats_ok env module sats hcfg
  rw [hempty] at hsat htr
  obtain ⟨-, -, -, -, a5, a6, a7, a8⟩ :=
    load_sats_loop_spec env module.qth sats [] 0 (by simp)
  have hsucc := a8 (by omega)
  simp only [List.length_nil, Nat.zero_add, Nat.add_zero] at a5 hsucc
  rw [hsat, htr]
  have hw : (load_sats_summary (load_sats_loop env module.qth sats [] 0).2.1
      sats.length).hasLevel sat_log_level_t.SAT_LOG_LEVEL_WARN = false := rfl
  have he : (load_sats_summary (load_sats_loop env module.qth sats [] 0).2.1
      sats.length).hasLevel sat_log_level_t.SAT_LOG_LEVEL_ERROR = false := rfl
  have hcw : ((load_sats_loop env module.qth sats [] 0).2.2 ++
      [load_sats_summary (load_sats_loop env module.qth sats [] 0).2.1
        sats.length]).countP (Effect.hasLevel sat_log_level_t.SAT_LOG_LEVEL_WARN) =
      (load_sats_loop env module.qth sats [] 0).2.2.countP
        (Effect.hasLevel sat_log_level_t.SAT_LOG_LEVEL_WARN) := by
    rw [List.countP_append, List.countP_cons, hw]
    simp
  have hce : ((load_sats_loop env module.qth sats [] 0).2.2 ++
      [load_sats_summary (load_sats_loop env module.qth sats [] 0).2.1
        sats.length]).countP (Effect.hasLevel sat_log_level_t.SAT_LOG_LEVEL_ERROR) =
      (load_sats_loop env module.qth sats [] 0).2.2.countP
        (Effect.hasLevel sat_log_level_t.SAT_LOG_LEVEL_ERROR) := by
    rw [List.countP_append, List.countP_cons, he]
    simp
  rw [hcw, hce]
  have hsplit : sats.countP (fun c => (env.gtk_sat_data_read_sat c).isSome) +
      sats.countP (fun c => (env.gtk_sat_data_read_sat c).isNone) = sats.length := by
    have := List.length_eq_countP_add_countP
      (fun c => (env.gtk_sat_data_read_sat c).isSome) sats
    rw [this]
    congr 2
    funext c
    cases env.gtk_sat_data_read_sat c <;> rfl
  refine ⟨?_, a5, a6, ?_, ?_⟩
  · rw [List.getLast?_append, hsucc]
    simp [load_sats_summary]
  · intro e he1 hw1
    rcases List.mem_append.mp he1 with h | h
    · exact a7 e h hw1
    · simp only [List.mem_singleton] at h
      rw [h, hw] at hw1
      simp at hw1
  · omega

/-- Witness of C8: for `[25544, 25544, 33591]` with every read succeeding, two
entries are created, one duplicate is warned about and the summary reads
`Read 2 out of 3 satellites`. -/
theorem C8_load_summary_accounts_for_every_key_witness :
    (gtk_sat_module_load_sats exampleEnv exampleEmpty).1.satellites.length = 2 ∧
    (gtk_sat_module_load_sats exampleEnv exampleEmpty).2.countP
      (Effect.hasLevel sat_log_level_t.SAT_LOG_LEVEL_WARN) = 1 ∧
    (gtk_sat_module_load_sats exampleEnv exampleEmpty).2.getLast? =
      some (Effect.log sat_log_level_t.SAT_LOG_LEVEL_MSG
        "gtk_sat_module_load_sats: Read 2 out of 3 satellites") := by
  have h := C8_load_summary_accounts_for_every_key exampleEnv exampleEmpty
    [25544, 25544, 33591] rfl rfl (by decide)
  have hl : (gtk_sat_module_load_sats exampleEnv exampleEmpty).1.satellites.length = 2 := rfl
  obtain ⟨h1, h2, -⟩ := h
  rw [hl] at h1 h2
  refine ⟨hl, ?_, ?_⟩
  · have hc : ([25544, 25544, 33591] : List Int).countP
        (fun c => (exampleEnv.gtk_sat_data_read_sat c).isSome) = 3 := rfl
    rw [hc] at h2
    omega
  · rw [h1]
    rfl

/-- Claim C9. For a row whose satellite is found in the table,
`event_list_update_sats` stores the countdown `los - now` when `el > 0` and
`los > 0`, `aos - now` when `el ≤ 0` and `aos > 0`, and `-1` otherwise, where
`now` is the time stamp of the list. -/
theorem C9_countdown_value (satellites : SatTable) (tstamp : ℚ) (row : EventRow) (sat : sat_t)
    (h : g_hash_table_lookup satellites (guint_of_gint row.catnum) = some sat) :
    ∃ row1 : EventRow,
      (event_list_update_sats satellites tstamp row).1 = some row1 ∧
      row1.time =
        (if sat.el > 0 ∧ sat.los > 0 then sat.los - tstamp
         else if sat.el ≤ 0 ∧ sat.aos > 0 then sat.aos - tstamp
         else -1) := by
  unfold event_list_update_sats
  simp only [h]
  refine ⟨_, rfl, ?_⟩
  simp only []
  by_cases hel : sat.el > 0
  · have : ¬ sat.el ≤ 0 := not_le.mpr hel
    by_cases hlos : sat.los > 0 <;> simp [hel, hlos, this]
  · have : sat.el ≤ 0 := not_lt.mp hel
    by_cases haos : sat.aos > 0 <;> simp [hel, haos, this]

/-- Witness of C9: `el = -5`, `aos = 100.05`, `los = -1` and `now = 100.04`
give the countdown `0.01` days. -/
theorem C9_countdown_value_witness :
    ∃ row1 : EventRow,
      (event_list_update_sats exampleModule.satellites (10004 / 100) exampleRow).1 =
        some row1 ∧
      row1.time = 1 / 100 := by
  obtain ⟨row1, h1, h2⟩ := C9_countdown_value exampleModule.satellites (10004 / 100)
    exampleRow exampleSat rfl
  refine ⟨row1, h1, ?_⟩
  rw [h2]
  norm_num [exampleSat]

/-- Claim C10. When the event counter of the module is not 0,
`gtk_sat_module_update_sat` leaves `aos` and `los` of every satellite
unchanged, whatever its orbit type and the simulated time, and makes no
AOS/LOS search. -/
theorem C10_events_stale_between_coarse_cycles (env : Env) (module : GtkSatModule) (key : Nat)
    (val : sat_t) (h : module.event_count ≠ 0) :
    (gtk_sat_module_update_sat env module key val).1.aos = val.aos ∧
    (gtk_sat_module_update_sat env module key val).1.los = val.los ∧
    (∀ e ∈ (gtk_sat_module_update_sat env module key val).2, e.isEventSearch = false) :=
  update_sat_off_trace env module key val h

/-- Witness of C10: with the event counter at 5 the example satellite, which
is eligible for the event search, keeps `aos = 100.05` and `los = -1`. -/
theorem C10_events_stale_between_coarse_cycles_witness :
    (gtk_sat_module_update_sat exampleEnv exampleMidway 25544 exampleSat).1.aos = 10005 / 100 ∧
    (gtk_sat_module_update_sat exampleEnv exampleMidway 25544 exampleSat).1.los = -1 := by
  have h := C10_events_stale_between_coarse_cycles exampleEnv exampleMidway 25544 exampleSat
    (by decide)
  exact ⟨h.1, h.2.1⟩

/-- Claim C11. With the cycle lock free, `gtk_sat_module_reload_sats` returns,
and the registry it leaves is the registry that `gtk_sat_module_load_sats`
builds from an empty table with the current key list: it is the same for every
prior content of the registry, and a second reload with the same key list and
data source leaves the same registry again. -/
theorem C11_reload_is_load_on_empty_registry (env : Env) (module : GtkSatModule)
    (hfree : module.busy = false) :
    ∃ r, gtk_sat_module_reload_sats env module = some r ∧
      r.1.satellites =
        (gtk_sat_module_load_sats env { module with satellites := [] }).1.satellites ∧
      (∀ old : SatTable, ∃ r1,
        gtk_sat_module_reload_sats env { module with satellites := old } = some r1 ∧
        r1.1.satellites = r.1.satellites) ∧
      (∃ r2, gtk_sat_module_reload_sats env r.1 = some r2 ∧
        r2.1.satellites = r.1.satellites) := by
  obtain ⟨r, hr, hsat, hcfg, hqth, hbusy, -, -⟩ := reload_sats_free env module hfree
  refine ⟨r, hr, hsat, ?_, ?_⟩
  · intro old
    obtain ⟨r1, hr1, hsat1, -⟩ :=
      reload_sats_free env { module with satellites := old } hfree
    exact ⟨r1, hr1, by rw [hsat1, hsat]⟩
  · obtain ⟨r2, hr2, hsat2, -⟩ := reload_sats_free env r.1 hbusy
    refine ⟨r2, hr2, ?_⟩
    rw [hsat2, hsat]
    exact load_sats_registry env _ _ hcfg hqth rfl

/-- Witness of C11: the example module, whose registry holds one satellite, has
the two entries of its key list `[25544, 25544, 33591]` after a reload. -/
theorem C11_reload_is_load_on_empty_registry_witness :
    ∃ r, gtk_sat_module_reload_sats exampleEnv exampleModule = some r ∧
      r.1.satellites.map Prod.fst = [25544, 33591] := by
  obtain ⟨r, hr, hsat, -⟩ := C11_reload_is_load_on_empty_registry exampleEnv exampleModule rfl
  refine ⟨r, hr, ?_⟩
  rw [hsat]
  decide

/-- Claim C12, with the tree traversal of GTK+ 2. The registry holds 25544
only. Of the rows 99999, 88888, 25544 the update removes the row 99999 and
steps over the row that follows it: the row 88888, whose catalogue number is no
key of the registry, is still in the list afterwards, with its old cells. Of
the rows 99999, 25544 the update removes the first and steps over the second:
the row 25544 is kept with its old cells, where the callback would have set the
azimuth to 120 and the countdown to `aos - now = 0.01`. Both updates log the
removed row and nothing else. -/
theorem C12_event_list_update_steps_over_row_after_removal :
    g_hash_table_lookup exampleModule.satellites (guint_of_gint exampleStaleRow.catnum) = none ∧
    g_hash_table_lookup exampleModule.satellites (guint_of_gint exampleStaleRow2.catnum) = none ∧
    g_hash_table_lookup exampleModule.satellites (guint_of_gint exampleRow.catnum) =
      some exampleSat ∧
    (gtk_event_list_update exampleGtk2Env exampleModule.satellites
      { tstamp := 10004 / 100, rows := [exampleStaleRow, exampleStaleRow2, exampleRow] }).1.rows =
      [exampleStaleRow2,
        { exampleRow with az := 120, el := -5, evt := false, time := 10005 / 100 - 10004 / 100 }] ∧
    (gtk_event_list_update exampleGtk2Env exampleModule.satellites
      { tstamp := 10004 / 100, rows := [exampleStaleRow, exampleRow] }).1.rows = [exampleRow] ∧
    (event_list_update_sats exampleModule.satellites (10004 / 100) exampleRow).1 =
      some
        { exampleRow with az := 120, el := -5, evt := false, time := 10005 / 100 - 10004 / 100 } ∧
    exampleRow.az = 0 ∧ exampleRow.time = 0 ∧
    (gtk_event_list_update exampleGtk2Env exampleModule.satellites
      { tstamp := 10004 / 100, rows := [exampleStaleRow, exampleRow] }).2 =
      [Effect.log sat_log_level_t.SAT_LOG_LEVEL_MSG
          "event_list_update_sats: Failed to get data for #99999.",
        Effect.log sat_log_level_t.SAT_LOG_LEVEL_BUG
          "event_list_update_sats: Satellite #99999 removed from list."] := by
  have hl : g_hash_table_lookup exampleModule.satellites (guint_of_gint exampleRow.catnum) =
      some exampleSat := rfl
  have hrow : (event_list_update_sats exampleModule.satellites (10004 / 100) exampleRow).1 =
      some
        { exampleRow with az := 120, el := -5, evt := false, time := 10005 / 100 - 10004 / 100 } := by
    unfold event_list_update_sats
    rw [hl]
    simp only [exampleSat, exampleRow]
    norm_num
  refine ⟨by decide, by decide, hl, ?_, rfl, hrow, rfl, rfl, by decide⟩
  have h1 : (gtk_event_list_update exampleGtk2Env exampleModule.satellites
      { tstamp := 10004 / 100, rows := [exampleStaleRow, exampleStaleRow2, exampleRow] }).1.rows =
      ((event_list_update_sats exampleModule.satellites (10004 / 100) exampleRow).1.toList).cons
        exampleStaleRow2 := rfl
  rw [h1, hrow]
  rfl

/-- Counterexample to C13: with OSC export enabled, a committed cycle of the
example module, which tracks one satellite, sends two OSC messages. -/
theorem C13_osc_messages_per_cycle_counterexample :
    exampleEnv.send_osc = true ∧ exampleModule.satellites.length = 1 ∧
    ¬ ((gtk_sat_module_timeout_cb exampleEnv exampleIo exampleModule).trace.countP
        Effect.isOscSend = exampleModule.satellites.length) := by
  decide

/-- Claim C13, amended. With OSC export enabled, a committed cycle sends two
messages for every tracked object, one in each of its two registry passes: the
messages of the cycle are those of the registry after the first pass followed
by those of the registry at the end of the cycle, each addressed
`/gpredict/sat/` followed by the catalogue number in decimal and carrying
azimuth, elevation, altitude and velocity in that order; both registries have
the keys and catalogue numbers of the registry before the cycle. -/
theorem C13_osc_messages_per_cycle (env : Env) (io : TickEnv) (mod : GtkSatModule)
    (hn : needupdate mod io = true) (hb : mod.busy = false) (hosc : env.send_osc = true) :
    (gtk_sat_module_timeout_cb env io mod).trace.filter Effect.isOscSend =
      (cycle_first_pass env io mod).map (fun e =>
        Effect.lo_send ("/gpredict/sat/" ++ toString e.2.catnr) e.2.az e.2.el e.2.alt e.2.velo) ++
      (gtk_sat_module_timeout_cb env io mod).module.satellites.map (fun e =>
        Effect.lo_send ("/gpredict/sat/" ++ toString e.2.catnr) e.2.az e.2.el e.2.alt e.2.velo) ∧
    (cycle_first_pass env io mod).map (fun e => (e.1, e.2.catnr)) =
      mod.satellites.map (fun e => (e.1, e.2.catnr)) ∧
    (gtk_sat_module_timeout_cb env io mod).module.satellites.map (fun e => (e.1, e.2.catnr)) =
      mod.satellites.map (fun e => (e.1, e.2.catnr)) ∧
    (gtk_sat_module_timeout_cb env io mod).trace.countP Effect.isOscSend =
      2 * mod.satellites.length := by
  obtain ⟨-, -, hfirst, mb, A, B, C, -, -, hsat, htr, hA, hB, hC⟩ :=
    timeout_cb_commit_passes env io mod hn hb
  have hfilter : (gtk_sat_module_timeout_cb env io mod).trace.filter Effect.isOscSend =
      (cycle_first_pass env io mod).map (fun e => osc_message e.2) ++
      (gtk_sat_module_timeout_cb env io mod).module.satellites.map
        (fun e => osc_message e.2) := by
    rw [htr, hsat]
    simp only [List.filter_append]
    rw [quiet_filter A _ (fun e he => (hA e he).2), quiet_filter B _ (fun e he => (hB e he).2),
      quiet_filter C _ (fun e he => (hC e he).2), foreach_osc env _ hosc, foreach_osc env _ hosc,
      ← hfirst]
    simp
  have hcat1 : (cycle_first_pass env io mod).map (fun e => (e.1, e.2.catnr)) =
      mod.satellites.map (fun e => (e.1, e.2.catnr)) := by
    rw [hfirst, foreach_keeps_catnr]
  have hcat2 : (gtk_sat_module_timeout_cb env io mod).module.satellites.map
      (fun e => (e.1, e.2.catnr)) = mod.satellites.map (fun e => (e.1, e.2.catnr)) := by
    rw [hsat, foreach_keeps_catnr, hcat1]
  refine ⟨hfilter, hcat1, hcat2, ?_⟩
  rw [List.countP_eq_length_filter, hfilter, List.length_append, List.length_map,
    List.length_map]
  have h1 := congrArg List.length hcat1
  have h2 := congrArg List.length hcat2
  simp only [List.length_map] at h1 h2
  omega

/-- Witness of C13: the committed cycle of the example module sends two
messages for its one satellite, both addressed `/gpredict/sat/25544`. -/
theorem C13_osc_messages_per_cycle_witness :
    (gtk_sat_module_timeout_cb exampleEnv exampleIo exampleModule).trace.countP
      Effect.isOscSend = 2 ∧
    (cycle_first_pass exampleEnv exampleIo exampleModule).map (fun e => (e.1, e.2.catnr)) =
      [(25544, 25544)] := by
  have h := C13_osc_messages_per_cycle exampleEnv exampleIo exampleModule rfl rfl rfl
  exact ⟨h.2.2.2, h.2.1⟩

/-- Claim C14, at a timer period of 300 ms. The constructed module has the
header period `floor (1000 / 300) = 3`, so its header is due every 900 ms: the
interval between two header updates is below one second. Of the first three
committed cycles the third refreshes the header, and the sixth does so again. -/
theorem C14_header_interval_at_300_ms :
    exampleFresh300.timeout = 300 ∧ exampleFresh300.head_timeout = 3 ∧
    exampleFresh300.head_timeout * exampleFresh300.timeout = 900 ∧
    ¬ (1000 ≤ exampleFresh300.head_timeout * exampleFresh300.timeout) ∧
    (List.range 6).map (fun n =>
      (gtk_sat_module_timeout_cb exampleEnv exampleIo
        (run exampleEnv exampleFresh300 (List.replicate n exampleTick))).trace.countP
        Effect.isHeaderUpdate) = [0, 0, 1, 0, 0, 1] := by
  decide

/-- Claim C15. Let the configured grid string have `n` fields. If `n = 0` or
`n` is no multiple of 5, the fields of the built-in layout are used in its
place, otherwise the configured fields are used as they are. In both cases
`nviews` is the number of fields used divided by 5 and `grid` holds, field by
field, the value of `g_ascii_strtoll` converted to `gint`, which is that value
whenever it fits in 32 bits. -/
theorem C15_grid_fallback (genv : GridEnv) (buffer : String) :
    (((genv.g_strsplit buffer).length = 0 ∨ (genv.g_strsplit buffer).length % 5 ≠ 0) →
      (gtk_sat_module_read_cfg_data_grid genv buffer).1.grid =
        (genv.g_strsplit genv.module_grid_def).map
          (fun str => gint_of_gint64 (genv.g_ascii_strtoll str)) ∧
      (gtk_sat_module_read_cfg_data_grid genv buffer).1.nviews =
        (genv.g_strsplit genv.module_grid_def).length / 5) ∧
    (¬ ((genv.g_strsplit buffer).length = 0 ∨ (genv.g_strsplit buffer).length % 5 ≠ 0) →
      (gtk_sat_module_read_cfg_data_grid genv buffer).1.grid =
        (genv.g_strsplit buffer).map (fun str => gint_of_gint64 (genv.g_ascii_strtoll str)) ∧
      (gtk_sat_module_read_cfg_data_grid genv buffer).1.nviews =
        (genv.g_strsplit buffer).length / 5) ∧
    (gtk_sat_module_read_cfg_data_grid genv buffer).1.nviews =
      (gtk_sat_module_read_cfg_data_grid genv buffer).1.grid.length / 5 ∧
    (∀ str, -2 ^ 31 ≤ genv.g_ascii_strtoll str → genv.g_ascii_strtoll str < 2 ^ 31 →
      gint_of_gint64 (genv.g_ascii_strtoll str) = genv.g_ascii_strtoll str) := by
  refine ⟨?_, ?_, ?_, ?_⟩
  · intro h
    have hb : ((genv.g_strsplit buffer).length == 0 ||
        (genv.g_strsplit buffer).length % 5 != 0) = true := by
      rcases h with h | h <;> simp [h]
    simp [gtk_sat_module_read_cfg_data_grid, hb]
  · intro h
    have hb : ((genv.g_strsplit buffer).length == 0 ||
        (genv.g_strsplit buffer).length % 5 != 0) = false := by
      simp only [not_or, not_not] at h
      simp [h.1, h.2]
    simp [gtk_sat_module_read_cfg_data_grid, hb]
  · simp [gtk_sat_module_read_cfg_data_grid]
  · intro str h1 h2
    unfold gint_of_gint64
    omega

/-- Witness of C15: the five fields `4;0;1;0;1` are used as they are and give
one view, the three fields `4;0;1` are replaced by the built-in layout of
fifteen fields and three views. -/
theorem C15_grid_fallback_witness :
    (gtk_sat_module_read_cfg_data_grid exampleGridEnv "4;0;1;0;1").1 =
      { nviews := 1, grid := [4, 0, 1, 0, 1] } ∧
    (gtk_sat_module_read_cfg_data_grid exampleGridEnv "4;0;1").1.grid =
      [1, 0, 2, 0, 1, 3, 0, 1, 1, 2, 2, 1, 2, 1, 2] ∧
    (gtk_sat_module_read_cfg_data_grid exampleGridEnv "4;0;1").1.nviews = 3 := by
  have h := (C15_grid_fallback exampleGridEnv "4;0;1").1 (Or.inr (by decide))
  refine ⟨by decide, ?_, ?_⟩
  · rw [h.1]; decide
  · rw [h.2]; decide

/-- Claim C16. `update_skg` recreates the sky-at-a-glance widget exactly when
`|tmgCdnum - lastSkgUpd| > 7.0e-4`, and then sets `lastSkgUpd` to `tmgCdnum`;
otherwise it changes nothing. After every call
`|tmgCdnum - lastSkgUpd| ≤ 7.0e-4`. -/
theorem C16_update_skg_threshold (module : GtkSatModule) :
    (Effect.gtk_sky_glance_new module.tmgCdnum ∈ (update_skg module).2 ↔
      |module.tmgCdnum - module.lastSkgUpd| > 7 / 10000) ∧
    (|module.tmgCdnum - module.lastSkgUpd| > 7 / 10000 →
      (update_skg module).1.skg = some module.tmgCdnum ∧
      (update_skg module).1.lastSkgUpd = module.tmgCdnum) ∧
    (¬ |module.tmgCdnum - module.lastSkgUpd| > 7 / 10000 →
      update_skg module = (module, [])) ∧
    |(update_skg module).1.tmgCdnum - (update_skg module).1.lastSkgUpd| ≤ 7 / 10000 := by
  unfold update_skg
  by_cases h : |module.tmgCdnum - module.lastSkgUpd| > 7 / 10000
  · rw [if_pos h]
    refine ⟨?_, fun _ => ⟨rfl, rfl⟩, fun hn => absurd h hn, ?_⟩
    · simp [h]
    · simp only [sub_self, abs_zero]
      norm_num
  · rw [if_neg h]
    refine ⟨?_, fun hn => absurd hn h, fun _ => rfl, ?_⟩
    · simp [h]
    · exact not_lt.mp h

/-- Witness of C16: at simulated time 100 a widget last updated at 99 is
recreated and its time of update becomes 100. -/
theorem C16_update_skg_threshold_witness :
    (update_skg exampleSkg).1.skg = some 100 ∧ (update_skg exampleSkg).1.lastSkgUpd = 100 := by
  have h := (C16_update_skg_threshold exampleSkg).2.1
    (by norm_num [exampleSkg, exampleModule])
  exact h

/-- Claim C17. `event_cell_compare_function` returns -1 when the time cell of
`a` is below that of `b`, +1 when it is above, and 0 otherwise. -/
theorem C17_event_cell_compare (a b : EventRow) :
    (a.time < b.time → event_cell_compare_function a b = -1) ∧
    (a.time > b.time → event_cell_compare_function a b = 1) ∧
    (¬ a.time < b.time → ¬ a.time > b.time → event_cell_compare_function a b = 0) := by
  unfold event_cell_compare_function
  refine ⟨?_, ?_, ?_⟩
  · intro h; simp [h]
  · intro h
    have : ¬ a.time < b.time := not_lt.mpr (le_of_lt h)
    simp [h, this]
  · intro h1 h2; simp [h1, h2]

/-- Witness of C17: the stale row with countdown 5 sorts after the row with
countdown 0. -/
theorem C17_event_cell_compare_witness :
    event_cell_compare_function exampleStaleRow exampleRow = 1 :=
  (C17_event_cell_compare exampleStaleRow exampleRow).2.1
    (by norm_num [exampleStaleRow, exampleRow])

/-- Claim C18. For a row whose satellite is found, `event_list_update_sats`
stores the countdown -1 when the pending event time is not positive (`los` for
a satellite above the horizon, `aos` otherwise), and that countdown is rendered
as `Never`; `time_cell_data_function` renders `Never` exactly for the negative
countdowns. -/
theorem C18_never_sentinel :
    (∀ (satellites : SatTable) (tstamp : ℚ) (row : EventRow) (sat : sat_t),
      g_hash_table_lookup satellites (guint_of_gint row.catnum) = some sat →
      ((sat.el > 0 ∧ sat.los ≤ 0) ∨ (sat.el ≤ 0 ∧ sat.aos ≤ 0)) →
      ∃ row1 : EventRow,
        (event_list_update_sats satellites tstamp row).1 = some row1 ∧
        row1.time = -1 ∧ time_cell_data_function row1.time = some "Never") ∧
    (∀ number : ℚ, time_cell_data_function number = some "Never" ↔ number < 0) := by
  refine ⟨?_, time_cell_never_iff⟩
  intro satellites tstamp row sat hlook hnever
  unfold event_list_update_sats
  simp only [hlook]
  have htime : (if sat.el > 0 then (if sat.los > 0 then sat.los - tstamp else -1)
      else (if sat.aos > 0 then sat.aos - tstamp else -1)) = (-1 : ℚ) := by
    rcases hnever with ⟨h1, h2⟩ | ⟨h1, h2⟩
    · rw [if_pos h1, if_neg (not_lt.mpr h2)]
    · rw [if_neg (not_lt.mpr h1), if_neg (not_lt.mpr h2)]
  refine ⟨_, rfl, htime, ?_⟩
  show time_cell_data_function (if sat.el > 0 then (if sat.los > 0 then sat.los - tstamp else -1)
      else (if sat.aos > 0 then sat.aos - tstamp else -1)) = some "Never"
  rw [htime]
  exact (time_cell_never_iff (-1)).mpr (by norm_num)

/-- Witness of C18: the example satellite seen as above the horizon, with
`los = -1`, gets the countdown -1, which is rendered as `Never`. -/
theorem C18_never_sentinel_witness :
    ∃ row1 : EventRow,
      (event_list_update_sats [(25544, { exampleSat with el := 5 })] 100 exampleRow).1 =
        some row1 ∧
      row1.time = -1 ∧ time_cell_data_function row1.time = some "Never" :=
  C18_never_sentinel.1 [(25544, { exampleSat with el := 5 })] 100 exampleRow
    { exampleSat with el := 5 } rfl (Or.inl ⟨by norm_num, by norm_num [exampleSat]⟩)

/-- Counterexample to C20: in a committed cycle of the example module, whose
event counter is reset to 0 and which tracks one eligible satellite, `find_aos`
is called twice. -/
theorem C20_event_search_once_per_cycle_counterexample :
    (cycle_events exampleModule).event_count = 0 ∧
    exampleModule.satellites.countP (fun e => eligible exampleEnv exampleModule.qth e.2) = 1 ∧
    ¬ ((gtk_sat_module_timeout_cb exampleEnv exampleIo exampleModule).trace.countP
        Effect.isFindAos = 1) := by
  decide

/-- Claim C20, amended. In a committed cycle whose event counter is 0 the
AOS/LOS search is made in both registry passes: `find_aos` and `find_los` are
each called once in the first pass for every object eligible before the cycle
and once more in the second pass for every object eligible after the first
pass. -/
theorem C20_event_search_in_both_passes (env : Env) (io : TickEnv) (mod : GtkSatModule)
    (hn : needupdate mod io = true) (hb : mod.busy = false)
    (h0 : (cycle_events mod).event_count = 0) :
    (gtk_sat_module_timeout_cb env io mod).trace.countP Effect.isFindAos =
      mod.satellites.countP (fun e => eligible env mod.qth e.2) +
        (cycle_first_pass env io mod).countP (fun e => eligible env mod.qth e.2) ∧
    (gtk_sat_module_timeout_cb env io mod).trace.countP Effect.isFindLos =
      mod.satellites.countP (fun e => eligible env mod.qth e.2) +
        (cycle_first_pass env io mod).countP (fun e => eligible env mod.qth e.2) := by
  obtain ⟨hev, hq, -, mb, A, B, C, hevb, hqb, -, htr, hA, hB, hC⟩ :=
    timeout_cb_commit_passes env io mod hn hb
  rw [h0] at hev hevb
  obtain ⟨a1, a2⟩ := foreach_find_count env (cycle_first_module io mod) hev mod.satellites
  obtain ⟨b1, b2⟩ := foreach_find_count env mb hevb (cycle_first_pass env io mod)
  rw [hq] at a1 a2
  rw [hqb] at b1 b2
  rw [htr]
  simp only [List.countP_append]
  rw [a1, a2, b1, b2,
    quiet_countP A _ (fun e he => (isFindAos_of_not_search e (hA e he).1).1),
    quiet_countP B _ (fun e he => (isFindAos_of_not_search e (hB e he).1).1),
    quiet_countP C _ (fun e he => (isFindAos_of_not_search e (hC e he).1).1),
    quiet_countP A _ (fun e he => (isFindAos_of_not_search e (hA e he).1).2),
    quiet_countP B _ (fun e he => (isFindAos_of_not_search e (hB e he).1).2),
    quiet_countP C _ (fun e he => (isFindAos_of_not_search e (hC e he).1).2)]
  omega

/-- Witness of C20: the committed cycle of the example module calls `find_aos`
twice and `find_los` twice for its one eligible satellite. -/
theorem C20_event_search_in_both_passes_witness :
    (gtk_sat_module_timeout_cb exampleEnv exampleIo exampleModule).trace.countP
      Effect.isFindAos = 2 ∧
    (gtk_sat_module_timeout_cb exampleEnv exampleIo exampleModule).trace.countP
      Effect.isFindLos = 2 := by
  have h := C20_event_search_in_both_passes exampleEnv exampleIo exampleModule rfl rfl rfl
  have e1 : exampleModule.satellites.countP
      (fun e => eligible exampleEnv exampleModule.qth e.2) = 1 := by decide
  have e2 : (cycle_first_pass exampleEnv exampleIo exampleModule).countP
      (fun e => eligible exampleEnv exampleModule.qth e.2) = 1 := by decide
  rw [e1, e2] at h
  exact h

/-- Claim C22. A committed tick of `gtk_sat_module_timeout_cb` ends with
`rtPrev = rtNow`, with `tmgPdnum = tmgCdnum`, with the event counter one above
the value that the registry traversals of the cycle saw (in `guint` arithmetic,
and without wrap-around when the counter was at most the event period), and
with the cycle lock free. -/
theorem C22_committed_tick_commits_and_unlocks (env : Env) (io : TickEnv) (mod : GtkSatModule)
    (hn : needupdate mod io = true) (hb : mod.busy = false) :
    (gtk_sat_module_timeout_cb env io mod).module.rtPrev =
      (gtk_sat_module_timeout_cb env io mod).module.rtNow ∧
    (gtk_sat_module_timeout_cb env io mod).module.rtNow = io.now ∧
    (gtk_sat_module_timeout_cb env io mod).module.tmgPdnum =
      (gtk_sat_module_timeout_cb env io mod).module.tmgCdnum ∧
    (gtk_sat_module_timeout_cb env io mod).module.event_count =
      ((cycle_events mod).event_count + 1) % 2 ^ 32 ∧
    (mod.event_count ≤ mod.event_timeout → mod.event_timeout < 2 ^ 32 →
      (gtk_sat_module_timeout_cb env io mod).module.event_count =
        (cycle_events mod).event_count + 1) ∧
    (gtk_sat_module_timeout_cb env io mod).module.busy = false := by
  obtain ⟨-, h2, h3, h4, h5, -, -, -, h9⟩ := timeout_cb_commit env io mod hn hb
  have hce := (cycle_events_fields mod).2.2.2.2.1
  refine ⟨by rw [h4, h3], h3, h2, by rw [h5, hce], ?_, h9⟩
  intro hle hlt
  rw [h5, hce]
  apply Nat.mod_eq_of_lt
  split <;> omega

/-- Witness of C22: after the committed tick of the example module at real
time 100.001389 both real times are 100.001389, the event counter is 1 and the
lock is free. -/
theorem C22_committed_tick_commits_and_unlocks_witness :
    (gtk_sat_module_timeout_cb exampleEnv exampleIo exampleModule).module.rtPrev =
      100001389 / 1000000 ∧
    (gtk_sat_module_timeout_cb exampleEnv exampleIo exampleModule).module.event_count = 1 ∧
    (gtk_sat_module_timeout_cb exampleEnv exampleIo exampleModule).module.busy = false := by
  have h := C22_committed_tick_commits_and_unlocks exampleEnv exampleIo exampleModule rfl rfl
  obtain ⟨h1, h2, -, -, h5, h6⟩ := h
  refine ⟨?_, ?_, h6⟩
  · rw [h1, h2]; rfl
  · rw [h5 (by decide) (by decide)]; rfl

/-- Claim C23. Start from a module whose header counter is 0 and whose header
period is `H`, `1 ≤ H < 2 ^ 32`, and let any sequence `pre` of timer ticks be
followed by a tick `t`. If `t` is committed, it is the committed cycle number
`committedCycles pre + 1`: it refreshes the header, once, exactly when that
number is a multiple of `H`, and leaves the header counter at that number
modulo `H`, so at 0 each time it reaches `H`. If `t` is not committed, it
neither refreshes the header nor changes the counter. -/
theorem C23_header_cadence (env : Env) (m0 : GtkSatModule) (H : Nat) (hH : 1 ≤ H)
    (hH32 : H < 2 ^ 32) (hperiod : m0.head_timeout = H) (hfresh : m0.head_count = 0)
    (pre : List Tick) (t : Tick) :
    (t.committed (run env m0 pre) = true →
      (gtk_sat_module_timeout_cb env t.io { run env m0 pre with busy := t.held }).trace.countP
          Effect.isHeaderUpdate =
        (if (committedCycles env m0 pre + 1) % H = 0 then 1 else 0) ∧
      (fire env (run env m0 pre) t).head_count = (committedCycles env m0 pre + 1) % H) ∧
    (t.committed (run env m0 pre) = false →
      (gtk_sat_module_timeout_cb env t.io { run env m0 pre with busy := t.held }).trace.countP
          Effect.isHeaderUpdate = 0 ∧
      (fire env (run env m0 pre) t).head_count = (run env m0 pre).head_count) := by
  obtain ⟨i1, i2⟩ := run_head_counter env H hH hH32 pre m0 0
    ⟨hperiod, by rw [hfresh, Nat.zero_mod]⟩
  rw [Nat.zero_add] at i2
  obtain ⟨-, f2, f3⟩ := fire_head env (run env m0 pre) t
  refine ⟨?_, fun hc => ⟨(f3 hc).2, (f3 hc).1⟩⟩
  intro hc
  obtain ⟨g2, g1⟩ := f2 hc
  have hlt : (run env m0 pre).head_count < H := by rw [i2]; exact Nat.mod_lt _ (by omega)
  have hmod : ((run env m0 pre).head_count + 1) % 2 ^ 32 = (run env m0 pre).head_count + 1 :=
    Nat.mod_eq_of_lt (by omega)
  have hsucc : (committedCycles env m0 pre + 1) % H = ((run env m0 pre).head_count + 1) % H := by
    rw [i2, Nat.mod_add_mod]
  rw [g1, g2, hmod, i1, hsucc]
  by_cases hw : (run env m0 pre).head_count + 1 = H
  · rw [hw, Nat.mod_self]
    simp
  · rw [Nat.mod_eq_of_lt (by omega)]
    simp [hw]

/-- Witness of C23: the module constructed with a timer period of 300 ms has
the header period 3; its third committed cycle refreshes the header and leaves
the header counter at 0. -/
theorem C23_header_cadence_witness :
    exampleFresh300.head_timeout = 3 ∧
    (gtk_sat_module_timeout_cb exampleEnv exampleTick.io
        { run exampleEnv exampleFresh300 [exampleTick, exampleSkipped, exampleTick] with
          busy := exampleTick.held }).trace.countP Effect.isHeaderUpdate = 1 ∧
    (fire exampleEnv (run exampleEnv exampleFresh300 [exampleTick, exampleSkipped, exampleTick])
      exampleTick).head_count = 0 := by
  have h := (C23_header_cadence exampleEnv exampleFresh300 3 (by decide) (by decide) rfl rfl
    [exampleTick, exampleSkipped, exampleTick] exampleTick).1 rfl
  have hc : committedCycles exampleEnv exampleFresh300
      [exampleTick, exampleSkipped, exampleTick] = 2 := by decide
  rw [hc] at h
  exact ⟨rfl, h.1, h.2⟩

/-- Claim C24: for a countdown `number ≥ 0` whose whole seconds
`S = ⌊number * 86400⌋` are below `2 ^ 32`, `time_cell_data_function` renders the
fields `h = S / 3600`, `m = S % 3600 / 60`, `s = S % 60` as `MM:SS` when
`h = 0` and as `HH:MM:SS` when `h > 0`; the fields satisfy
`3600 * h + 60 * m + s = S`, `m < 60` and `s < 60`, and every rendered field
consists of at least two decimal digits. -/
theorem C24_time_cell_renders_fields (number : ℚ) (h0 : 0 ≤ number)
    (hS : ⌊number * 86400⌋ < 2 ^ 32) :
    (countdown_seconds number : Int) = ⌊number * 86400⌋ ∧
    time_cell_data_function number =
      some (if countdown_seconds number / 3600 = 0 then
          pad2 (countdown_seconds number % 3600 / 60) ++ ":" ++ pad2 (countdown_seconds number % 60)
        else
          pad2 (countdown_seconds number / 3600) ++ ":" ++
            pad2 (countdown_seconds number % 3600 / 60) ++ ":" ++
            pad2 (countdown_seconds number % 60)) ∧
    3600 * (countdown_seconds number / 3600) + 60 * (countdown_seconds number % 3600 / 60) +
      countdown_seconds number % 60 = countdown_seconds number ∧
    countdown_seconds number % 3600 / 60 < 60 ∧
    countdown_seconds number % 60 < 60 ∧
    (∀ n : Nat, 2 ≤ (pad2 n).length ∧ (∀ c ∈ (pad2 n).data, c.isDigit = true) ∧
      (n < 10 → pad2 n = "0" ++ toString n) ∧ (10 ≤ n → pad2 n = toString n)) := by
  refine ⟨countdown_seconds_cast number h0,
    time_cell_text number h0 (countdown_seconds_lt number h0 hS), by omega, by omega, by omega, ?_⟩
  intro n
  refine ⟨pad2_length n, pad2_digits n, ?_, ?_⟩
  · intro h; unfold pad2; rw [if_pos h]
  · intro h; unfold pad2; rw [if_neg (by omega)]

/-- Witness for C24: a countdown of 0.01 days, 864 seconds, renders as
`14:24`. -/
theorem C24_time_cell_renders_fields_witness :
    (0 : ℚ) ≤ 1 / 100 ∧ ⌊(1 / 100 : ℚ) * 86400⌋ < 2 ^ 32 ∧
      countdown_seconds (1 / 100) = 864 ∧
      time_cell_data_function (1 / 100) = some "14:24" := by
  have hfloor : ⌊(1 / 100 : ℚ) * 86400⌋ = 864 := by norm_num
  have h0 : (0 : ℚ) ≤ 1 / 100 := by norm_num
  have hS : ⌊(1 / 100 : ℚ) * 86400⌋ < 2 ^ 32 := by rw [hfloor]; norm_num
  have hc : countdown_seconds (1 / 100) = 864 := by
    unfold countdown_seconds; rw [hfloor]; rfl
  have key := (C24_time_cell_renders_fields (1 / 100) h0 hS).2.1
  rw [hc] at key
  refine ⟨h0, hS, hc, ?_⟩
  rw [key]
  decide

/-- Claim C25, at elevation 0. For a satellite exactly on the horizon
(`el = 0`, AOS at 100.05, LOS at 100.10) and a list time of 100.04, the row is
flagged `evt = TRUE` and rendered `LOS`, while its countdown is measured to the
AOS (`aos - now = 0.01`) and not to the LOS (`los - now = 0.06`). -/
theorem C25_event_type_at_zero_elevation :
    exampleHorizon.el = 0 ∧ exampleHorizon.aos = 10005 / 100 ∧ exampleHorizon.los = 10010 / 100 ∧
    ∃ row, (event_list_update_sats [(25544, exampleHorizon)] (10004 / 100) exampleRow).1 =
        some row ∧
      row.evt = true ∧ evtype_cell_data_function row.evt = "LOS" ∧
      row.time = exampleHorizon.aos - 10004 / 100 ∧
      row.time ≠ exampleHorizon.los - 10004 / 100 := by
  refine ⟨rfl, rfl, rfl, _, rfl, ?_⟩
  simp only [exampleHorizon, exampleSat, evtype_cell_data_function]
  norm_num

/-- Claim C26, for the example module with an event list of the rows 25544 and
33591 after the key list has been changed to `[25544, 40069]`. The reload puts
25544 and 40069 in the registry, tells the event list nothing (the widget is
logged as an unknown child) and leaves its rows as they were; the following
`gtk_event_list_update` removes the row of 33591 and adds none, so the
registered satellite 40069 has no row. -/
theorem C26_event_list_after_reload :
    exampleRekeyed.views.map
        (fun w => match w with
          | GtkWidget.event_list evlist => evlist.rows.map (fun row => row.catnum)
          | _ => []) = [[25544, 33591]] ∧
    ∃ m tr, gtk_sat_module_reload_sats exampleEnv exampleRekeyed = some (m, tr) ∧
      m.satellites.map (fun e => e.1) = [25544, 40069] ∧
      Effect.log sat_log_level_t.SAT_LOG_LEVEL_BUG "gtk-sat-module.c: Unknown child type" ∈ tr ∧
      m.views = exampleRekeyed.views ∧
      m.views.map
        (fun w => match w with
          | GtkWidget.event_list evlist =>
            (gtk_event_list_update exampleEnv m.satellites evlist).1.rows.map
              (fun row => row.catnum)
          | _ => []) = [[25544]] := by
  refine ⟨by decide, _, _, rfl, ?_⟩
  decide

/-- Claim C27. For every timer period of at least 1 ms `gtk_sat_module_new`
returns a module whose header period and event period are at least 1, with
`event_timeout * timeout ≤ 60000` whenever `timeout ≤ 60000`; and after every
sequence of timer ticks (committed or skipped) and reloads the periods are
unchanged, `head_count < head_timeout` and `event_count ≤ event_timeout`. -/
theorem C27_counters_stay_in_range (env : Env) (cfg : ModCfg) (t1 t2 t3 t4 : ℚ)
    (htimeout : 1 ≤ cfg.timeout) :
    ∃ r, gtk_sat_module_new env cfg t1 t2 t3 t4 = some r ∧
      1 ≤ r.1.head_timeout ∧ 1 ≤ r.1.event_timeout ∧
      (cfg.timeout ≤ 60000 → r.1.event_timeout * cfg.timeout ≤ 60000) ∧
      ∀ ops : List Op,
        (runOps env r.1 ops).head_timeout = r.1.head_timeout ∧
        (runOps env r.1 ops).event_timeout = r.1.event_timeout ∧
        (runOps env r.1 ops).head_count < (runOps env r.1 ops).head_timeout ∧
        (runOps env r.1 ops).event_count ≤ (runOps env r.1 ops).event_timeout := by
  have hsome : ∃ r, gtk_sat_module_new env cfg t1 t2 t3 t4 = some r := by
    unfold gtk_sat_module_new
    rw [if_neg (by omega)]
    exact ⟨_, rfl⟩
  obtain ⟨r, hr⟩ := hsome
  obtain ⟨c1, c2, c3, c4, -, -⟩ := gtk_sat_module_new_counters env cfg t1 t2 t3 t4 r hr
  have hH : 1 ≤ r.1.head_timeout ∧ r.1.head_timeout < 2 ^ 32 := by
    rw [c3]
    split
    · omega
    · have h1 : 1 ≤ 1000 / cfg.timeout := (Nat.le_div_iff_mul_le (by omega)).mpr (by omega)
      have h2 : 1000 / cfg.timeout ≤ 1000 := Nat.div_le_self _ _
      omega
  have hN : 1 ≤ r.1.event_timeout ∧ r.1.event_timeout < 2 ^ 32 := by
    rw [c4]
    split
    · omega
    · have h1 : 1 ≤ 60000 / cfg.timeout := (Nat.le_div_iff_mul_le (by omega)).mpr (by omega)
      have h2 : 60000 / cfg.timeout ≤ 60000 := Nat.div_le_self _ _
      omega
  refine ⟨r, hr, hH.1, hN.1, ?_, ?_⟩
  · intro hle
    rw [c4, if_neg (by omega)]
    exact Nat.div_mul_le_self _ _
  · intro ops
    obtain ⟨a1, a2, a3, a4⟩ := runOps_counters env r.1.head_timeout r.1.event_timeout hH.1 hH.2
      hN.1 hN.2 ops r.1 ⟨rfl, rfl, by rw [c2]; omega, by rw [c1]⟩
    exact ⟨a1, a2, by rw [a1]; exact a3, by rw [a2]; exact a4⟩

/-- Witness of C27: the module constructed with a timer period of 3000 ms has
the header period 1 and the event period 20; after a committed tick, a reload,
a skipped tick and a committed tick its counters are 0 and 1. -/
theorem C27_counters_stay_in_range_witness :
    ∃ r, gtk_sat_module_new exampleEnv exampleCfg 100 100 100 100 = some r ∧
      r.1.head_timeout = 1 ∧ r.1.event_timeout = 20 ∧
      (runOps exampleEnv r.1
        [Op.tick exampleTick, Op.reload, Op.tick exampleSkipped, Op.tick exampleLate]).head_count <
        r.1.head_timeout ∧
      (runOps exampleEnv r.1
        [Op.tick exampleTick, Op.reload, Op.tick exampleSkipped, Op.tick exampleLate]).event_count ≤
        r.1.event_timeout := by
  obtain ⟨r, hr, -, -, -, h⟩ :=
    C27_counters_stay_in_range exampleEnv exampleCfg 100 100 100 100 (by decide)
  obtain ⟨-, -, c3, c4, -, -⟩ :=
    gtk_sat_module_new_counters exampleEnv exampleCfg 100 100 100 100 r hr
  obtain ⟨a1, a2, a3, a4⟩ :=
    h [Op.tick exampleTick, Op.reload, Op.tick exampleSkipped, Op.tick exampleLate]
  refine ⟨r, hr, ?_, ?_, ?_, ?_⟩
  · rw [c3]; rfl
  · rw [c4]; rfl
  · rw [← a1]; exact a3
  · rw [← a2]; exact a4

/-- Claim C28. The layout read from the configuration has
`nviews = length of the grid / 5`, also when the built-in layout is used. For
every grid list with that number of views, every index `5 * i + k` with
`i < nviews` and `k ≤ 4` is smaller than the length, so `create_module_layout`
finds the five numbers of every view and `get_grid_size` returns a size, which
is 0 by 0 when there is no view. When every entry of the grid is a non-negative
`gint`, the right edge of every view is at most `cols` and its bottom edge at
most `rows`, and when there is a view, `cols` is the right edge of some view
and `rows` is the bottom edge of some view. -/
theorem C28_grid_reads_in_bounds (genv : GridEnv) (buffer : String) (grid : List Int) :
    (gtk_sat_module_read_cfg_data_grid genv buffer).1.nviews =
      (gtk_sat_module_read_cfg_data_grid genv buffer).1.grid.length / 5 ∧
    (∀ i k, i < grid.length / 5 → k ≤ 4 → 5 * i + k < grid.length) ∧
    (∀ i, i < grid.length / 5 → ∃ v, grid_view grid i = some v) ∧
    ∃ size, get_grid_size (grid.length / 5) grid = some size ∧
      (grid.length / 5 = 0 → size = { rows := 0, cols := 0 }) ∧
      ((∀ g ∈ grid, 0 ≤ g ∧ g < 2 ^ 31) →
        (∀ i kind left right top bottom, i < grid.length / 5 →
          grid_view grid i = some (kind, left, right, top, bottom) →
          right ≤ (size.cols : Int) ∧ bottom ≤ (size.rows : Int)) ∧
        (0 < grid.length / 5 →
          (∃ i kind left right top bottom, i < grid.length / 5 ∧
            grid_view grid i = some (kind, left, right, top, bottom) ∧
            right = (size.cols : Int)) ∧
          (∃ i kind left right top bottom, i < grid.length / 5 ∧
            grid_view grid i = some (kind, left, right, top, bottom) ∧
            bottom = (size.rows : Int)))) := by
  refine ⟨read_cfg_data_grid_nviews genv buffer, fun i k hi hk => by omega,
    fun i hi => grid_view_in_bounds grid i (by omega), ?_⟩
  obtain ⟨size, hs, _, _, hall, hcol, hrow⟩ :=
    get_grid_size_loop_spec grid (grid.length / 5) 0 0 0 (by omega)
  refine ⟨size, hs, ?_, ?_⟩
  · intro h0
    rw [h0] at hs
    exact (Option.some.inj hs).symm
  · intro hpos
    have hmem : ∀ j r, grid.get? j = some r → (guint_of_gint r : Int) = r := by
      intro j r hr
      have := hpos r (List.get?_mem hr)
      exact guint_of_gint_nonneg r this.1 this.2
    refine ⟨?_, ?_⟩
    · intro i kind left right top bottom hi hv
      obtain ⟨_, _, h2, _, h4⟩ := (grid_view_eq grid i kind left right top bottom).mp hv
      have := hall i right bottom (Nat.zero_le _) (by omega) h2 h4
      rw [← hmem _ _ h2, ← hmem _ _ h4]
      exact ⟨Int.ofNat_le.mpr this.1, Int.ofNat_le.mpr this.2⟩
    · intro hn
      have h00 : ∃ v, grid_view grid 0 = some v := grid_view_in_bounds grid 0 (by omega)
      obtain ⟨⟨k0, l0, r0, t0, b0⟩, hv0⟩ := h00
      obtain ⟨_, _, h02, _, h04⟩ := (grid_view_eq grid 0 k0 l0 r0 t0 b0).mp hv0
      have hle0 := hall 0 r0 b0 (le_refl _) (by omega) h02 h04
      constructor
      · rcases hcol with hc | ⟨j, r, _, hj, hr, he⟩
        · refine ⟨0, k0, l0, r0, t0, b0, hn, hv0, ?_⟩
          rw [← hmem _ _ h02]
          have : guint_of_gint r0 = size.cols := by omega
          rw [this]
        · obtain ⟨⟨k, l, r1, t, b⟩, hv⟩ := grid_view_in_bounds grid j (by omega)
          obtain ⟨_, _, h2, _, _⟩ := (grid_view_eq grid j k l r1 t b).mp hv
          rw [hr] at h2
          cases h2
          exact ⟨j, k, l, r, t, b, by omega, hv, by rw [← hmem _ _ hr, he]⟩
      · rcases hrow with hc | ⟨j, b, _, hj, hb, he⟩
        · refine ⟨0, k0, l0, r0, t0, b0, hn, hv0, ?_⟩
          rw [← hmem _ _ h04]
          have : guint_of_gint b0 = size.rows := by omega
          rw [this]
        · obtain ⟨⟨k, l, r, t, b1⟩, hv⟩ := grid_view_in_bounds grid j (by omega)
          obtain ⟨_, _, _, _, h4⟩ := (grid_view_eq grid j k l r t b1).mp hv
          rw [hb] at h4
          cases h4
          exact ⟨j, k, l, r, t, b, by omega, hv, by rw [← hmem _ _ hb, he]⟩

/-- Witness for C28: the example grid of three views has a table of two
columns and two rows, and every view ends within it. -/
theorem C28_grid_reads_in_bounds_witness :
    (∀ g ∈ exampleGrid, 0 ≤ g ∧ g < 2 ^ 31) ∧
    exampleGrid.length / 5 = 3 ∧
    (∀ i k, i < 3 → k ≤ 4 → 5 * i + k < exampleGrid.length) ∧
    get_grid_size 3 exampleGrid = some { rows := 2, cols := 2 } ∧
    (∀ i kind left right top bottom, i < 3 →
      grid_view exampleGrid i = some (kind, left, right, top, bottom) →
      right ≤ 2 ∧ bottom ≤ 2) := by
  have hpos : ∀ g ∈ exampleGrid, 0 ≤ g ∧ g < 2 ^ 31 := by decide
  have hsize : get_grid_size 3 exampleGrid = some { rows := 2, cols := 2 } := by decide
  have key := C28_grid_reads_in_bounds exampleGridEnv "" exampleGrid
  obtain ⟨size, hs, _, hfit⟩ := key.2.2.2
  have hlen : exampleGrid.length / 5 = 3 := rfl
  rw [hlen] at hs hfit
  rw [hsize] at hs
  cases hs
  refine ⟨hpos, hlen, ?_, hsize, (hfit hpos).1⟩
  have hb := key.2.1
  rw [hlen] at hb
  exact hb

/-- Claim C29: `time_cell_data_function` is injective on whole seconds. For
countdowns `a, b ≥ 0` of fewer than `2 ^ 32` whole seconds, the text of `a`
read back as `3600 * h + 60 * m + s` is `⌊a * 86400⌋`, the texts of `a` and `b`
differ when `⌊a * 86400⌋ ≠ ⌊b * 86400⌋`, and the text is not `Never`. -/
theorem C29_time_cell_injective_on_seconds (a b : ℚ) (ha : 0 ≤ a) (hb : 0 ≤ b)
    (hSa : ⌊a * 86400⌋ < 2 ^ 32) (hSb : ⌊b * 86400⌋ < 2 ^ 32) :
    (∃ text, time_cell_data_function a = some text ∧
      (parse_time text : Int) = ⌊a * 86400⌋ ∧ text ≠ "Never") ∧
    (⌊a * 86400⌋ ≠ ⌊b * 86400⌋ → time_cell_data_function a ≠ time_cell_data_function b) := by
  obtain ⟨ta, hta, pa⟩ := time_cell_parse a ha (countdown_seconds_lt a ha hSa)
  obtain ⟨tb, htb, pb⟩ := time_cell_parse b hb (countdown_seconds_lt b hb hSb)
  refine ⟨⟨ta, hta, ?_, ?_⟩, ?_⟩
  · rw [pa]; exact countdown_seconds_cast a ha
  · intro hn
    rw [hn] at hta
    exact absurd ((time_cell_never_iff a).mp hta) (not_lt.mpr ha)
  · intro hne heq
    apply hne
    rw [hta, htb] at heq
    have e : ta = tb := Option.some.inj heq
    rw [← countdown_seconds_cast a ha, ← countdown_seconds_cast b hb, ← pa, ← pb, e]

/-- Witness for C29: countdowns of 0.01 days (864 seconds) and of 0.05 days
(4320 seconds) have different texts, and the first one reads back as 864. -/
theorem C29_time_cell_injective_on_seconds_witness :
    (0 : ℚ) ≤ 1 / 100 ∧ (0 : ℚ) ≤ 1 / 20 ∧
      ⌊(1 / 100 : ℚ) * 86400⌋ = 864 ∧ ⌊(1 / 20 : ℚ) * 86400⌋ = 4320 ∧
      (∃ text, time_cell_data_function (1 / 100) = some text ∧
        (parse_time text : Int) = 864 ∧ text ≠ "Never") ∧
      time_cell_data_function (1 / 100) ≠ time_cell_data_function (1 / 20) := by
  have fa : ⌊(1 / 100 : ℚ) * 86400⌋ = 864 := by norm_num
  have fb : ⌊(1 / 20 : ℚ) * 86400⌋ = 4320 := by norm_num
  have ha : (0 : ℚ) ≤ 1 / 100 := by norm_num
  have hb : (0 : ℚ) ≤ 1 / 20 := by norm_num
  have key := C29_time_cell_injective_on_seconds (1 / 100) (1 / 20) ha hb
    (by rw [fa]; norm_num) (by rw [fb]; norm_num)
  rw [fa, fb] at key
  exact ⟨ha, hb, fa, fb, key.1, key.2 (by decide)⟩

end GPredict
